import Mathlib

/-!
# bluez_dbus_c_lib: a shallow embedding of the object synchronisation engine

The development follows the C sources `lm_adapter.c`, `lm_device.c`,
`lm_player.c`, `lm_transport.c` and `lm.c`.

Conventions of the embedding

* C strings are `String`; a nullable `const gchar *` is `Option String`.
* A `GHashTable` with string keys is an association list whose order is the
  iteration order of the table (see `GHashTable`).
* A pointer to an entity that lives in a map (device, player, transport) is
  the entity's object path; two live entities of one owner are the same object
  exactly when their paths agree.
* `lm_app_event_callback`, `g_dbus_connection_call`, `g_timeout_add*` and
  `g_source_remove` do not act on the entities: every function returns the
  chronological list of these effects next to the new state (`lm_effect`).
  The handlers the application registered are taken not to call back into the
  library while an event is delivered to them; what the application does in
  response is a later call.
* `g_assert` aborts the process; the functions describe the runs in which the
  assertions hold.  Log calls are dropped.
* One `PropertiesChanged` / `InterfacesAdded` entry is a value of a tagged
  type (`lm_device_property`, ...): one constructor for each branch of the
  `g_str_equal (property_name, ...)` chain of the source, carrying the value
  of the type that branch reads, and one constructor for every other name.
-/

set_option autoImplicit false

/-! ## GLib helpers -/

/-- `g_str_has_prefix (str, pfx)`: `str` begins with `pfx`. -/
def g_str_has_prefix (str pfx : String) : Bool :=
  pfx.data.isPrefixOf str.data

/-- `g_strstr_len (haystack, -1, needle) != NULL`: `needle` occurs in `haystack`. -/
def g_strstr_len (haystack needle : String) : Bool :=
  haystack.data.tails.any (fun t => needle.data.isPrefixOf t)

/-- A `GHashTable` whose keys are strings compared with `g_str_equal`.  The list
holds the entries in the order in which `g_hash_table_get_values` and
`g_hash_table_iter_next` visit them.  GLib leaves that order unspecified; here a
new key goes to the end of the list. -/
abbrev GHashTable (V : Type) := List (String × V)

/-- `g_hash_table_lookup`. -/
def g_hash_table_lookup {V : Type} (t : GHashTable V) (key : String) : Option V :=
  (t.find? (fun e => e.1 == key)).map (fun e => e.2)

/-- `g_hash_table_contains`. -/
def g_hash_table_contains {V : Type} (t : GHashTable V) (key : String) : Bool :=
  t.any (fun e => e.1 == key)

/-- `g_hash_table_insert`: the value of a key that is present is replaced, a new
key gets a new entry. -/
def g_hash_table_insert {V : Type} (t : GHashTable V) (key : String) (v : V) : GHashTable V :=
  if g_hash_table_contains t key then
    t.map (fun e => if e.1 == key then (e.1, v) else e)
  else
    t ++ [(key, v)]

/-- `g_hash_table_remove`. -/
def g_hash_table_remove {V : Type} (t : GHashTable V) (key : String) : GHashTable V :=
  t.filter (fun e => !(e.1 == key))

/-- `g_hash_table_get_values`. -/
def g_hash_table_get_values {V : Type} (t : GHashTable V) : List V :=
  t.map (fun e => e.2)

/-- The keys of a table, in iteration order. -/
def g_hash_table_get_keys {V : Type} (t : GHashTable V) : List String :=
  t.map (fun e => e.1)

/-! ## lm_type.h -/

def LM_MODULE_OFFSET : Nat := 27
def LM_MODULE_GENERAL : Nat := 0x00 <<< LM_MODULE_OFFSET
def LM_MODULE_ADAPTER : Nat := 0x01 <<< LM_MODULE_OFFSET
def LM_MODULE_DEVICE : Nat := 0x04 <<< LM_MODULE_OFFSET
def LM_MODULE_PLAYER : Nat := 0x05 <<< LM_MODULE_OFFSET
def LM_MODULE_TRANSPORT : Nat := 0x06 <<< LM_MODULE_OFFSET

def LM_STATUS_SUCCESS : Nat := LM_MODULE_GENERAL ||| 0
def LM_STATUS_FAIL : Nat := LM_MODULE_GENERAL ||| (1 <<< 0)
def LM_STATUS_INVALID_ARGS : Nat := LM_MODULE_GENERAL ||| (1 <<< 1)
def LM_STATUS_PENDING : Nat := LM_MODULE_GENERAL ||| (1 <<< 2)
def LM_STATUS_BUSY : Nat := LM_MODULE_GENERAL ||| (1 <<< 3)
def LM_STATUS_TIMEOUT : Nat := LM_MODULE_GENERAL ||| (1 <<< 4)
def LM_STATUS_NOT_READY : Nat := LM_MODULE_GENERAL ||| (1 <<< 5)

/-! ## Message identifiers (lm_adapter.h, lm_device.h, lm_player.h, lm_transport.h) -/

def LM_ADAPTER_POWER_ON_CNF : Nat := LM_MODULE_ADAPTER ||| 0x0001
def LM_ADAPTER_POWER_OFF_CNF : Nat := LM_MODULE_ADAPTER ||| 0x0002
def LM_ADAPTER_DISCOVERY_STATE_CHANGE_IND : Nat := LM_MODULE_ADAPTER ||| 0x0003
def LM_ADAPTER_DISCOVERY_RESULT_IND : Nat := LM_MODULE_ADAPTER ||| 0x0004
def LM_ADAPTER_BCAST_DISCOVERED_IND : Nat := LM_MODULE_ADAPTER ||| 0x0005
def LM_ADAPTER_DISCOVERY_COMPLETE_IND : Nat := LM_MODULE_ADAPTER ||| 0x0006
def LM_ADAPTER_LOCAL_BCAST_TRANSPORT_STATE_CHANGE_IND : Nat := LM_MODULE_ADAPTER ||| 0x0007

def LM_DEVICE_CONNECTED_IND : Nat := LM_MODULE_DEVICE ||| 0x0001
def LM_DEVICE_DISCONNECTED_IND : Nat := LM_MODULE_DEVICE ||| 0x0002
def LM_DEVICE_REMOVED_IND : Nat := LM_MODULE_DEVICE ||| 0x0003
def LM_DEVICE_BCAST_SYNC_UP_IND : Nat := LM_MODULE_DEVICE ||| 0x0004
def LM_DEVICE_BCAST_SYNC_LOST_IND : Nat := LM_MODULE_DEVICE ||| 0x0005
def LM_DEVICE_CONN_STATE_CHANGE_IND : Nat := LM_MODULE_DEVICE ||| 0x0007

def LM_PLAYER_ADDED_IND : Nat := LM_MODULE_PLAYER ||| 0x0001
def LM_PLAYER_REMOVED_IND : Nat := LM_MODULE_PLAYER ||| 0x0002
def LM_PLAYER_UPDATE_IND : Nat := LM_MODULE_PLAYER ||| 0x0003
def LM_PLAYER_STATUS_CHANGE_IND : Nat := LM_MODULE_PLAYER ||| 0x0004
def LM_PLAYER_TRACK_UPDATE_IND : Nat := LM_MODULE_PLAYER ||| 0x0005

def LM_TRANSPORT_ADDED_IND : Nat := LM_MODULE_TRANSPORT ||| 0x0001
def LM_TRANSPORT_REMOVED_IND : Nat := LM_MODULE_TRANSPORT ||| 0x0002
def LM_TRANSPORT_UPDATE_IND : Nat := LM_MODULE_TRANSPORT ||| 0x0003
def LM_TRANSPORT_STATE_CHANGE_IND : Nat := LM_MODULE_TRANSPORT ||| 0x0004
def LM_TRANSPORT_QOS_UPDATE_IND : Nat := LM_MODULE_TRANSPORT ||| 0x0005
def LM_TRANSPORT_VOLUME_CHANGE_IND : Nat := LM_MODULE_TRANSPORT ||| 0x0006

/-! ## Effects -/

/-- The payload `buf` of an application event: the `*_ind_t` / `*_cnf_t` struct
of the message, with entity pointers written as object paths. -/
inductive lm_buf where
  | null
  | adapter (adapter : String)
  | adapter_device (adapter device : String)
  | device (device : String)
  | device_bearer (adapter device bearer : String) (reason : Option String)
  | player (player : String)
  | transport (transport : String)
  | adapter_transport (adapter transport : String)
  | bcast_discovered (device : String) (method : Nat) (bcast_transports : List String)
  deriving DecidableEq, Repr

/-- The bus methods the adapter and the device call. -/
inductive lm_dbus_method where
  | ADAPTER_METHOD_START_DISCOVERY
  | ADAPTER_METHOD_STOP_DISCOVERY
  | ADAPTER_METHOD_SET_DISCOVERY_FILTER
  | ADAPTER_METHOD_REMOVE_DEVICE
  | PROPERTIES_METHOD_GET_ALL
  | PROPERTIES_METHOD_SET
  | DEVICE_METHOD_DISCONNECT
  deriving DecidableEq, Repr

/-- What a library function does to its environment, in program order. -/
inductive lm_effect where
  /-- The call `lm_app_event_callback (msg, status, buf)`. -/
  | event (msg status : Nat) (buf : lm_buf)
  /-- The call `g_dbus_connection_call` of a method on an object. -/
  | dbus_call (object_path : String) (method : lm_dbus_method)
  /-- The call `g_timeout_add_seconds` / `g_timeout_add` that returned `id`. -/
  | timeout_add (interval id : Nat)
  /-- The call `g_source_remove (id)`. -/
  | source_remove (id : Nat)
  deriving DecidableEq, Repr

/-- The effect is the event `msg`. -/
def lm_effect.is_event (msg : Nat) : lm_effect → Bool
  | .event m _ _ => m == msg
  | _ => false

/-- The effect is an application event. -/
def lm_effect.is_any_event : lm_effect → Bool
  | .event _ _ _ => true
  | _ => false

/-- The effect is a bus call. -/
def lm_effect.is_dbus_call : lm_effect → Bool
  | .dbus_call _ _ => true
  | _ => false

/-- How many events `msg` a run emitted. -/
def count_events (msg : Nat) (effects : List lm_effect) : Nat :=
  (effects.filter (lm_effect.is_event msg)).length

/-! ## lm_uuids.h

The header is not part of the sources: its service UUID strings are a
parameter of the development. -/

/-- The service UUID constants of `lm_uuids.h` that the modules read. -/
structure lm_uuids where
  NULL_SERVICE_UUID : String
  AUDIO_SINK_SERVICE_UUID : String
  SINK_PAC_SERVICE_UUID : String
  BASIC_AUDIO_AUNOUNCEMENT_SERVICE_UUID : String
  BCAST_AUDIO_AUNOUNCEMENT_SERVICE_UUID : String

/-- The Bluetooth SIG values of the constants, used for concrete runs. -/
def sig_uuids : lm_uuids where
  NULL_SERVICE_UUID := "00000000-0000-0000-0000-000000000000"
  AUDIO_SINK_SERVICE_UUID := "0000110b-0000-1000-8000-00805f9b34fb"
  SINK_PAC_SERVICE_UUID := "00002bc9-0000-1000-8000-00805f9b34fb"
  BASIC_AUDIO_AUNOUNCEMENT_SERVICE_UUID := "00001851-0000-1000-8000-00805f9b34fb"
  BCAST_AUDIO_AUNOUNCEMENT_SERVICE_UUID := "00001852-0000-1000-8000-00805f9b34fb"

/-! ## lm_transport.c -/

inductive lm_transport_profile_t where
  | LM_TRANSPORT_PROFILE_NULL
  | LM_TRANSPORT_PROFILE_A2DP_SINK
  | LM_TRANSPORT_PROFILE_BAP_SINK
  | LM_TRANSPORT_PROFILE_BAP_BCAST_SINK
  | LM_TRANSPORT_PROFILE_BAP_BCAST_SRC
  deriving DecidableEq, Repr

inductive lm_transport_state_t where
  | LM_TRANSPORT_ERROR
  | LM_TRANSPORT_IDLE
  | LM_TRANSPORT_PENDING
  | LM_TRANSPORT_BROADCASTING
  | LM_TRANSPORT_ACTIVE
  deriving DecidableEq, Repr

/-- The struct `lm_transport_qos_t`; `bcode_size` is kept next to `bcode` as in C. -/
structure lm_transport_qos_t where
  big : Nat := 0
  bis : Nat := 0
  sync_factor : Nat := 0
  packing : Nat := 0
  framing : Nat := 0
  encryption : Nat := 0
  bcode : List Nat := []
  bcode_size : Nat := 0
  options : Nat := 0
  skip : Nat := 0
  sync_timeout : Nat := 0
  sync_cte_type : Nat := 0
  mse : Nat := 0
  timeout : Nat := 0
  pa_sync : Nat := 0
  interval : Nat := 0
  latency : Nat := 0
  sdu : Nat := 0
  phy : Nat := 0
  rtn : Nat := 0
  presentation_delay : Nat := 0
  deriving DecidableEq, Repr

/-- The struct `lm_transport`.  `device` is the owning device (its path), `none`
for the broadcast source transport of the adapter; `config` and `meta` stand for
the buffer together with its size. -/
structure lm_transport where
  device : Option String
  path : String
  device_path : Option String := none
  uuid : Option String := none
  codec : Nat := 0
  config : List Nat := []
  state : Option String := none
  delay : Nat := 0
  volume : Nat := 0
  endpoint : Option String := none
  location : Nat := 0
  meta : List Nat := []
  qos : lm_transport_qos_t := {}
  profile : lm_transport_profile_t := .LM_TRANSPORT_PROFILE_NULL
  deriving DecidableEq, Repr

/-- One entry of the `QoS` dictionary: the keys `lm_transport_update_property`
compares with, and any other key. -/
inductive lm_transport_qos_entry where
  | BIG (v : Nat)
  | BIS (v : Nat)
  | BCode (v : List Nat)
  | Framing (v : Nat)
  | PresentationDelay (v : Nat)
  | Interval (v : Nat)
  | PHY (v : Nat)
  | SDU (v : Nat)
  | Retransmissions (v : Nat)
  | Latency (v : Nat)
  | other (key : String)
  deriving DecidableEq, Repr

/-- One (name, value) pair of a media transport property dictionary. -/
inductive lm_transport_property where
  | MEDIA_TRANSPORT_PROPERTY_DEVICE (v : String)
  | MEDIA_TRANSPORT_PROPERTY_UUID (v : String)
  | MEDIA_TRANSPORT_PROPERTY_CODEC (v : Nat)
  | MEDIA_TRANSPORT_PROPERTY_CONFIG (v : List Nat)
  | MEDIA_TRANSPORT_PROPERTY_STATE (v : String)
  | MEDIA_TRANSPORT_PROPERTY_DELAY (v : Nat)
  | MEDIA_TRANSPORT_PROPERTY_VOLUME (v : Nat)
  | MEDIA_TRANSPORT_PROPERTY_ENDPOINT (v : String)
  | MEDIA_TRANSPORT_PROPERTY_LOCATION (v : Nat)
  | MEDIA_TRANSPORT_PROPERTY_METADATA (v : List Nat)
  | MEDIA_TRANSPORT_PROPERTY_QOS (v : List lm_transport_qos_entry)
  | other (name : String)
  deriving DecidableEq, Repr

/-- The table `transport_profile_map`. -/
def transport_profile_map (U : lm_uuids) : List (lm_transport_profile_t × String) :=
  [ (.LM_TRANSPORT_PROFILE_NULL, U.NULL_SERVICE_UUID),
    (.LM_TRANSPORT_PROFILE_A2DP_SINK, U.AUDIO_SINK_SERVICE_UUID),
    (.LM_TRANSPORT_PROFILE_BAP_SINK, U.SINK_PAC_SERVICE_UUID),
    (.LM_TRANSPORT_PROFILE_BAP_BCAST_SINK, U.BASIC_AUDIO_AUNOUNCEMENT_SERVICE_UUID),
    (.LM_TRANSPORT_PROFILE_BAP_BCAST_SRC, U.BCAST_AUDIO_AUNOUNCEMENT_SERVICE_UUID) ]

def lm_transport_uuid_to_profile (U : lm_uuids) (uuid : Option String) : lm_transport_profile_t :=
  match uuid with
  | none => .LM_TRANSPORT_PROFILE_NULL
  | some u =>
    match (transport_profile_map U).find? (fun e => e.2 == u) with
    | some e => e.1
    | none => .LM_TRANSPORT_PROFILE_NULL

def lm_transport_create (device : Option String) (path : String) : lm_transport :=
  { device := device, path := path }

/-- The table `transport_state_str`. -/
def transport_state_str : List (String × lm_transport_state_t) :=
  [ ("error", .LM_TRANSPORT_ERROR), ("idle", .LM_TRANSPORT_IDLE),
    ("pending", .LM_TRANSPORT_PENDING), ("broadcasting", .LM_TRANSPORT_BROADCASTING),
    ("active", .LM_TRANSPORT_ACTIVE) ]

def lm_transport_string_to_state (state_str : Option String) : lm_transport_state_t :=
  match state_str with
  | none => .LM_TRANSPORT_ERROR
  | some s =>
    match transport_state_str.find? (fun e => e.1 == s) with
    | some e => e.2
    | none => .LM_TRANSPORT_ERROR

def lm_transport_get_path (transport : lm_transport) : String := transport.path

def lm_transport_get_uuid (transport : lm_transport) : Option String := transport.uuid

def lm_transport_get_profile (transport : lm_transport) : lm_transport_profile_t :=
  transport.profile

/-- The body of the `QoS` loop of `lm_transport_update_property` for one entry. -/
def lm_transport_update_qos (qos : lm_transport_qos_t) : lm_transport_qos_entry → lm_transport_qos_t
  | .BIG v => { qos with big := v }
  | .BIS v => { qos with bis := v }
  | .BCode v => { qos with bcode := v, bcode_size := v.length % 65536 }
  | .Framing v => { qos with framing := v }
  | .PresentationDelay v => { qos with presentation_delay := v }
  | .Interval v => { qos with interval := v }
  | .PHY v => { qos with phy := v }
  | .SDU v => { qos with sdu := v }
  | .Retransmissions v => { qos with rtn := v }
  | .Latency v => { qos with latency := v }
  | .other _ => qos

/-- The event a property update sends when the transport has an owning device
and is that device's active transport: `if (!transport->device) return;
if (lm_device_get_active_transport (transport->device) == transport) ...`.
`active_transport` is the field of the owning device. -/
def lm_transport_active_event (active_transport : Option String) (transport : lm_transport)
    (msg : Nat) : List lm_effect :=
  match transport.device with
  | none => []
  | some _ =>
    if active_transport = some transport.path then
      [.event msg LM_STATUS_SUCCESS (.transport transport.path)]
    else []

/-- `lm_transport_update_property`; `active_transport` is the active transport of
the owning device, read by `lm_device_get_active_transport (transport->device)`. -/
def lm_transport_update_property (U : lm_uuids) (active_transport : Option String)
    (transport : lm_transport) : lm_transport_property → lm_transport × List lm_effect
  | .MEDIA_TRANSPORT_PROPERTY_DEVICE v => ({ transport with device_path := some v }, [])
  | .MEDIA_TRANSPORT_PROPERTY_UUID v =>
    ({ transport with uuid := some v, profile := lm_transport_uuid_to_profile U (some v) }, [])
  | .MEDIA_TRANSPORT_PROPERTY_CODEC v => ({ transport with codec := v }, [])
  | .MEDIA_TRANSPORT_PROPERTY_CONFIG v => ({ transport with config := v }, [])
  | .MEDIA_TRANSPORT_PROPERTY_STATE v =>
    let transport := { transport with state := some v }
    (transport, lm_transport_active_event active_transport transport LM_TRANSPORT_STATE_CHANGE_IND)
  | .MEDIA_TRANSPORT_PROPERTY_DELAY v => ({ transport with delay := v }, [])
  | .MEDIA_TRANSPORT_PROPERTY_VOLUME v =>
    let transport := { transport with volume := v }
    (transport, lm_transport_active_event active_transport transport LM_TRANSPORT_VOLUME_CHANGE_IND)
  | .MEDIA_TRANSPORT_PROPERTY_ENDPOINT v => ({ transport with endpoint := some v }, [])
  | .MEDIA_TRANSPORT_PROPERTY_LOCATION v => ({ transport with location := v }, [])
  | .MEDIA_TRANSPORT_PROPERTY_METADATA v => ({ transport with meta := v }, [])
  | .MEDIA_TRANSPORT_PROPERTY_QOS v =>
    let transport := { transport with qos := v.foldl lm_transport_update_qos transport.qos }
    (transport, lm_transport_active_event active_transport transport LM_TRANSPORT_QOS_UPDATE_IND)
  | .other _ => (transport, [])

/-- The loop `while (g_variant_iter_loop (&iter, "{&sv}", ...))
lm_transport_update_property (transport, property_name, property_value);`. -/
def lm_transport_update_properties (U : lm_uuids) (active_transport : Option String)
    (transport : lm_transport) : List lm_transport_property → lm_transport × List lm_effect
  | [] => (transport, [])
  | p :: ps =>
    let r := lm_transport_update_property U active_transport transport p
    let rs := lm_transport_update_properties U active_transport r.1 ps
    (rs.1, r.2 ++ rs.2)

/-! ## lm_player.c -/

inductive lm_player_profile_t where
  | LM_PLAYER_PROFILE_NULL
  | LM_PLAYER_PROFILE_AVRCP
  | LM_PLAYER_PROFILE_MCP
  deriving DecidableEq, Repr

inductive lm_player_status_t where
  | LM_PLAYER_PLAYING
  | LM_PLAYER_STOPPED
  | LM_PLAYER_PAUSED
  | LM_PLAYER_FORWARD_SEEK
  | LM_PLAYER_REVERSE_SEEK
  | LM_PLAYER_ERROR
  deriving DecidableEq, Repr

/-- The struct `lm_player_track_t`. -/
structure lm_player_track_t where
  title : Option String := none
  artist : Option String := none
  album : Option String := none
  gerneral_name : Option String := none
  number_of_tracks : Nat := 0
  track_number : Nat := 0
  duration : Nat := 0
  image_handle : Option String := none
  deriving DecidableEq, Repr

/-- The struct `lm_player`; `device` is the owning device (its path). -/
structure lm_player where
  device : String
  device_path : Option String := none
  path : String
  name : Option String := none
  type : Option String := none
  status : Option String := none
  position : Nat := 0
  track : lm_player_track_t := {}
  profile : lm_player_profile_t := .LM_PLAYER_PROFILE_NULL
  deriving DecidableEq, Repr

/-- One entry of the `Track` dictionary. -/
inductive lm_player_track_entry where
  | Title (v : String)
  | Artist (v : String)
  | Album (v : String)
  | Genre (v : String)
  | NumberOfTracks (v : Nat)
  | TrackNumber (v : Nat)
  | Duration (v : Nat)
  | ImgHandle (v : String)
  | other (key : String)
  deriving DecidableEq, Repr

/-- One (name, value) pair of a media player property dictionary. -/
inductive lm_player_property where
  | MEDIA_PLAYER_PROPERTY_DEVICE (v : String)
  | MEDIA_PLAYER_PROPERTY_NAME (v : String)
  | MEDIA_PLAYER_PROPERTY_TYPE (v : String)
  | MEDIA_PLAYER_PROPERTY_STATUS (v : String)
  | MEDIA_PLAYER_PROPERTY_POSITION (v : Nat)
  | MEDIA_PLAYER_PROPERTY_TRACK (v : List lm_player_track_entry)
  | other (name : String)
  deriving DecidableEq, Repr

def lm_player_path_to_profile (path : Option String) : lm_player_profile_t :=
  match path with
  | none => .LM_PLAYER_PROFILE_NULL
  | some path =>
    if g_strstr_len path "/avrcp/" then .LM_PLAYER_PROFILE_AVRCP
    else if g_strstr_len path "/mcp/" then .LM_PLAYER_PROFILE_MCP
    else .LM_PLAYER_PROFILE_NULL

def lm_player_create (device : String) (path : String) : lm_player :=
  { device := device,
    path := path,
    status := some "stopped",
    position := 0,
    profile := lm_player_path_to_profile (some path),
    track := {} }

/-- The body of the `Track` loop of `lm_player_update_property` for one entry. -/
def lm_player_update_track (track : lm_player_track_t) : lm_player_track_entry → lm_player_track_t
  | .Title v => { track with title := some v }
  | .Artist v => { track with artist := some v }
  | .Album v => { track with album := some v }
  | .Genre v => { track with gerneral_name := some v }
  | .NumberOfTracks v => { track with number_of_tracks := v }
  | .TrackNumber v => { track with track_number := v }
  | .Duration v => { track with duration := v }
  | .ImgHandle v => { track with image_handle := some v }
  | .other _ => track

/-- The event a property update sends when
`lm_device_get_active_player (player->device) == player`; `active_player` is the
field of the owning device. -/
def lm_player_active_event (active_player : Option String) (player : lm_player)
    (msg : Nat) : List lm_effect :=
  if active_player = some player.path then
    [.event msg LM_STATUS_SUCCESS (.player player.path)]
  else []

/-- `lm_player_update_property`; `active_player` is the active player of the
owning device. -/
def lm_player_update_property (active_player : Option String) (player : lm_player) :
    lm_player_property → lm_player × List lm_effect
  | .MEDIA_PLAYER_PROPERTY_DEVICE v => ({ player with device_path := some v }, [])
  | .MEDIA_PLAYER_PROPERTY_NAME v => ({ player with name := some v }, [])
  | .MEDIA_PLAYER_PROPERTY_TYPE v => ({ player with type := some v }, [])
  | .MEDIA_PLAYER_PROPERTY_STATUS v =>
    let player := { player with status := some v }
    (player, lm_player_active_event active_player player LM_PLAYER_STATUS_CHANGE_IND)
  | .MEDIA_PLAYER_PROPERTY_POSITION v => ({ player with position := v }, [])
  | .MEDIA_PLAYER_PROPERTY_TRACK v =>
    let player := { player with track := v.foldl lm_player_update_track player.track }
    (player, lm_player_active_event active_player player LM_PLAYER_TRACK_UPDATE_IND)
  | .other _ => (player, [])

/-- The loop that applies every entry of a property dictionary to a player. -/
def lm_player_update_properties (active_player : Option String) (player : lm_player) :
    List lm_player_property → lm_player × List lm_effect
  | [] => (player, [])
  | p :: ps =>
    let r := lm_player_update_property active_player player p
    let rs := lm_player_update_properties active_player r.1 ps
    (rs.1, r.2 ++ rs.2)

def lm_player_get_profile (player : lm_player) : lm_player_profile_t := player.profile

def lm_player_get_path (player : lm_player) : String := player.path

/-! ## lm_device.c -/

/-- The bits of `lm_device_conn_bearer_t`. -/
def LM_DEVICE_CONN_NONE : Nat := 0
def LM_DEVICE_CONN_LE : Nat := 1 <<< 0
def LM_DEVICE_CONN_BREDR : Nat := 1 <<< 1
def LM_DEVICE_CONN_DUAL : Nat := LM_DEVICE_CONN_LE ||| LM_DEVICE_CONN_BREDR

inductive lm_device_connection_state_t where
  | LM_DEVICE_DISCONNECTED
  | LM_DEVICE_CONNECTED
  | LM_DEVICE_CONNECTING
  | LM_DEVICE_DISCONNECTING
  deriving DecidableEq, Repr

inductive lm_device_bonding_state_t where
  | LM_DEVICE_BOND_NONE
  | LM_DEVICE_BONDING
  | LM_DEVICE_BONDED
  deriving DecidableEq, Repr

inductive lm_transport_audio_location_t where
  | LM_TRANSPORT_AUDIO_LOCATION_NONE
  | LM_TRANSPORT_AUDIO_LOCATION_MONO_LEFT
  | LM_TRANSPORT_AUDIO_LOCATION_MONO_RIGHT
  | LM_TRANSPORT_AUDIO_LOCATION_STEREO
  deriving DecidableEq, Repr

/-- The struct `lm_device`.  `adapter` is the owning adapter (its path);
`active_player` and `active_transport` point into `players` and `transports`;
`uuids` is the `GList` of UUID strings (`NULL` is the empty list); the bus
connection, the subscription ids and the unused GATT tables are left out;
`alias_` is the field `alias`. -/
structure lm_device where
  adapter : String
  path : String
  name : Option String := none
  address : String
  address_type : Option String := none
  alias_ : Option String := none
  services_resolved : Bool := false
  service_discovery_started : Bool := false
  paired : Bool := false
  rssi : Int := -255
  trusted : Bool := false
  txpower : Int := -255
  manufacturer_data : Option (List (Nat × List Nat)) := none
  service_data : Option (GHashTable (List Nat)) := none
  uuids : List String := []
  mtu : Nat := 23
  connection_state : lm_device_connection_state_t := .LM_DEVICE_DISCONNECTED
  bonding_state : lm_device_bonding_state_t := .LM_DEVICE_BOND_NONE
  conn_bearer : Nat := 0
  active_player : Option String := none
  players : GHashTable lm_player := []
  active_transport : Option String := none
  transports : GHashTable lm_transport := []
  bcast_transport_timer_id : Nat := 0
  bcast_audio_location : lm_transport_audio_location_t := .LM_TRANSPORT_AUDIO_LOCATION_MONO_LEFT
  bcast_sync_notified : Bool := false
  deriving DecidableEq, Repr

/-- One (name, value) pair of a device property dictionary. -/
inductive lm_device_property where
  | DEVICE_PROPERTY_ADDRESS (v : String)
  | DEVICE_PROPERTY_ADDRESS_TYPE (v : String)
  | DEVICE_PROPERTY_ALIAS (v : String)
  | DEVICE_PROPERTY_CONNECTED (v : Bool)
  | DEVICE_PROPERTY_NAME (v : String)
  | DEVICE_PROPERTY_PAIRED (v : Bool)
  | DEVICE_PROPERTY_RSSI (v : Int)
  | DEVICE_PROPERTY_TRUSTED (v : Bool)
  | DEVICE_PROPERTY_TXPOWER (v : Int)
  | DEVICE_PROPERTY_UUIDS (v : List String)
  | DEVICE_PROPERTY_MANUFACTURER_DATA (v : List (Nat × List Nat))
  | DEVICE_PROPERTY_SERVICE_DATA (v : List (String × List Nat))
  | other (name : String)
  deriving DecidableEq, Repr

/-- The text after the first `"/dev_"` of a path, if there is one (`strstr`). -/
def strstr_dev : List Char → Option (List Char)
  | [] => none
  | c :: cs =>
    if ("/dev_".data).isPrefixOf (c :: cs) then some ((c :: cs).drop 5) else strstr_dev cs

/-- The check `bachk` of libbluetooth on which `str2ba` relies: seventeen
characters, pairs of hexadecimal digits separated by colons. -/
def bachk (str : List Char) : Bool :=
  str.length == 17 &&
    (List.range 17).all (fun i =>
      let c := str.getD i ' '
      if i % 3 == 2 then c == ':' else (c.isDigit || ('a' ≤ c && c ≤ 'f') || ('A' ≤ c && c ≤ 'F')))

/-- The address string `lm_device_create_with_path` stores:
`lm_utils_dbus_bluez_object_path_to_bdaddr` copies the seventeen characters
after `"/dev_"`, turns `_` into `:` and parses them with `str2ba` (which zeroes
the address when the text is not an address); the bytes are printed back with
`"%.2X:%.2X:%.2X:%.2X:%.2X:%.2X"`. -/
def lm_utils_dbus_bluez_object_path_to_bdaddr (path : String) : String :=
  let tmp := match strstr_dev path.data with
    | some rest => (rest.take 17).map (fun c => if c == '_' then ':' else c)
    | none => []
  if bachk tmp then String.mk (tmp.map Char.toUpper) else "00:00:00:00:00:00"

def lm_device_create_with_path (adapter : String) (path : String) : lm_device :=
  { adapter := adapter,
    rssi := -255,
    txpower := -255,
    mtu := 23,
    path := path,
    address := lm_utils_dbus_bluez_object_path_to_bdaddr path,
    players := [],
    transports := [] }

def lm_device_get_connection_state (device : lm_device) : lm_device_connection_state_t :=
  device.connection_state

def lm_device_get_rssi (device : lm_device) : Int := device.rssi

def lm_device_get_name (device : lm_device) : Option String := device.name

def lm_device_get_address (device : lm_device) : String := device.address

def lm_device_get_path (device : lm_device) : String := device.path

def lm_device_get_active_player (device : lm_device) : Option String := device.active_player

def lm_device_get_active_transport (device : lm_device) : Option String :=
  device.active_transport

def lm_device_set_conn_state (device : lm_device) (state : lm_device_connection_state_t) :
    lm_device × List lm_effect :=
  let old_state := device.connection_state
  let device := { device with connection_state := state }
  if device.connection_state ≠ old_state then
    (device, [.event LM_DEVICE_CONN_STATE_CHANGE_IND LM_STATUS_SUCCESS
      (.adapter_device device.adapter device.path)])
  else (device, [])

def lm_device_set_bonding_state (device : lm_device)
    (bonding_state : lm_device_bonding_state_t) : lm_device :=
  { device with bonding_state := bonding_state }

def lm_device_set_paired (device : lm_device) (paired : Bool) : lm_device :=
  lm_device_set_bonding_state { device with paired := paired }
    (if paired then .LM_DEVICE_BONDED else .LM_DEVICE_BOND_NONE)

/-- The table that the `ManufacturerData` branch fills: keys compared with
`g_int_equal`, a repeated key keeps its place and takes the later value. -/
def g_int_hash_table_insert (t : List (Nat × List Nat)) (key : Nat) (v : List Nat) :
    List (Nat × List Nat) :=
  if t.any (fun e => e.1 == key) then t.map (fun e => if e.1 == key then (e.1, v) else e)
  else t ++ [(key, v)]

def lm_device_has_service (device : lm_device) (service_uuid : String) : Bool :=
  device.uuids.any (fun u => service_uuid == u)

def lm_device_is_special_device (U : lm_uuids) (device : lm_device) : Bool :=
  device.uuids.any (fun u => u == U.BCAST_AUDIO_AUNOUNCEMENT_SERVICE_UUID)

def lm_device_update_property (device : lm_device) :
    lm_device_property → lm_device × List lm_effect
  | .DEVICE_PROPERTY_ADDRESS v => ({ device with address := v }, [])
  | .DEVICE_PROPERTY_ADDRESS_TYPE v => ({ device with address_type := some v }, [])
  | .DEVICE_PROPERTY_ALIAS v => ({ device with alias_ := some v }, [])
  | .DEVICE_PROPERTY_CONNECTED v =>
    lm_device_set_conn_state device (if v then .LM_DEVICE_CONNECTED else .LM_DEVICE_DISCONNECTED)
  | .DEVICE_PROPERTY_NAME v => ({ device with name := some v }, [])
  | .DEVICE_PROPERTY_PAIRED v => (lm_device_set_paired device v, [])
  | .DEVICE_PROPERTY_RSSI v => ({ device with rssi := v }, [])
  | .DEVICE_PROPERTY_TRUSTED v => ({ device with trusted := v }, [])
  | .DEVICE_PROPERTY_TXPOWER v => ({ device with txpower := v }, [])
  | .DEVICE_PROPERTY_UUIDS v => ({ device with uuids := v }, [])
  | .DEVICE_PROPERTY_MANUFACTURER_DATA v =>
    let manufacturer_data := v.foldl (fun t e => g_int_hash_table_insert t e.1 e.2) []
    ({ device with manufacturer_data := some manufacturer_data }, [])
  | .DEVICE_PROPERTY_SERVICE_DATA v =>
    let service_data := v.foldl (fun t e => g_hash_table_insert t e.1 e.2) []
    ({ device with service_data := some service_data }, [])
  | .other _ => (device, [])

/-- The loop that applies every entry of a property dictionary to a device. -/
def lm_device_update_properties (device : lm_device) :
    List lm_device_property → lm_device × List lm_effect
  | [] => (device, [])
  | p :: ps =>
    let r := lm_device_update_property device p
    let rs := lm_device_update_properties r.1 ps
    (rs.1, r.2 ++ rs.2)

/-- One entry of the interface dictionary of an `InterfacesAdded` signal: the
interface name with its property dictionary. -/
inductive lm_interface_added where
  | INTERFACE_DEVICE (properties : List lm_device_property)
  | INTERFACE_MEDIA_PLAYER (properties : List lm_player_property)
  | INTERFACE_MEDIA_TRANSPORT (properties : List lm_transport_property)
  | other (interface_name : String)
  deriving DecidableEq, Repr

/-- One entry of the interface array of an `InterfacesRemoved` signal. -/
inductive lm_interface_removed where
  | INTERFACE_DEVICE
  | INTERFACE_MEDIA_PLAYER
  | INTERFACE_MEDIA_TRANSPORT
  | other (interface_name : String)
  deriving DecidableEq, Repr

/-- The value object of a key is changed through the pointer that
`g_hash_table_lookup` returned: the entry keeps its place. -/
def g_hash_table_store {V : Type} (t : GHashTable V) (key : String) (v : V) : GHashTable V :=
  t.map (fun e => if e.1 == key then (e.1, v) else e)

def lm_device_find_player (device : lm_device) (profile : lm_player_profile_t) :
    Option String :=
  let all_players := g_hash_table_get_values device.players
  (all_players.find? (fun p => lm_player_get_profile p == profile)).map lm_player_get_path

/-- The payload of a player indication: `.player = device->active_player`. -/
def lm_player_ind (player : Option String) : lm_buf :=
  match player with
  | some p => .player p
  | none => .null

def lm_device_update_active_player (device : lm_device) : lm_device × List lm_effect :=
  let old_active := device.active_player
  /- avrcp player gets the higher priority -/
  let new_active := lm_device_find_player device .LM_PLAYER_PROFILE_AVRCP
  let new_active := if new_active.isNone then
      lm_device_find_player device .LM_PLAYER_PROFILE_MCP else new_active
  if old_active = new_active then (device, [])
  else
    let device := { device with active_player := new_active }
    if old_active.isNone && device.active_player.isSome then
      (device, [.event LM_PLAYER_ADDED_IND LM_STATUS_SUCCESS (lm_player_ind device.active_player)])
    else if old_active.isSome && device.active_player.isNone then
      (device, [.event LM_PLAYER_REMOVED_IND LM_STATUS_SUCCESS .null])
    else if old_active ≠ device.active_player then
      (device, [.event LM_PLAYER_UPDATE_IND LM_STATUS_SUCCESS (lm_player_ind device.active_player)])
    else (device, [])

def lm_device_find_transport (device : lm_device) (profile : lm_transport_profile_t) :
    Option String :=
  let all_trans := g_hash_table_get_values device.transports
  (all_trans.find? (fun t => lm_transport_get_profile t == profile)).map lm_transport_get_path

/-- The payload of a transport indication: `.transport = device->active_transport`. -/
def lm_transport_ind (transport : Option String) : lm_buf :=
  match transport with
  | some t => .transport t
  | none => .null

def lm_device_update_active_transport (device : lm_device) : lm_device × List lm_effect :=
  let old_active := device.active_transport
  /- a2dp sink transport gets the higher priority -/
  let new_active := lm_device_find_transport device .LM_TRANSPORT_PROFILE_A2DP_SINK
  let new_active := if new_active.isNone then
      lm_device_find_transport device .LM_TRANSPORT_PROFILE_BAP_SINK else new_active
  if old_active = new_active then (device, [])
  else
    let device := { device with active_transport := new_active }
    if old_active.isNone && device.active_transport.isSome then
      (device, [.event LM_TRANSPORT_ADDED_IND LM_STATUS_SUCCESS
        (lm_transport_ind device.active_transport)])
    else if old_active.isSome && device.active_transport.isNone then
      (device, [.event LM_TRANSPORT_REMOVED_IND LM_STATUS_SUCCESS .null])
    else if old_active ≠ device.active_transport then
      (device, [.event LM_TRANSPORT_UPDATE_IND LM_STATUS_SUCCESS
        (lm_transport_ind device.active_transport)])
    else (device, [])

def BCAST_TRANSPORT_TIMER_LENGTH : Nat := 100

/-- The body of the loop of the device's `on_interface_appeared` for one
interface of the object `object`; `id` is what `g_timeout_add` returns when the
body arms the broadcast timer. -/
def lm_device_on_interface_appeared_entry (U : lm_uuids) (id : Nat) (object : String)
    (device : lm_device) : lm_interface_added → lm_device × List lm_effect
  | .INTERFACE_MEDIA_PLAYER properties =>
    /- Skip this player if it is not for this device -/
    if !( g_str_has_prefix object device.path) then (device, [])
    else
      let found := g_hash_table_lookup device.players object
      let player := found.getD (lm_player_create device.path object)
      let device := if found.isNone then
          { device with players := g_hash_table_insert device.players object player }
        else device
      let r := lm_player_update_properties device.active_player player properties
      let device := { device with players := g_hash_table_store device.players object r.1 }
      let u := lm_device_update_active_player device
      (u.1, r.2 ++ u.2)
  | .INTERFACE_MEDIA_TRANSPORT properties =>
    /- Skip this transport if it is not for this device -/
    if !( g_str_has_prefix object device.path) then (device, [])
    else
      let found := g_hash_table_lookup device.transports object
      let transport := found.getD (lm_transport_create (some device.path) object)
      let device := if found.isNone then
          { device with transports := g_hash_table_insert device.transports object transport }
        else device
      let r := lm_transport_update_properties U device.active_transport transport properties
      let transport := r.1
      let device := { device with transports := g_hash_table_store device.transports object transport }
      let u := lm_device_update_active_transport device
      let device := u.1
      if lm_transport_get_profile transport = .LM_TRANSPORT_PROFILE_BAP_BCAST_SINK
          ∧ device.bcast_transport_timer_id = 0 then
        /- delay to wait transport setup done -/
        ({ device with bcast_transport_timer_id := id },
          r.2 ++ u.2 ++ [.timeout_add BCAST_TRANSPORT_TIMER_LENGTH id])
      else (device, r.2 ++ u.2)
  | _ => (device, [])

/-- The device's handler `on_interface_appeared` of `lm_device.c` for the signal
`InterfacesAdded (object, interfaces)`. -/
def lm_device_on_interface_appeared (U : lm_uuids) (id : Nat) (device : lm_device)
    (object : String) : List lm_interface_added → lm_device × List lm_effect
  | [] => (device, [])
  | i :: is =>
    let r := lm_device_on_interface_appeared_entry U id object device i
    let rs := lm_device_on_interface_appeared U id r.1 object is
    (rs.1, r.2 ++ rs.2)

/-- The body of the loop of the device's `on_interface_disappeared` for one
interface name. -/
def lm_device_on_interface_disappeared_entry (object : String) (device : lm_device) :
    lm_interface_removed → lm_device × List lm_effect
  | .INTERFACE_MEDIA_PLAYER =>
    if !( g_str_has_prefix object device.path) then (device, [])
    else
      match g_hash_table_lookup device.players object with
      | none => (device, [])
      | some _ =>
        let device := { device with players := g_hash_table_remove device.players object }
        lm_device_update_active_player device
  | .INTERFACE_MEDIA_TRANSPORT =>
    if !( g_str_has_prefix object device.path) then (device, [])
    else
      match g_hash_table_lookup device.transports object with
      | none => (device, [])
      | some transport =>
        let profile := lm_transport_get_profile transport
        let device := { device with transports := g_hash_table_remove device.transports object }
        let u := lm_device_update_active_transport device
        let device := u.1
        if profile = .LM_TRANSPORT_PROFILE_BAP_BCAST_SINK
            ∧ lm_device_find_transport device .LM_TRANSPORT_PROFILE_BAP_BCAST_SINK = none then
          /- all BAP BCAST SINK transports disappeared -/
          (device, u.2 ++ [.event LM_DEVICE_BCAST_SYNC_LOST_IND LM_STATUS_SUCCESS
            (.device device.path)])
        else (device, u.2)
  | _ => (device, [])

/-- The device's handler `on_interface_disappeared` of `lm_device.c` for the
signal `InterfacesRemoved (object, interfaces)`. -/
def lm_device_on_interface_disappeared (device : lm_device) (object : String) :
    List lm_interface_removed → lm_device × List lm_effect
  | [] => (device, [])
  | i :: is =>
    let r := lm_device_on_interface_disappeared_entry object device i
    let rs := lm_device_on_interface_disappeared r.1 object is
    (rs.1, r.2 ++ rs.2)

/-! ## lm_adapter.c -/

inductive lm_adapter_power_state_t where
  | LM_ADAPTER_POWER_ON
  | LM_ADAPTER_POWER_OFF
  | LM_ADAPTER_POWER_TURNING_ON
  | LM_ADAPTER_POWER_TURNING_OFF
  | LM_ADAPTER_POWER_OFF_BLOCKED
  deriving DecidableEq, Repr

inductive lm_adapter_discovery_state_t where
  | LM_ADAPTER_DISCOVERY_STOPPED
  | LM_ADAPTER_DISCOVERY_STARTING
  | LM_ADAPTER_DISCOVERY_STARTED
  | LM_ADAPTER_DISCOVERY_STOPPING
  deriving DecidableEq, Repr

/-- The struct `lm_adapter_discovery_filter_t`; `services` is the `GPtrArray` of
UUID strings (`none` is `NULL`), `pattern` may be `NULL`. -/
structure lm_adapter_discovery_filter_t where
  rssi : Int
  services : Option (List String)
  pattern : Option String
  max_devices : Nat
  timeout : Nat
  deriving DecidableEq, Repr

/-- The struct `lm_adapter`; the HCI device info, the bus connection, the
subscription ids and the advertisement are left out; `alias_` is the field
`alias`. -/
structure lm_adapter where
  path : String
  address : Option String := none
  alias_ : Option String := none
  powered : Bool := false
  discoverable : Bool := false
  connectable : Bool := false
  discovering : Bool := false
  advertising : Bool := false
  calling_method : Option lm_dbus_method := none
  power_state : lm_adapter_power_state_t := .LM_ADAPTER_POWER_OFF
  discovery_state : lm_adapter_discovery_state_t := .LM_ADAPTER_DISCOVERY_STOPPED
  discovery_filter : Option lm_adapter_discovery_filter_t := none
  discovery_timer_id : Nat := 0
  discovery_devices_found : Nat := 0
  device_cache : GHashTable lm_device := []
  bis_src_transport : Option lm_transport := none
  deriving DecidableEq, Repr

/-- The outcome of an asynchronous bus call as the completion callback sees it:
no error, or an error with the remote error name that
`g_dbus_error_get_remote_error` returns (`none` when it returns `NULL`). -/
inductive lm_dbus_result where
  | success
  | error (remote_error : Option String)
  deriving DecidableEq, Repr

def lm_adapter_create (path : String) : lm_adapter :=
  { path := path,
    alias_ := none,
    address := none,
    power_state := .LM_ADAPTER_POWER_OFF,
    discovery_state := .LM_ADAPTER_DISCOVERY_STOPPED,
    discovery_filter := none,
    device_cache := [] }

def matches_discovery_filter (adapter : lm_adapter) (device : lm_device) : Bool :=
  match adapter.discovery_filter with
  | none => true
  | some discovery_filter =>
    if lm_device_get_rssi device < discovery_filter.rssi then false
    else
      let pattern := discovery_filter.pattern
      let rejected := match pattern, lm_device_get_name device with
        | some pattern, some name =>
          !( g_str_has_prefix name pattern || g_str_has_prefix (lm_device_get_address device) pattern)
        | _, _ => false
      if rejected then false
      else
        match discovery_filter.services with
        | some services_filter =>
          let count := services_filter.length
          if count = 0 then true
          else services_filter.any (fun uuid_filter => lm_device_has_service device uuid_filter)
        | none => true

/-- `lm_adapter_set_discovery_state`; `id` is what `g_timeout_add_seconds`
returns when the function arms the discovery timer. -/
def lm_adapter_set_discovery_state (id : Nat) (adapter : lm_adapter)
    (discovery_state : lm_adapter_discovery_state_t) : lm_adapter × List lm_effect :=
  if adapter.discovery_state = discovery_state then (adapter, [])
  else
    let adapter := { adapter with discovery_state := discovery_state }
    let ind := lm_effect.event LM_ADAPTER_DISCOVERY_STATE_CHANGE_IND LM_STATUS_SUCCESS
      (.adapter adapter.path)
    match discovery_state with
    | .LM_ADAPTER_DISCOVERY_STARTING => (adapter, [ind])
    | .LM_ADAPTER_DISCOVERY_STARTED =>
      match adapter.discovery_filter with
      | some discovery_filter =>
        if adapter.discovery_timer_id = 0 ∧ discovery_filter.timeout > 0 then
          ({ adapter with discovery_timer_id := id },
            [ind, .timeout_add discovery_filter.timeout id])
        else (adapter, [ind])
      | none => (adapter, [ind])
    | .LM_ADAPTER_DISCOVERY_STOPPING => (adapter, [ind])
    | .LM_ADAPTER_DISCOVERY_STOPPED =>
      let r := if adapter.discovery_timer_id ≠ 0 then
          ({ adapter with discovery_timer_id := 0 },
            [ind, lm_effect.source_remove adapter.discovery_timer_id])
        else (adapter, [ind])
      ({ r.1 with discovery_devices_found := 0 }, r.2)

/-- `lm_adapter_start_discovery_cb` for the outcome `res` of the call; `id` as in
`lm_adapter_set_discovery_state`. -/
def lm_adapter_start_discovery_cb (id : Nat) (adapter : lm_adapter) (res : lm_dbus_result) :
    lm_adapter × List lm_effect :=
  match res with
  | .error code_str =>
    if code_str = some "org.bluez.Error.InProgress" then
      lm_adapter_set_discovery_state id adapter .LM_ADAPTER_DISCOVERY_STARTED
    else
      ({ adapter with discovery_state := .LM_ADAPTER_DISCOVERY_STOPPED }, [])
  | .success => lm_adapter_set_discovery_state id adapter .LM_ADAPTER_DISCOVERY_STARTED

/-- `lm_adapter_start_discovery`: the status, the adapter and the effects.  The
state `starting` arms no timer, so no timer id is needed. -/
def lm_adapter_start_discovery (adapter : lm_adapter) : Nat × lm_adapter × List lm_effect :=
  if adapter.discovery_state = .LM_ADAPTER_DISCOVERY_STARTED then
    (LM_STATUS_SUCCESS, adapter, [])
  else if adapter.discovery_state ≠ .LM_ADAPTER_DISCOVERY_STOPPED then
    (LM_STATUS_FAIL, adapter, [])
  else
    let r := lm_adapter_set_discovery_state 0 adapter .LM_ADAPTER_DISCOVERY_STARTING
    (LM_STATUS_SUCCESS, r.1,
      r.2 ++ [.dbus_call adapter.path .ADAPTER_METHOD_START_DISCOVERY])

/-- `lm_adapter_stop_discovery_cb` for the outcome `res` of the call. -/
def lm_adapter_stop_discovery_cb (adapter : lm_adapter) (res : lm_dbus_result) :
    lm_adapter × List lm_effect :=
  match res with
  | .error code_str =>
    if code_str = some "org.bluez.Error.InProgress" then
      lm_adapter_set_discovery_state 0 adapter .LM_ADAPTER_DISCOVERY_STOPPED
    else
      ({ adapter with discovery_state := .LM_ADAPTER_DISCOVERY_STARTED }, [])
  | .success => lm_adapter_set_discovery_state 0 adapter .LM_ADAPTER_DISCOVERY_STOPPED

/-- `lm_adapter_stop_discovery`: the status, the adapter and the effects. -/
def lm_adapter_stop_discovery (adapter : lm_adapter) : Nat × lm_adapter × List lm_effect :=
  if adapter.discovery_state = .LM_ADAPTER_DISCOVERY_STOPPED then
    (LM_STATUS_SUCCESS, adapter, [])
  else if adapter.discovery_state ≠ .LM_ADAPTER_DISCOVERY_STARTED then
    (LM_STATUS_FAIL, adapter, [])
  else
    let r := lm_adapter_set_discovery_state 0 adapter .LM_ADAPTER_DISCOVERY_STOPPING
    (LM_STATUS_SUCCESS, r.1,
      r.2 ++ [.dbus_call adapter.path .ADAPTER_METHOD_STOP_DISCOVERY])

/-- `lm_adapter_discovery_timeout_cb`; it returns `FALSE`, which removes the
timer source. -/
def lm_adapter_discovery_timeout_cb (adapter : lm_adapter) : lm_adapter × List lm_effect :=
  let s := lm_adapter_stop_discovery adapter
  let adapter := s.2.1
  ({ adapter with discovery_timer_id := 0, discovery_devices_found := 0 },
    s.2.2 ++ [.event LM_ADAPTER_DISCOVERY_COMPLETE_IND LM_STATUS_SUCCESS (.adapter adapter.path)])

def deliver_discovery_result (adapter : lm_adapter) (device : lm_device) :
    lm_adapter × List lm_effect :=
  if lm_device_get_connection_state device = .LM_DEVICE_DISCONNECTED then
    /- Double check if the device matches the discovery filter -/
    if !matches_discovery_filter adapter device then (adapter, [])
    else
      let ind := lm_effect.event LM_ADAPTER_DISCOVERY_RESULT_IND LM_STATUS_SUCCESS
        (.adapter_device adapter.path device.path)
      match adapter.discovery_filter with
      | some discovery_filter =>
        if discovery_filter.max_devices ≠ 0 then
          let adapter := { adapter with
            discovery_devices_found := (adapter.discovery_devices_found + 1) % 2 ^ 32 }
          if adapter.discovery_devices_found ≥ discovery_filter.max_devices then
            let s := lm_adapter_stop_discovery adapter
            let adapter := s.2.1
            (adapter, [ind] ++ s.2.2 ++
              [.event LM_ADAPTER_DISCOVERY_COMPLETE_IND LM_STATUS_SUCCESS (.adapter adapter.path)])
          else (adapter, [ind])
        else (adapter, [ind])
      | none => (adapter, [ind])
  else (adapter, [])

/-- `lm_adapter_call_method`: the method name is remembered and the call is
issued. -/
def lm_adapter_call_method (adapter : lm_adapter) (method : lm_dbus_method) :
    lm_adapter × List lm_effect :=
  ({ adapter with calling_method := some method }, [.dbus_call adapter.path method])

/-- `lm_adapter_set_discovery_filter`; `service_uuids` may be `NULL`. -/
def lm_adapter_set_discovery_filter (adapter : lm_adapter) (rssi_threshold : Int)
    (service_uuids : Option (List String)) (pattern : Option String)
    (max_devices timeout : Nat) : lm_adapter × List lm_effect :=
  let services := match service_uuids with
    | some uuids => if uuids.length > 0 then uuids else []
    | none => []
  let discovery_filter : lm_adapter_discovery_filter_t :=
    { services := some services,
      rssi := rssi_threshold,
      pattern := pattern,
      max_devices := max_devices,
      timeout := timeout }
  let adapter := { adapter with discovery_filter := some discovery_filter }
  lm_adapter_call_method adapter .ADAPTER_METHOD_SET_DISCOVERY_FILTER

def lm_adapter_clear_discovery_filter (adapter : lm_adapter) : lm_adapter × List lm_effect :=
  let adapter := { adapter with discovery_filter := none }
  lm_adapter_call_method adapter .ADAPTER_METHOD_SET_DISCOVERY_FILTER

/-- The body of the loop of the adapter's `on_interface_appeared` for one
interface of the object `object`. -/
def lm_adapter_on_interface_appeared_entry (U : lm_uuids) (object : String)
    (adapter : lm_adapter) : lm_interface_added → lm_adapter × List lm_effect
  | .INTERFACE_DEVICE properties =>
    /- Skip this device if it is not for this adapter -/
    if !( g_str_has_prefix object adapter.path) then (adapter, [])
    else if g_hash_table_contains adapter.device_cache object then (adapter, [])
    else
      let device := lm_device_create_with_path adapter.path object
      let r := lm_device_update_properties device properties
      let device := r.1
      let adapter := { adapter with
        device_cache := g_hash_table_insert adapter.device_cache (lm_device_get_path device) device }
      if adapter.discovery_state = .LM_ADAPTER_DISCOVERY_STARTED
          ∧ lm_device_get_connection_state device = .LM_DEVICE_DISCONNECTED then
        let d := deliver_discovery_result adapter device
        (d.1, r.2 ++ d.2)
      else (adapter, r.2)
  | .INTERFACE_MEDIA_TRANSPORT properties =>
    /- Skip this transport if it is not for this adapter -/
    if !( g_str_has_prefix object adapter.path) then (adapter, [])
    else if adapter.bis_src_transport.isSome then (adapter, [])
    else
      let transport := lm_transport_create none object
      let r := lm_transport_update_properties U none transport properties
      let transport := r.1
      if lm_transport_get_uuid transport = some U.BCAST_AUDIO_AUNOUNCEMENT_SERVICE_UUID then
        ({ adapter with bis_src_transport := some transport }, r.2)
      else (adapter, r.2)
  | _ => (adapter, [])

/-- The adapter's handler `on_interface_appeared` of `lm_adapter.c` for the
signal `InterfacesAdded (object, interfaces)`. -/
def lm_adapter_on_interface_appeared (U : lm_uuids) (adapter : lm_adapter) (object : String) :
    List lm_interface_added → lm_adapter × List lm_effect
  | [] => (adapter, [])
  | i :: is =>
    let r := lm_adapter_on_interface_appeared_entry U object adapter i
    let rs := lm_adapter_on_interface_appeared U r.1 object is
    (rs.1, r.2 ++ rs.2)

/-- The body of the loop of the adapter's `on_interface_disappeared` for one
interface name. -/
def lm_adapter_on_interface_disappeared_entry (object : String) (adapter : lm_adapter) :
    lm_interface_removed → lm_adapter × List lm_effect
  | .INTERFACE_DEVICE =>
    match g_hash_table_lookup adapter.device_cache object with
    | some device =>
      ({ adapter with device_cache := g_hash_table_remove adapter.device_cache object },
        [.event LM_DEVICE_REMOVED_IND LM_STATUS_SUCCESS
          (.adapter_device adapter.path device.path)])
    | none => (adapter, [])
  | .INTERFACE_MEDIA_TRANSPORT =>
    if !( g_str_has_prefix object adapter.path) then (adapter, [])
    else
      match adapter.bis_src_transport with
      | some transport =>
        if object = lm_transport_get_path transport then
          ({ adapter with bis_src_transport := none }, [])
        else (adapter, [])
      | none => (adapter, [])
  | _ => (adapter, [])

/-- The adapter's handler `on_interface_disappeared` of `lm_adapter.c` for the
signal `InterfacesRemoved (object, interfaces)`. -/
def lm_adapter_on_interface_disappeared (adapter : lm_adapter) (object : String) :
    List lm_interface_removed → lm_adapter × List lm_effect
  | [] => (adapter, [])
  | i :: is =>
    let r := lm_adapter_on_interface_disappeared_entry object adapter i
    let rs := lm_adapter_on_interface_disappeared r.1 object is
    (rs.1, r.2 ++ rs.2)

/-! ## Object lifecycle signals seen by an adapter -/

/-- An object lifecycle signal of the object manager. -/
inductive lm_object_signal where
  | InterfacesAdded (object : String) (interfaces : List lm_interface_added)
  | InterfacesRemoved (object : String) (interfaces : List lm_interface_removed)
  deriving DecidableEq, Repr

/-- The object path a signal is about. -/
def lm_object_signal.object : lm_object_signal → String
  | .InterfacesAdded object _ => object
  | .InterfacesRemoved object _ => object

/-- The entry is the device interface. -/
def lm_interface_added.is_device : lm_interface_added → Bool
  | .INTERFACE_DEVICE _ => true
  | _ => false

/-- The entry is the media player interface. -/
def lm_interface_added.is_media_player : lm_interface_added → Bool
  | .INTERFACE_MEDIA_PLAYER _ => true
  | _ => false

/-- The name is the device interface. -/
def lm_interface_removed.is_device : lm_interface_removed → Bool
  | .INTERFACE_DEVICE => true
  | _ => false

/-- The signal lists the device interface. -/
def lm_object_signal.carries_device : lm_object_signal → Bool
  | .InterfacesAdded _ interfaces => interfaces.any lm_interface_added.is_device
  | .InterfacesRemoved _ interfaces => interfaces.any lm_interface_removed.is_device

/-- The signal is an object-appeared signal. -/
def lm_object_signal.is_added : lm_object_signal → Bool
  | .InterfacesAdded _ _ => true
  | .InterfacesRemoved _ _ => false

/-- The adapter handles one signal with the handler subscribed to it. -/
def lm_adapter_handle_signal (U : lm_uuids) (adapter : lm_adapter) :
    lm_object_signal → lm_adapter × List lm_effect
  | .InterfacesAdded object interfaces =>
    lm_adapter_on_interface_appeared U adapter object interfaces
  | .InterfacesRemoved object interfaces =>
    lm_adapter_on_interface_disappeared adapter object interfaces

/-- The adapter handles a sequence of signals, oldest first. -/
def lm_adapter_handle_signals (U : lm_uuids) (adapter : lm_adapter) :
    List lm_object_signal → lm_adapter × List lm_effect
  | [] => (adapter, [])
  | s :: ss =>
    let r := lm_adapter_handle_signal U adapter s
    let rs := lm_adapter_handle_signals U r.1 ss
    (rs.1, r.2 ++ rs.2)

/-- The most recent signal about `path` in a sequence (oldest first): `some true`
when it is object-appeared, `some false` when it is object-disappeared, `none`
when no signal is about `path`. -/
def most_recent_signal (path : String) (signals : List lm_object_signal) : Option Bool :=
  (signals.reverse.find? (fun s => s.object == path)).map lm_object_signal.is_added

/-! ## The adapter with its bus calls in flight

`lm_adapter_start_discovery` and `lm_adapter_stop_discovery` return after
issuing an asynchronous call; the main loop runs the completion callback once
for every call issued.  The calls in flight belong to the main loop, not to the
struct: `lm_system` keeps them next to the adapter. -/

/-- An adapter together with the number of `StartDiscovery` and `StopDiscovery`
calls that were issued and have not completed yet. -/
structure lm_system where
  adapter : lm_adapter
  pending_start : Nat := 0
  pending_stop : Nat := 0
  deriving DecidableEq, Repr

/-- What can happen to an adapter as far as discovery is concerned. -/
inductive lm_input where
  /-- The application calls `lm_adapter_start_discovery`. -/
  | start_discovery
  /-- The application calls `lm_adapter_stop_discovery`. -/
  | stop_discovery
  /-- The application calls `lm_adapter_set_discovery_filter`. -/
  | set_discovery_filter (rssi_threshold : Int) (service_uuids : Option (List String))
      (pattern : Option String) (max_devices timeout : Nat)
  /-- The application calls `lm_adapter_clear_discovery_filter`. -/
  | clear_discovery_filter
  /-- A `StartDiscovery` call completes with `res`; `id` is the source id GLib
  hands out if the callback arms the timer. -/
  | start_discovery_done (res : lm_dbus_result) (id : Nat)
  /-- A `StopDiscovery` call completes with `res`. -/
  | stop_discovery_done (res : lm_dbus_result)
  /-- The discovery timer fires. -/
  | discovery_timeout
  /-- A signal handler calls `deliver_discovery_result` for `device`. -/
  | discovery_result (device : lm_device)
  deriving DecidableEq, Repr

/-- When an input can occur: a completion needs a call in flight (and GLib source
ids are positive), the timer fires only while armed, and both call sites of
`deliver_discovery_result` test `discovery_state == LM_ADAPTER_DISCOVERY_STARTED`. -/
def lm_input_enabled (s : lm_system) : lm_input → Bool
  | .start_discovery_done _ id => decide (0 < s.pending_start) && decide (0 < id)
  | .stop_discovery_done _ => decide (0 < s.pending_stop)
  | .discovery_timeout => decide (s.adapter.discovery_timer_id ≠ 0)
  | .discovery_result _ =>
    decide (s.adapter.discovery_state = .LM_ADAPTER_DISCOVERY_STARTED)
  | _ => true

/-- The library code an input runs on the adapter. -/
def lm_adapter_run_input (adapter : lm_adapter) : lm_input → lm_adapter × List lm_effect
  | .start_discovery => (lm_adapter_start_discovery adapter).2
  | .stop_discovery => (lm_adapter_stop_discovery adapter).2
  | .set_discovery_filter rssi_threshold service_uuids pattern max_devices timeout =>
    lm_adapter_set_discovery_filter adapter rssi_threshold service_uuids pattern max_devices timeout
  | .clear_discovery_filter => lm_adapter_clear_discovery_filter adapter
  | .start_discovery_done res id => lm_adapter_start_discovery_cb id adapter res
  | .stop_discovery_done res => lm_adapter_stop_discovery_cb adapter res
  | .discovery_timeout => lm_adapter_discovery_timeout_cb adapter
  | .discovery_result device => deliver_discovery_result adapter device

/-- How many calls of `method` a run issued. -/
def count_calls (method : lm_dbus_method) (effects : List lm_effect) : Nat :=
  (effects.filter (fun e =>
    match e with
    | .dbus_call _ m => m == method
    | _ => false)).length

/-- The calls an input completes. -/
def lm_input_completes (method : lm_dbus_method) : lm_input → Nat
  | .start_discovery_done _ _ => if method = .ADAPTER_METHOD_START_DISCOVERY then 1 else 0
  | .stop_discovery_done _ => if method = .ADAPTER_METHOD_STOP_DISCOVERY then 1 else 0
  | _ => 0

/-- One step: the input runs its code on the adapter, the calls it issues are
in flight afterwards, the call it completes is not. -/
def lm_system_step (s : lm_system) (i : lm_input) : lm_system × List lm_effect :=
  let r := lm_adapter_run_input s.adapter i
  ({ adapter := r.1,
     pending_start := s.pending_start - lm_input_completes .ADAPTER_METHOD_START_DISCOVERY i
       + count_calls .ADAPTER_METHOD_START_DISCOVERY r.2,
     pending_stop := s.pending_stop - lm_input_completes .ADAPTER_METHOD_STOP_DISCOVERY i
       + count_calls .ADAPTER_METHOD_STOP_DISCOVERY r.2 }, r.2)

/-- The system after a sequence of inputs, oldest first. -/
def lm_system_run (s : lm_system) : List lm_input → lm_system
  | [] => s
  | i :: is => lm_system_run (lm_system_step s i).1 is

/-- Every input of a sequence can occur when its turn comes. -/
def lm_system_run_enabled (s : lm_system) : List lm_input → Bool
  | [] => true
  | i :: is => lm_input_enabled s i && lm_system_run_enabled (lm_system_step s i).1 is

/-- The states an adapter can be in: a freshly created adapter
(`lm_adapter_create`), and what an enabled input makes of a reachable state. -/
inductive lm_reachable : lm_system → Prop where
  | create (path : String) : lm_reachable { adapter := lm_adapter_create path }
  | step (s : lm_system) (i : lm_input) :
      lm_reachable s → lm_input_enabled s i = true → lm_reachable (lm_system_step s i).1

/-- The transitions of `discovery_state` that the data model lists:
stopped→starting, starting→started, starting→stopped, started→stopping,
stopping→stopped. -/
def lm_discovery_transition_listed :
    lm_adapter_discovery_state_t → lm_adapter_discovery_state_t → Bool
  | .LM_ADAPTER_DISCOVERY_STOPPED, .LM_ADAPTER_DISCOVERY_STARTING => true
  | .LM_ADAPTER_DISCOVERY_STARTING, .LM_ADAPTER_DISCOVERY_STARTED => true
  | .LM_ADAPTER_DISCOVERY_STARTING, .LM_ADAPTER_DISCOVERY_STOPPED => true
  | .LM_ADAPTER_DISCOVERY_STARTED, .LM_ADAPTER_DISCOVERY_STOPPING => true
  | .LM_ADAPTER_DISCOVERY_STOPPING, .LM_ADAPTER_DISCOVERY_STOPPED => true
  | _, _ => false

/-! ## lm_transport.c: state and volume -/

def lm_transport_get_state (transport : lm_transport) : lm_transport_state_t :=
  lm_transport_string_to_state transport.state

def AVRCP_VOLUME_MIN : Nat := 0
def AVRCP_VOLUME_MAX : Nat := 0x7F
def MCP_VOLUME_MIN : Nat := 0
def MCP_VOLUME_MAX : Nat := 0xFF
def VOLUME_PERCENTAGE_MAX : ℚ := 100

/-- `roundf` / `lroundf`: the nearest integer, halfway cases away from zero.
`float` values are rational numbers here and the arithmetic on them is exact. -/
def roundf (x : ℚ) : ℤ :=
  if 0 ≤ x then ⌊x + 1 / 2⌋ else ⌈x - 1 / 2⌉

/-- `lm_transport_get_volume_percentage`; the `float` result is a rational. -/
def lm_transport_get_volume_percentage (transport : lm_transport) : ℚ :=
  if transport.profile = .LM_TRANSPORT_PROFILE_A2DP_SINK then
    roundf (((transport.volume : ℚ) * VOLUME_PERCENTAGE_MAX) / (AVRCP_VOLUME_MAX : ℚ))
  else if transport.profile = .LM_TRANSPORT_PROFILE_BAP_SINK then
    roundf (((transport.volume : ℚ) * VOLUME_PERCENTAGE_MAX) / (MCP_VOLUME_MAX : ℚ))
  else 0

/-- `lm_transport_set_property_sync`: the blocking property write is issued and
its outcome `res` decides the status. -/
def lm_transport_set_property_sync (transport : lm_transport) (res : lm_dbus_result) :
    Nat × List lm_effect :=
  match res with
  | .error _ => (LM_STATUS_FAIL, [.dbus_call transport.path .PROPERTIES_METHOD_SET])
  | .success => (LM_STATUS_SUCCESS, [.dbus_call transport.path .PROPERTIES_METHOD_SET])

/-- The conversion `(guint16) lroundf (...)`. -/
def guint16_of_long (n : ℤ) : Nat := (n % 65536).toNat

/-- `lm_transport_set_volume_percentage`; `res` is the outcome of the property
write, if the function gets as far as issuing it. -/
def lm_transport_set_volume_percentage (transport : lm_transport) (volume_per : ℚ)
    (res : lm_dbus_result) : Nat × lm_transport × List lm_effect :=
  let volume_per :=
    if volume_per > VOLUME_PERCENTAGE_MAX then VOLUME_PERCENTAGE_MAX
    else if volume_per < 0 then 0
    else volume_per
  let volume : Option Nat :=
    if transport.profile = .LM_TRANSPORT_PROFILE_A2DP_SINK then
      some (guint16_of_long (roundf ((volume_per * (AVRCP_VOLUME_MAX : ℚ)) / VOLUME_PERCENTAGE_MAX)))
    else if transport.profile = .LM_TRANSPORT_PROFILE_BAP_SINK then
      some (guint16_of_long (roundf ((volume_per * (MCP_VOLUME_MAX : ℚ)) / VOLUME_PERCENTAGE_MAX)))
    else none
  match volume with
  | none => (LM_STATUS_INVALID_ARGS, transport, [])
  | some volume =>
    let w := lm_transport_set_property_sync transport res
    if w.1 = LM_STATUS_SUCCESS then (w.1, { transport with volume := volume }, w.2)
    else (w.1, transport, w.2)

/-! ## lm_device.c: bearers, property signals, the broadcast timer -/

/-- The value `~bearer` of the `unsigned int` behind `lm_device_conn_bearer_t`. -/
def lm_device_conn_bearer_not (bearer : Nat) : Nat := (2 ^ 32 - 1) ^^^ bearer

def lm_device_set_conn_bearer (device : lm_device) (bearer : Nat) : lm_device :=
  if device.conn_bearer &&& bearer = 0 then
    { device with conn_bearer := device.conn_bearer ||| bearer }
  else device

def lm_device_reset_conn_bearer (device : lm_device) (bearer : Nat) : lm_device :=
  if device.conn_bearer &&& bearer ≠ 0 then
    { device with conn_bearer := device.conn_bearer &&& lm_device_conn_bearer_not bearer }
  else device

def lm_device_has_bearer (device : lm_device) (bearer : Nat) : Bool :=
  device.conn_bearer &&& bearer != 0

def lm_device_get_conn_bearer (device : lm_device) : Nat := device.conn_bearer

/-- `lm_device_load_properties`: the asynchronous `GetAll` call is issued. -/
def lm_device_load_properties (device : lm_device) : List lm_effect :=
  [.dbus_call device.path .PROPERTIES_METHOD_GET_ALL]

/-- `lm_device_get_transports`: the transports of the given profile, in the
iteration order of the table. -/
def lm_device_get_transports (device : lm_device) (profile : lm_transport_profile_t) :
    List String :=
  ((g_hash_table_get_values device.transports).filter
    (fun t => lm_transport_get_profile t == profile)).map lm_transport_get_path

/-- The device's handler `on_player_prop_changed` for a `PropertiesChanged` signal
of the media player interface on `path`. -/
def on_player_prop_changed (device : lm_device) (path : String)
    (properties_changed : List lm_player_property) : lm_device × List lm_effect :=
  /- Skip this player if it is not for this device -/
  if !( g_str_has_prefix path device.path) then (device, [])
  else
    match g_hash_table_lookup device.players path with
    | none => (device, [])
    | some player =>
      let r := lm_player_update_properties device.active_player player properties_changed
      ({ device with players := g_hash_table_store device.players path r.1 }, r.2)

/-- The device's handler `on_transport_prop_changed` for a `PropertiesChanged`
signal of the media transport interface on `path`. -/
def on_transport_prop_changed (U : lm_uuids) (device : lm_device) (path : String)
    (properties_changed : List lm_transport_property) : lm_device × List lm_effect :=
  if !( g_str_has_prefix path device.path) then (device, [])
  else
    match g_hash_table_lookup device.transports path with
    | none => (device, [])
    | some transport =>
      let old_state := lm_transport_get_state transport
      let r := lm_transport_update_properties U device.active_transport transport
        properties_changed
      let transport := r.1
      let device := { device with transports := g_hash_table_store device.transports path transport }
      if lm_transport_get_state transport = .LM_TRANSPORT_ACTIVE
          ∧ old_state ≠ lm_transport_get_state transport
          ∧ lm_transport_get_profile transport = .LM_TRANSPORT_PROFILE_BAP_BCAST_SINK
          ∧ device.bcast_sync_notified = false then
        ({ device with bcast_sync_notified := true },
          r.2 ++ [.event LM_DEVICE_BCAST_SYNC_UP_IND LM_STATUS_SUCCESS (.device device.path)])
      else (device, r.2)

/-! ## lm_adapter.c: connected devices and device signals -/

def LM_ADAPTER_BCAST_DISCOVERED_BY_ASSISTANT : Nat := 0
def LM_ADAPTER_BCAST_DISCOVERED_BY_SINK_SCAN : Nat := 1

def lm_adapter_get_discovery_state (adapter : lm_adapter) : lm_adapter_discovery_state_t :=
  adapter.discovery_state

/-- `lm_adapter_get_connected_devices`: the `GList` of the devices it selects,
in the iteration order of the table. -/
def lm_adapter_get_connected_devices (U : lm_uuids) (adapter : lm_adapter) : List lm_device :=
  let all_devices := g_hash_table_get_values adapter.device_cache
  all_devices.filter (fun device =>
    decide (lm_device_get_connection_state device = .LM_DEVICE_CONNECTED)
      && !lm_device_is_special_device U device)

/-- `bcast_sink_transport_timer_cb` of `lm_device.c`; `adapter` is the adapter
`lm_device_get_adapter (device)` points to.  The first component is the return
value: `TRUE` keeps the periodic timer, `FALSE` stops it. -/
def bcast_sink_transport_timer_cb (U : lm_uuids) (adapter : lm_adapter) (device : lm_device) :
    Bool × lm_device × List lm_effect :=
  let bcast_transports := lm_device_get_transports device .LM_TRANSPORT_PROFILE_BAP_BCAST_SINK
  if bcast_transports.length = 0 then
    /- status == LM_STATUS_FAIL -/
    (true, device, [])
  else
    let connected_devices := lm_adapter_get_connected_devices U adapter
    let method :=
      if lm_adapter_get_discovery_state adapter = .LM_ADAPTER_DISCOVERY_STARTED
          ∨ connected_devices.length = 0 then
        LM_ADAPTER_BCAST_DISCOVERED_BY_SINK_SCAN
      else LM_ADAPTER_BCAST_DISCOVERED_BY_ASSISTANT
    (false, { device with bcast_transport_timer_id := 0 },
      [.event LM_ADAPTER_BCAST_DISCOVERED_IND LM_STATUS_SUCCESS
        (.bcast_discovered device.path method bcast_transports)])

/-- The value of the last entry `key` of the `a{sv}` dictionary of a `Connected`
or `Disconnected` signal, as the loop over the dictionary leaves it. -/
def lm_signal_dict_string (key : String) (dict : List (String × String)) : Option String :=
  dict.foldl (fun found e => if e.1 = key then some e.2 else found) none

/-- The common part of `on_device_connected` and `on_device_disconnected`: the
device for `object_path` is looked up and, when it is not cached, created and
inserted. -/
def lm_adapter_lookup_or_create_device (adapter : lm_adapter) (object_path : String) :
    lm_adapter × lm_device :=
  match g_hash_table_lookup adapter.device_cache object_path with
  | some device => (adapter, device)
  | none =>
    let device := lm_device_create_with_path adapter.path object_path
    ({ adapter with
        device_cache := g_hash_table_insert adapter.device_cache (lm_device_get_path device) device },
      device)

/-- The adapter's handler `on_device_connected` for the signal `Connected` of the
object `object_path` with the dictionary `dict`. -/
def on_device_connected (U : lm_uuids) (adapter : lm_adapter) (object_path : String)
    (dict : List (String × String)) : lm_adapter × List lm_effect :=
  match lm_signal_dict_string "bearer" dict with
  | none => (adapter, [])
  | some bearer =>
    let l := lm_adapter_lookup_or_create_device adapter object_path
    let adapter := l.1
    let device := l.2
    if lm_device_is_special_device U device then (adapter, [])
    else
      let updated : Option lm_device :=
        if bearer = "le" then some (lm_device_set_conn_bearer device LM_DEVICE_CONN_LE)
        else if bearer = "bredr" then some (lm_device_set_conn_bearer device LM_DEVICE_CONN_BREDR)
        else none
      match updated with
      | none => (adapter, [])
      | some device =>
        ({ adapter with device_cache := g_hash_table_store adapter.device_cache object_path device },
          [.event LM_DEVICE_CONNECTED_IND LM_STATUS_SUCCESS
            (.device_bearer adapter.path device.path bearer none)])

/-- The adapter's handler `on_device_disconnected` for the signal `Disconnected`
of the object `object_path` with the dictionary `dict`. -/
def on_device_disconnected (U : lm_uuids) (adapter : lm_adapter) (object_path : String)
    (dict : List (String × String)) : lm_adapter × List lm_effect :=
  let bearer := lm_signal_dict_string "bearer" dict
  let reason := lm_signal_dict_string "reason" dict
  match bearer with
  | none => (adapter, [])
  | some bearer =>
    let l := lm_adapter_lookup_or_create_device adapter object_path
    let adapter := l.1
    let device := l.2
    if lm_device_is_special_device U device then (adapter, [])
    else
      let updated : Option lm_device :=
        if bearer = "le" then some (lm_device_reset_conn_bearer device LM_DEVICE_CONN_LE)
        else if bearer = "bredr" then some (lm_device_reset_conn_bearer device LM_DEVICE_CONN_BREDR)
        else none
      match updated with
      | none => (adapter, [])
      | some device =>
        ({ adapter with device_cache := g_hash_table_store adapter.device_cache object_path device },
          [.event LM_DEVICE_DISCONNECTED_IND LM_STATUS_SUCCESS
            (.device_bearer adapter.path device.path bearer reason)])

/-- The property is one of those after which `on_device_prop_changed` delivers a
discovery result: `RSSI`, `ManufacturerData`, `ServiceData`. -/
def lm_device_property.is_dis_result : lm_device_property → Bool
  | .DEVICE_PROPERTY_RSSI _ => true
  | .DEVICE_PROPERTY_MANUFACTURER_DATA _ => true
  | .DEVICE_PROPERTY_SERVICE_DATA _ => true
  | _ => false

/-- The adapter's handler `on_device_prop_changed` for a `PropertiesChanged`
signal of the device interface on `path`. -/
def on_device_prop_changed (adapter : lm_adapter) (path : String)
    (properties_changed : List lm_device_property) : lm_adapter × List lm_effect :=
  match g_hash_table_lookup adapter.device_cache path with
  | none =>
    if g_str_has_prefix path adapter.path then
      let device := lm_device_create_with_path adapter.path path
      ({ adapter with
          device_cache := g_hash_table_insert adapter.device_cache (lm_device_get_path device) device },
        lm_device_load_properties device)
    else (adapter, [])
  | some device =>
    let r := lm_device_update_properties device properties_changed
    let is_dis_result := properties_changed.any lm_device_property.is_dis_result
    let adapter := { adapter with device_cache := g_hash_table_store adapter.device_cache path r.1 }
    if adapter.discovery_state = .LM_ADAPTER_DISCOVERY_STARTED ∧ is_dis_result = true then
      let d := deliver_discovery_result adapter r.1
      (d.1, r.2 ++ d.2)
    else (adapter, r.2)

/-- The device handles a sequence of `PropertiesChanged` signals of the media
transport interface, oldest first; a signal is the object path with the
dictionary of changed properties. -/
def lm_device_transport_signals (U : lm_uuids) (device : lm_device) :
    List (String × List lm_transport_property) → lm_device × List lm_effect
  | [] => (device, [])
  | s :: ss =>
    let r := on_transport_prop_changed U device s.1 s.2
    let rs := lm_device_transport_signals U r.1 ss
    (rs.1, r.2 ++ rs.2)

/-! ## lm.c: the callback registry -/

def LM_APP_CALLBACK_MAX : Nat := 20

/-- The enum `lm_callback_type_t` of `lm.h`. -/
def LM_CALLBACK_TYPE_APP_EVENT : Nat := 0
def LM_CALLBACK_TYPE_GET_AUDIO_LOCATION_CFG : Nat := 1
def LM_CALLBACK_TYPE_MAX : Nat := 10

/-- The macro `LM_MODULE_MASK (module)`, `1 << ((module) >> LM_MODULE_OFFSET)`,
stored in a `guint32`. -/
def LM_MODULE_MASK (module : Nat) : Nat := (1 <<< (module >>> LM_MODULE_OFFSET)) % 2 ^ 32

/-- The struct `lm_app_callback_block_t`; a handler is the address of a function,
`none` is `NULL`. -/
structure lm_app_callback_block_t where
  in_use : Bool := false
  mask : Nat := 0
  cb : Option Nat := none
  deriving DecidableEq, Repr

/-- The struct `lm_usr_callback_block_t`. -/
structure lm_usr_callback_block_t where
  in_use : Bool := false
  cb : Option Nat := none
  deriving DecidableEq, Repr

/-- The two static tables of `lm.c`. -/
structure lm_registry where
  app_callback_table : List lm_app_callback_block_t
  usr_callback_table : List lm_usr_callback_block_t
  deriving DecidableEq, Repr

/-- The tables as the program starts: `app_callback_table[LM_APP_CALLBACK_MAX]`
and `usr_callback_table[LM_CALLBACK_TYPE_MAX - 1]` have static storage and are
zeroed. -/
def lm_registry_init : lm_registry :=
  { app_callback_table := List.replicate LM_APP_CALLBACK_MAX {},
    usr_callback_table := List.replicate (LM_CALLBACK_TYPE_MAX - 1) {} }

/-- The loop of the case `LM_CALLBACK_TYPE_APP_EVENT` of `lm_register_callback`
over the slots from index `i` on: the first slot that passes the test takes the
registration and the loop breaks; `none` when no slot passes. -/
def lm_register_app_event (module_mask : Nat) (cb : Option Nat) :
    List lm_app_callback_block_t → Option (List lm_app_callback_block_t)
  | [] => none
  | b :: bs =>
    if !b.in_use && b.cb == none && b.mask == 0 && cb.isSome then
      some ({ in_use := true, mask := module_mask, cb := cb } :: bs)
    else (lm_register_app_event module_mask cb bs).map (fun t => b :: t)

/-- `lm_register_callback`: the status and the tables afterwards. -/
def lm_register_callback (reg : lm_registry) (type : Nat) (module_mask : Nat)
    (cb : Option Nat) : Nat × lm_registry :=
  if type = LM_CALLBACK_TYPE_APP_EVENT then
    match lm_register_app_event module_mask cb reg.app_callback_table with
    | some t => (LM_STATUS_SUCCESS, { reg with app_callback_table := t })
    | none => (LM_STATUS_FAIL, reg)
  else if type < LM_CALLBACK_TYPE_MAX
      ∧ (reg.usr_callback_table.getD (type - 1) {}).in_use = false then
    /- `status` keeps the value `LM_STATUS_FAIL` it was initialised with -/
    (LM_STATUS_FAIL,
      { reg with usr_callback_table :=
          reg.usr_callback_table.set (type - 1) { in_use := true, cb := cb } })
  else (LM_STATUS_FAIL, reg)

/-- The loop of the case `LM_CALLBACK_TYPE_APP_EVENT` of `lm_unregister_callback`:
the first slot in use that holds `cb` is cleared and the loop breaks. -/
def lm_unregister_app_event (cb : Option Nat) :
    List lm_app_callback_block_t → Option (List lm_app_callback_block_t)
  | [] => none
  | b :: bs =>
    if b.in_use && b.cb == cb then
      some ({ in_use := false, mask := 0, cb := none } :: bs)
    else (lm_unregister_app_event cb bs).map (fun t => b :: t)

/-- `lm_unregister_callback`; the mask argument is unused. -/
def lm_unregister_callback (reg : lm_registry) (type : Nat) (cb : Option Nat) :
    Nat × lm_registry :=
  if type = LM_CALLBACK_TYPE_APP_EVENT then
    match lm_unregister_app_event cb reg.app_callback_table with
    | some t => (LM_STATUS_SUCCESS, { reg with app_callback_table := t })
    | none => (LM_STATUS_FAIL, reg)
  else if type < LM_CALLBACK_TYPE_MAX
      ∧ (reg.usr_callback_table.getD (type - 1) {}).in_use = true then
    (LM_STATUS_FAIL,
      { reg with usr_callback_table :=
          reg.usr_callback_table.set (type - 1) { in_use := false, cb := none } })
  else (LM_STATUS_FAIL, reg)

/-- One call `cb (msg, status, buf)` of a registered handler. -/
structure lm_callback_call where
  cb : Nat
  msg : Nat
  status : Nat
  buf : lm_buf
  deriving DecidableEq, Repr

/-- The loop of `lm_app_event_callback` over the slots: the calls it makes, in
program order.  The handlers do not register or unregister while they run. -/
def lm_app_event_callback_loop (module_mask msg status : Nat) (buf : lm_buf) :
    List lm_app_callback_block_t → List lm_callback_call
  | [] => []
  | b :: bs =>
    match b.cb with
    | some cb =>
      if b.in_use && (b.mask &&& module_mask != 0) then
        { cb := cb, msg := msg, status := status, buf := buf }
          :: lm_app_event_callback_loop module_mask msg status buf bs
      else lm_app_event_callback_loop module_mask msg status buf bs
    | none => lm_app_event_callback_loop module_mask msg status buf bs

/-- `lm_app_event_callback (msg, status, buf)`; `msg` is a `guint32`. -/
def lm_app_event_callback (reg : lm_registry) (msg status : Nat) (buf : lm_buf) :
    List lm_callback_call :=
  lm_app_event_callback_loop (LM_MODULE_MASK msg) msg status buf reg.app_callback_table

/-- A call of the registry interface by the application. -/
inductive lm_registry_op where
  | register (type module_mask : Nat) (cb : Option Nat)
  | unregister (type module_mask : Nat) (cb : Option Nat)
  deriving DecidableEq, Repr

/-- The registry after one call of the application. -/
def lm_registry_step (reg : lm_registry) : lm_registry_op → lm_registry
  | .register type module_mask cb => (lm_register_callback reg type module_mask cb).2
  | .unregister type _ cb => (lm_unregister_callback reg type cb).2

/-- The registry after a history of calls, oldest first. -/
def lm_registry_run (reg : lm_registry) (ops : List lm_registry_op) : lm_registry :=
  ops.foldl lm_registry_step reg

/-! ## lm_adapter.c: properties and power -/

/-- One (name, value) pair of an adapter property dictionary. -/
inductive lm_adapter_property where
  | ADAPTER_PROPERTY_ADDRESS (v : String)
  | ADAPTER_PROPERTY_POWERED (v : Bool)
  | ADAPTER_PROPERTY_POWER_STATE (v : String)
  | ADAPTER_PROPERTY_DISCOVERING (v : Bool)
  | ADAPTER_PROPERTY_DISCOVERABLE (v : Bool)
  | ADAPTER_PROPERTY_CONNECTABLE (v : Bool)
  | ADAPTER_PROPERTY_ALIAS (v : String)
  | other (name : String)
  deriving DecidableEq, Repr

/-- The table `g_power_state_name`, indexed by `lm_adapter_power_state_t`. -/
def g_power_state_name : List (String × lm_adapter_power_state_t) :=
  [ ("on", .LM_ADAPTER_POWER_ON), ("off", .LM_ADAPTER_POWER_OFF),
    ("off-enabling", .LM_ADAPTER_POWER_TURNING_ON),
    ("on-disabling", .LM_ADAPTER_POWER_TURNING_OFF),
    ("off-blocked", .LM_ADAPTER_POWER_OFF_BLOCKED) ]

/-- `lm_adapter_get_power_state_from_name`: the index of the first entry equal to
the string, `LM_ADAPTER_POWER_OFF` when there is none. -/
def lm_adapter_get_power_state_from_name (power_state : String) : lm_adapter_power_state_t :=
  match g_power_state_name.find? (fun e => e.1 == power_state) with
  | some e => e.2
  | none => .LM_ADAPTER_POWER_OFF

def lm_adapter_update_property (adapter : lm_adapter) :
    lm_adapter_property → lm_adapter × List lm_effect
  | .ADAPTER_PROPERTY_ADDRESS v => ({ adapter with address := some v }, [])
  | .ADAPTER_PROPERTY_POWERED v => ({ adapter with powered := v }, [])
  | .ADAPTER_PROPERTY_POWER_STATE power_state_name =>
    let adapter :=
      { adapter with power_state := lm_adapter_get_power_state_from_name power_state_name }
    if adapter.power_state = .LM_ADAPTER_POWER_ON then
      (adapter, [.event LM_ADAPTER_POWER_ON_CNF LM_STATUS_SUCCESS (.adapter adapter.path)])
    else if adapter.power_state = .LM_ADAPTER_POWER_OFF then
      (adapter, [.event LM_ADAPTER_POWER_OFF_CNF LM_STATUS_SUCCESS (.adapter adapter.path)])
    else (adapter, [])
  | .ADAPTER_PROPERTY_DISCOVERING v => ({ adapter with discovering := v }, [])
  | .ADAPTER_PROPERTY_DISCOVERABLE v => ({ adapter with discoverable := v }, [])
  | .ADAPTER_PROPERTY_CONNECTABLE v => ({ adapter with connectable := v }, [])
  | .ADAPTER_PROPERTY_ALIAS v => ({ adapter with alias_ := some v }, [])
  | .other _ => (adapter, [])

/-- `lm_adapter_set_property_async`: the `Set` call is issued; its completion
callback `lm_adapter_set_property_async_cb` only logs. -/
def lm_adapter_set_property_async (adapter : lm_adapter) : List lm_effect :=
  [.dbus_call adapter.path .PROPERTIES_METHOD_SET]

/-- `lm_adapter_power_on`: the status and the effects; the adapter is not
changed. -/
def lm_adapter_power_on (adapter : lm_adapter) : Nat × List lm_effect :=
  if adapter.powered then (LM_STATUS_SUCCESS, [])
  else (LM_STATUS_SUCCESS, lm_adapter_set_property_async adapter)

/-- `lm_adapter_power_off`. -/
def lm_adapter_power_off (adapter : lm_adapter) : Nat × List lm_effect :=
  if !adapter.powered then (LM_STATUS_SUCCESS, [])
  else (LM_STATUS_SUCCESS, lm_adapter_set_property_async adapter)

/-! ## lm_device.c: synchronising to a broadcast -/

/-- The values of the enumerators of `lm_transport_audio_location_t`. -/
def lm_transport_audio_location_value : lm_transport_audio_location_t → Int
  | .LM_TRANSPORT_AUDIO_LOCATION_NONE => -1
  | .LM_TRANSPORT_AUDIO_LOCATION_MONO_LEFT => 0
  | .LM_TRANSPORT_AUDIO_LOCATION_MONO_RIGHT => 1
  | .LM_TRANSPORT_AUDIO_LOCATION_STEREO => 2

/-- The macro `g_ptr_array_index (array, index)`, `((array)->pdata)[index]`: the
element at the index; `none` when the index is not below `array->len`, where
the macro reads memory that is not an element of the array. -/
def g_ptr_array_index {α : Type} (array : List α) (index : Nat) : Option α :=
  array.get? index

/-- `lm_device_start_sync_broadcast`: the status, the device and the transports
that `lm_transport_select` is called for, in order (the bus calls of
`lm_transport_select` and `lm_transport_set_links` are left out).  The result is
`none` when the function reads past the end of `bcast_transports`. -/
def lm_device_start_sync_broadcast (device : lm_device)
    (location : lm_transport_audio_location_t) : Option (Nat × lm_device × List String) :=
  let bcast_transports := lm_device_get_transports device .LM_TRANSPORT_PROFILE_BAP_BCAST_SINK
  if bcast_transports.length = 0 then some (LM_STATUS_FAIL, device, [])
  else
    let device := { device with bcast_audio_location := location }
    match location with
    | .LM_TRANSPORT_AUDIO_LOCATION_NONE => some (LM_STATUS_SUCCESS, device, [])
    | .LM_TRANSPORT_AUDIO_LOCATION_MONO_LEFT | .LM_TRANSPORT_AUDIO_LOCATION_MONO_RIGHT =>
      match g_ptr_array_index bcast_transports
          (lm_transport_audio_location_value location).toNat with
      | some transport => some (LM_STATUS_SUCCESS, device, [transport])
      | none => none
    | .LM_TRANSPORT_AUDIO_LOCATION_STEREO => some (LM_STATUS_SUCCESS, device, bcast_transports)

/-! ## lm_device.c: the signals a device subscribes to -/

/-- A signal one of the subscriptions of `lm_device_subscribe_signal` delivers. -/
inductive lm_device_signal where
  | InterfacesAdded (object : String) (interfaces : List lm_interface_added)
  | InterfacesRemoved (object : String) (interfaces : List lm_interface_removed)
  | PlayerPropertiesChanged (path : String) (properties_changed : List lm_player_property)
  | TransportPropertiesChanged (path : String)
      (properties_changed : List lm_transport_property)
  deriving DecidableEq, Repr

/-- The device handles one signal with the handler subscribed to it; `id` is
what `g_timeout_add` returns if the handler arms the broadcast timer. -/
def lm_device_handle_signal (U : lm_uuids) (id : Nat) (device : lm_device) :
    lm_device_signal → lm_device × List lm_effect
  | .InterfacesAdded object interfaces =>
    lm_device_on_interface_appeared U id device object interfaces
  | .InterfacesRemoved object interfaces =>
    lm_device_on_interface_disappeared device object interfaces
  | .PlayerPropertiesChanged path properties_changed =>
    on_player_prop_changed device path properties_changed
  | .TransportPropertiesChanged path properties_changed =>
    on_transport_prop_changed U device path properties_changed

/-! ## The statements of the specification -/

/-- The filter rule as the specification words it: no filter; or rssi at or above
the floor, and no pattern or the name or the address begins with the pattern (a
device without a name has to match by its address), and an empty service
allowlist or a listed UUID among the device's UUIDs. -/
def matches_discovery_filter_spec (adapter : lm_adapter) (device : lm_device) : Prop :=
  match adapter.discovery_filter with
  | none => True
  | some f =>
    f.rssi ≤ device.rssi ∧
    (match f.pattern with
      | none => True
      | some p =>
        (match device.name with
          | some n => p.data <+: n.data
          | none => False) ∨ p.data <+: device.address.data) ∧
    (f.services.getD [] = [] ∨ ∃ u ∈ f.services.getD [], u ∈ device.uuids)

/-- The filter rule of the code: as `matches_discovery_filter_spec`, but the
pattern is not applied to a device without a name. -/
def matches_discovery_filter_rule (adapter : lm_adapter) (device : lm_device) : Prop :=
  match adapter.discovery_filter with
  | none => True
  | some f =>
    f.rssi ≤ device.rssi ∧
    (match f.pattern, device.name with
      | some p, some n => p.data <+: n.data ∨ p.data <+: device.address.data
      | _, _ => True) ∧
    (f.services.getD [] = [] ∨ ∃ u ∈ f.services.getD [], u ∈ device.uuids)

/-- The priority winner among the transports of a device: an a2dp sink
transport if the map holds one, otherwise a bap sink transport, otherwise none. -/
def lm_device_transport_winner (device : lm_device) : Option String :=
  match lm_device_find_transport device .LM_TRANSPORT_PROFILE_A2DP_SINK with
  | some t => some t
  | none => lm_device_find_transport device .LM_TRANSPORT_PROFILE_BAP_SINK

/-- The priority winner among the players of a device: an avrcp player if the map
holds one, otherwise an mcp player, otherwise none. -/
def lm_device_player_winner (device : lm_device) : Option String :=
  match lm_device_find_player device .LM_PLAYER_PROFILE_AVRCP with
  | some p => some p
  | none => lm_device_find_player device .LM_PLAYER_PROFILE_MCP

/-- The one event a change of the active entity from `before` to `after` calls
for: `added` from none to some, `removed` from some to none, `updated` from one
entity to another, with the new active entity as payload. -/
def active_change_event (added removed updated : Nat) (ind : Option String → lm_buf)
    (before after : Option String) : lm_effect :=
  match before, after with
  | none, some _ => .event added LM_STATUS_SUCCESS (ind after)
  | some _, none => .event removed LM_STATUS_SUCCESS .null
  | _, _ => .event updated LM_STATUS_SUCCESS (ind after)

/-! ## Concrete entities for the examples -/

/-- A discovery filter with rssi floor -70 and nothing else. -/
def example_filter : lm_adapter_discovery_filter_t :=
  { rssi := -70, services := some [], pattern := none, max_devices := 0, timeout := 0 }

/-- The adapter `/a`, freshly created. -/
def example_adapter : lm_adapter := lm_adapter_create "/a"

/-- The device `/a/d` of adapter `/a` with rssi -80. -/
def example_device : lm_device :=
  { lm_device_create_with_path "/a" "/a/d" with rssi := -80 }

/-- The adapter `/a` in state started, with a filter of rssi floor -70 that
stops discovery after one device, and no device found so far. -/
def example_adapter_limit : lm_adapter :=
  { example_adapter with
    discovery_state := .LM_ADAPTER_DISCOVERY_STARTED,
    discovery_filter := some { example_filter with max_devices := 1 },
    discovery_devices_found := 0 }

/-- The device `/a/d` of adapter `/a`, disconnected, with rssi -60. -/
def example_device_near : lm_device :=
  { example_device with rssi := -60 }

/-- The device `/a/d` holding one a2dp sink transport and one mcp player, with no
active transport and no active player yet. -/
def example_device_media : lm_device :=
  { example_device with
    transports := [("/a/d/fd0",
      { lm_transport_create (some "/a/d") "/a/d/fd0" with
        profile := .LM_TRANSPORT_PROFILE_A2DP_SINK })],
    players := [("/a/d/mcp/player0", lm_player_create "/a/d" "/a/d/mcp/player0")] }

/-- Signals about two devices of adapter `/a`: `/a/d` appears twice, disappears
and appears again; `/a/e` appears and disappears. -/
def example_signals : List lm_object_signal :=
  [ .InterfacesAdded "/a/d" [.other "org.freedesktop.DBus.Properties", .INTERFACE_DEVICE []],
    .InterfacesAdded "/a/d" [.INTERFACE_DEVICE [.DEVICE_PROPERTY_RSSI (-60)]],
    .InterfacesAdded "/a/e" [.INTERFACE_DEVICE [.DEVICE_PROPERTY_CONNECTED true]],
    .InterfacesRemoved "/a/d" [.INTERFACE_DEVICE],
    .InterfacesRemoved "/a/e" [.INTERFACE_DEVICE, .other "org.freedesktop.DBus.Properties"],
    .InterfacesAdded "/a/d" [.INTERFACE_DEVICE [.DEVICE_PROPERTY_NAME "d"]] ]

/-- The player map of a device is well formed: each key occurs once, and the
player stored under a key was created for that key (`lm_player_create` sets its
path and derives its profile from the path; no property update changes them). -/
def lm_device_players_wf (device : lm_device) : Prop :=
  (g_hash_table_get_keys device.players).Nodup
  ∧ ∀ e ∈ device.players,
      e.2.path = e.1 ∧ e.2.profile = lm_player_path_to_profile (some e.1)

/-- What holds in every state an adapter can reach: a `StartDiscovery` call is
in flight only in state starting and a `StopDiscovery` call only in state
stopping, at most one of each; and in the states stopped and starting the
discovery timer is disarmed and the device counter is 0. -/
def lm_discovery_inv (s : lm_system) : Prop :=
  (s.pending_start = 0 ∨ (s.pending_start = 1
      ∧ s.adapter.discovery_state = .LM_ADAPTER_DISCOVERY_STARTING))
  ∧ (s.pending_stop = 0 ∨ (s.pending_stop = 1
      ∧ s.adapter.discovery_state = .LM_ADAPTER_DISCOVERY_STOPPING))
  ∧ (s.adapter.discovery_state = .LM_ADAPTER_DISCOVERY_STOPPED
      ∨ s.adapter.discovery_state = .LM_ADAPTER_DISCOVERY_STARTING →
    s.adapter.discovery_timer_id = 0 ∧ s.adapter.discovery_devices_found = 0)

/-- The adapter `/a` after the application set a filter with a timeout of 10 s,
started discovery, the `StartDiscovery` call completed (timer source 1) and the
application called `lm_adapter_stop_discovery`: a `StopDiscovery` call is in
flight. -/
def example_system_stopping : lm_system :=
  lm_system_run { adapter := example_adapter }
    [ .set_discovery_filter (-70) none none 0 10,
      .start_discovery,
      .start_discovery_done .success 1,
      .stop_discovery ]

/-- The adapter `/a` after a `StartDiscovery` call failed. -/
def example_system_start_failed : lm_system :=
  lm_system_run { adapter := example_adapter }
    [ .set_discovery_filter (-70) none none 0 10,
      .start_discovery,
      .start_discovery_done (.error (some "org.bluez.Error.NotReady")) 1 ]

/-- The transports `lm_transport_create` and any sequence of
`lm_transport_update_property` calls produce. -/
inductive lm_transport_reachable (U : lm_uuids) : lm_transport → Prop where
  | create (device : Option String) (path : String) :
      lm_transport_reachable U (lm_transport_create device path)
  | update (transport : lm_transport) (active_transport : Option String)
      (p : lm_transport_property) :
      lm_transport_reachable U transport →
      lm_transport_reachable U (lm_transport_update_property U active_transport transport p).1

/-- The property is `UUID`. -/
def lm_transport_property.is_uuid : lm_transport_property → Bool
  | .MEDIA_TRANSPORT_PROPERTY_UUID _ => true
  | _ => false

/-- The largest raw volume of a profile that has a volume: 0x7F for a2dp sink,
0xFF for bap sink. -/
def lm_transport_volume_max (profile : lm_transport_profile_t) : Nat :=
  if profile = .LM_TRANSPORT_PROFILE_A2DP_SINK then AVRCP_VOLUME_MAX else MCP_VOLUME_MAX

/-- An a2dp sink transport of device `/a/d`, as the bus reports it with the raw
volume 128. -/
def example_transport_a2dp : lm_transport :=
  (lm_transport_update_properties sig_uuids none (lm_transport_create (some "/a/d") "/a/d/fd0")
    [ .MEDIA_TRANSPORT_PROPERTY_UUID "0000110b-0000-1000-8000-00805f9b34fb",
      .MEDIA_TRANSPORT_PROPERTY_VOLUME 128 ]).1

/-- An a2dp sink transport of device `/a/d` with raw volume 0. -/
def example_transport_quiet : lm_transport :=
  { lm_transport_create (some "/a/d") "/a/d/fd0" with
    profile := .LM_TRANSPORT_PROFILE_A2DP_SINK }

/-- The device `/a/d` with its a2dp sink transport only, while the broadcast
timer with source id 7 is running. -/
def example_device_timer_armed : lm_device :=
  { example_device_media with bcast_transport_timer_id := 7 }

/-- The broadcast sink transport `/a/d/bis1` of device `/a/d`, in state idle. -/
def example_transport_bcast : lm_transport :=
  { lm_transport_create (some "/a/d") "/a/d/bis1" with
    profile := .LM_TRANSPORT_PROFILE_BAP_BCAST_SINK, state := some "idle" }

/-- The device `/a/d` holding the broadcast sink transport `/a/d/bis1`, while
the broadcast timer with source id 7 is running. -/
def example_device_bcast : lm_device :=
  { example_device with
    transports := [("/a/d/bis1", example_transport_bcast)],
    bcast_transport_timer_id := 7 }

/-- The adapter `/a` with three devices: `/a/d` connected, `/a/e` connected and
advertising the broadcast announcement service, `/a/f` disconnected. -/
def example_adapter_devices : lm_adapter :=
  { example_adapter with
    device_cache :=
      [ ("/a/d", { lm_device_create_with_path "/a" "/a/d" with
          connection_state := .LM_DEVICE_CONNECTED }),
        ("/a/e", { lm_device_create_with_path "/a" "/a/e" with
          connection_state := .LM_DEVICE_CONNECTED,
          uuids := ["00001852-0000-1000-8000-00805f9b34fb"] }),
        ("/a/f", lm_device_create_with_path "/a" "/a/f") ] }

/-- The device cached under `path` is special; a device that is not cached yet
has no UUIDs and is not special. -/
def lm_adapter_device_is_special (U : lm_uuids) (adapter : lm_adapter) (path : String) : Bool :=
  match g_hash_table_lookup adapter.device_cache path with
  | some device => lm_device_is_special_device U device
  | none => false

/-- The `conn_bearer` bitmask of the device cached under `path`; a device that
is not cached yet has `LM_DEVICE_CONN_NONE`, the value `lm_device_create_with_path`
gives it. -/
def lm_adapter_device_conn_bearer (adapter : lm_adapter) (path : String) : Nat :=
  match g_hash_table_lookup adapter.device_cache path with
  | some device => lm_device_get_conn_bearer device
  | none => LM_DEVICE_CONN_NONE

/-- A `Connected` or `Disconnected` signal for `object_path` with dictionary
`dict` is one for which the specification announces an indication: it carries a
bearer tag `"le"` or `"bredr"` and the device is not special. -/
def lm_connection_signal_indicated (U : lm_uuids) (adapter : lm_adapter)
    (object_path : String) (dict : List (String × String)) : Bool :=
  match lm_signal_dict_string "bearer" dict with
  | none => false
  | some bearer =>
    (bearer == "le" || bearer == "bredr") && !lm_adapter_device_is_special U adapter object_path

/-- The adapter `/a` with the device `/a/d` connected over LE and the special
device `/a/e`. -/
def example_adapter_bearers : lm_adapter :=
  { example_adapter with
    device_cache :=
      [ ("/a/d", { lm_device_create_with_path "/a" "/a/d" with conn_bearer := 1 }),
        ("/a/e", { lm_device_create_with_path "/a" "/a/e" with
          conn_bearer := 1, uuids := ["00001852-0000-1000-8000-00805f9b34fb"] }) ] }

/-- The name is the media transport interface. -/
def lm_interface_removed.is_media_transport : lm_interface_removed → Bool
  | .INTERFACE_MEDIA_TRANSPORT => true
  | _ => false

/-- The transport cached under `object` is the last broadcast sink transport of
the device: the path is cached in the transport map, the profile of the transport
stored there is broadcast sink, and the map without this key holds no broadcast
sink transport. -/
def lm_device_is_last_bcast_transport (device : lm_device) (object : String) : Bool :=
  match g_hash_table_lookup device.transports object with
  | none => false
  | some transport =>
    transport.profile == .LM_TRANSPORT_PROFILE_BAP_BCAST_SINK
      && (g_hash_table_get_values (g_hash_table_remove device.transports object)).all
          (fun t => t.profile != .LM_TRANSPORT_PROFILE_BAP_BCAST_SINK)

/-- The device `/a/d` holding the broadcast sink transports `/a/d/bis1` and
`/a/d/bis2`. -/
def example_device_two_bcast : lm_device :=
  { example_device with
    transports :=
      [ ("/a/d/bis1", example_transport_bcast),
        ("/a/d/bis2", { example_transport_bcast with path := "/a/d/bis2" }) ] }

/-- The signal moves a broadcast sink transport of the device from a state that
is not active to the state active: its path is under the device and cached in the
transport map, the state of the transport was not active, and after the update
the state is active and the profile is broadcast sink. -/
def lm_transport_signal_syncs (U : lm_uuids) (device : lm_device)
    (s : String × List lm_transport_property) : Bool :=
  ( g_str_has_prefix s.1 device.path) &&
    match g_hash_table_lookup device.transports s.1 with
    | none => false
    | some transport =>
      let updated := (lm_transport_update_properties U device.active_transport transport s.2).1
      lm_transport_string_to_state transport.state != .LM_TRANSPORT_ACTIVE
        && lm_transport_string_to_state updated.state == .LM_TRANSPORT_ACTIVE
        && updated.profile == .LM_TRANSPORT_PROFILE_BAP_BCAST_SINK

/-- No signal of the sequence moves a broadcast sink transport to active, each
signal taken in the state the device has when it arrives. -/
def lm_no_transport_signal_syncs (U : lm_uuids) (device : lm_device) :
    List (String × List lm_transport_property) → Bool
  | [] => true
  | s :: ss =>
    !lm_transport_signal_syncs U device s
      && lm_no_transport_signal_syncs U (on_transport_prop_changed U device s.1 s.2).1 ss

/-- Four signals about the transport `/a/d/bis1`: a volume change, the state
active, the state idle, the state active again. -/
def example_transport_signals : List (String × List lm_transport_property) :=
  [ ("/a/d/bis1", [.MEDIA_TRANSPORT_PROPERTY_VOLUME 10]),
    ("/a/d/bis1", [.MEDIA_TRANSPORT_PROPERTY_STATE "active"]),
    ("/a/d/bis1", [.MEDIA_TRANSPORT_PROPERTY_STATE "idle"]),
    ("/a/d/bis1", [.MEDIA_TRANSPORT_PROPERTY_STATE "active"]) ]

/-- The avrcp player `/a/d/avrcp/player0` of device `/a/d`, as created. -/
def example_player : lm_player := lm_player_create "/a/d" "/a/d/avrcp/player0"

/-- The slot holds a live registration: it is in use and holds a handler. -/
def lm_app_callback_block_t.is_live (b : lm_app_callback_block_t) : Bool :=
  b.in_use && b.cb.isSome

/-- The live registrations whose mask has the bit of the module of `msg` set,
in slot order. -/
def lm_registry_listeners (reg : lm_registry) (msg : Nat) : List lm_app_callback_block_t :=
  reg.app_callback_table.filter
    (fun b => b.is_live && b.mask.testBit (msg >>> LM_MODULE_OFFSET))

/-- The registry after three registrations of general event handlers: handler 1
for the adapter module, handler 2 for the device module, handler 3 for both. -/
def example_registry : lm_registry :=
  lm_registry_run lm_registry_init
    [ .register LM_CALLBACK_TYPE_APP_EVENT (LM_MODULE_MASK LM_MODULE_ADAPTER) (some 1),
      .register LM_CALLBACK_TYPE_APP_EVENT (LM_MODULE_MASK LM_MODULE_DEVICE) (some 2),
      .register LM_CALLBACK_TYPE_APP_EVENT
        (LM_MODULE_MASK LM_MODULE_ADAPTER ||| LM_MODULE_MASK LM_MODULE_DEVICE) (some 3) ]

/-- How many general event registrations are live: the slots in use. -/
def lm_registry_live_count (reg : lm_registry) : Nat :=
  (reg.app_callback_table.filter (fun b => b.in_use)).length

/-- What holds of the general event table in every state the registry reaches
from the zeroed tables: it has `LM_APP_CALLBACK_MAX` slots, and a slot is either
zeroed or in use with a handler. -/
def lm_registry_inv (reg : lm_registry) : Prop :=
  reg.app_callback_table.length = LM_APP_CALLBACK_MAX
  ∧ ∀ b ∈ reg.app_callback_table,
      b = { in_use := false, mask := 0, cb := none } ∨ (b.in_use = true ∧ b.cb.isSome = true)

/-- A history that fills the table: twenty registrations of handler 7 for the
adapter module. -/
def example_registry_ops_full : List lm_registry_op :=
  List.replicate 20
    (.register LM_CALLBACK_TYPE_APP_EVENT (LM_MODULE_MASK LM_MODULE_ADAPTER) (some 7))

/-- The general event registration a call asks for: mask and handler of a
`lm_register_callback (LM_CALLBACK_TYPE_APP_EVENT, mask, cb)` with a handler. -/
def lm_registry_op.registration : lm_registry_op → Option (Nat × Nat)
  | .register type module_mask (some cb) =>
    if type = LM_CALLBACK_TYPE_APP_EVENT then some (module_mask, cb) else none
  | _ => none

/-- The call is an unregistration of a general event handler. -/
def lm_registry_op.is_app_unregister : lm_registry_op → Bool
  | .unregister type _ _ => type == LM_CALLBACK_TYPE_APP_EVENT
  | _ => false

/-- The registrations made by a history without unregistrations, in the order
in which they were made, after the registrations `made` before it: a
registration is made while fewer than `LM_APP_CALLBACK_MAX` are. -/
def lm_registry_registered (made : List (Nat × Nat)) : List lm_registry_op → List (Nat × Nat)
  | [] => made
  | op :: ops =>
    match op.registration with
    | some r =>
      if made.length < LM_APP_CALLBACK_MAX then lm_registry_registered (made ++ [r]) ops
      else lm_registry_registered made ops
    | none => lm_registry_registered made ops

/-- Handlers 1 and 2 register for the adapter module, handler 1 unregisters,
handler 3 registers for the adapter module. -/
def example_registry_ops_reuse : List lm_registry_op :=
  [ .register LM_CALLBACK_TYPE_APP_EVENT (LM_MODULE_MASK LM_MODULE_ADAPTER) (some 1),
    .register LM_CALLBACK_TYPE_APP_EVENT (LM_MODULE_MASK LM_MODULE_ADAPTER) (some 2),
    .unregister LM_CALLBACK_TYPE_APP_EVENT 0 (some 1),
    .register LM_CALLBACK_TYPE_APP_EVENT (LM_MODULE_MASK LM_MODULE_ADAPTER) (some 3) ]

/-- A zeroed slot. -/
def lm_app_callback_block_t.zero : lm_app_callback_block_t :=
  { in_use := false, mask := 0, cb := none }

/-- The slot that holds the registration of mask `r.1` and handler `r.2`. -/
def lm_app_callback_block_t.of_registration (r : Nat × Nat) : lm_app_callback_block_t :=
  { in_use := true, mask := r.1, cb := some r.2 }

/-- The input is the completion of a `StartDiscovery` or `StopDiscovery` call
with an error other than `org.bluez.Error.InProgress`: the callback then rolls
`discovery_state` back by assigning the field. -/
def lm_input.is_failed_completion : lm_input → Bool
  | .start_discovery_done (.error code_str) _ =>
    code_str != some "org.bluez.Error.InProgress"
  | .stop_discovery_done (.error code_str) => code_str != some "org.bluez.Error.InProgress"
  | _ => false

/-- The active transport of the device is the priority winner over its
transport map. -/
def lm_device_active_transport_inv (device : lm_device) : Prop :=
  device.active_transport = lm_device_transport_winner device

/-- The signal leaves the profile of every cached transport alone: a transport
`PropertiesChanged` signal qualifies when its dictionary has no `UUID` entry,
every other signal does. -/
def lm_device_signal.keeps_profile : lm_device_signal → Bool
  | .TransportPropertiesChanged _ properties_changed =>
    properties_changed.all (fun p => !p.is_uuid)
  | _ => true

/-- The device `/a/d` holding the transport `/a/d/fd0` as `lm_transport_create`
makes it: no uuid yet, profile null; no active transport. -/
def example_device_plain_transport : lm_device :=
  { example_device with
    transports := [("/a/d/fd0", lm_transport_create (some "/a/d") "/a/d/fd0")] }

/-- What every signal keeps of the transports of a device: the map has each key
once and the active transport is the priority winner. -/
def lm_device_transports_inv (device : lm_device) : Prop :=
  (g_hash_table_get_keys device.transports).Nodup ∧ lm_device_active_transport_inv device

/-- The entry is the media transport interface. -/
def lm_interface_added.is_media_transport : lm_interface_added → Bool
  | .INTERFACE_MEDIA_TRANSPORT _ => true
  | _ => false

/-- The device `/a/d` holding the avrcp player `/a/d/avrcp/player0`, which is its
active player. -/
def example_device_player_active : lm_device :=
  { example_device with
    players := [("/a/d/avrcp/player0", example_player)],
    active_player := some "/a/d/avrcp/player0" }

/-- The adapter `/a` in state started, without a filter, with the disconnected
device `/a/d` cached. -/
def example_adapter_discovering : lm_adapter :=
  { example_adapter with
    discovery_state := .LM_ADAPTER_DISCOVERY_STARTED,
    device_cache := [("/a/d", example_device)] }

/-! # Theorems -/

/-! ## Lists of effects -/

theorem count_events_nil (msg : Nat) : count_events msg [] = 0 := rfl

theorem count_events_append (msg : Nat) (l₁ l₂ : List lm_effect) :
    count_events msg (l₁ ++ l₂) = count_events msg l₁ + count_events msg l₂ := by
  simp [count_events, List.filter_append]

theorem count_calls_append (m : lm_dbus_method) (l₁ l₂ : List lm_effect) :
    count_calls m (l₁ ++ l₂) = count_calls m l₁ + count_calls m l₂ := by
  simp [count_calls, List.filter_append]

/-! ## Discovery commands in the states that refuse or ignore them -/

/-- C5 (as the code has it): while `discovery_state` is starting or stopping,
`lm_adapter_start_discovery` returns `LM_STATUS_FAIL`, leaves the whole adapter
(so `discovery_state` too) unchanged and has no effect at all: no bus call, no
event. -/
theorem C5_start_discovery_refused (adapter : lm_adapter)
    (h : adapter.discovery_state = .LM_ADAPTER_DISCOVERY_STARTING
      ∨ adapter.discovery_state = .LM_ADAPTER_DISCOVERY_STOPPING) :
    lm_adapter_start_discovery adapter = (LM_STATUS_FAIL, adapter, []) := by
  unfold lm_adapter_start_discovery
  rcases h with h | h <;> simp [h]

/-- C5 at the adapter `/a` in state stopping. -/
theorem C5_start_discovery_refused_witness :
    lm_adapter_start_discovery
        { example_adapter with discovery_state := .LM_ADAPTER_DISCOVERY_STOPPING }
      = (LM_STATUS_FAIL,
        { example_adapter with discovery_state := .LM_ADAPTER_DISCOVERY_STOPPING }, []) :=
  C5_start_discovery_refused _ (Or.inr rfl)

/-- C5 as stated fails: in state starting `lm_adapter_start_discovery` does not
return `LM_STATUS_BUSY` (it returns `LM_STATUS_FAIL`, which is another value). -/
theorem C5_start_discovery_not_busy :
    (lm_adapter_start_discovery
        { example_adapter with discovery_state := .LM_ADAPTER_DISCOVERY_STARTING }).1
      ≠ LM_STATUS_BUSY := by
  decide

/-- C6: `lm_adapter_stop_discovery` in state stopped returns `LM_STATUS_SUCCESS`,
leaves the adapter unchanged and has no effect (no event, no bus call); so does
`lm_adapter_start_discovery` in state started. -/
theorem C6_discovery_noop (adapter : lm_adapter) :
    (adapter.discovery_state = .LM_ADAPTER_DISCOVERY_STOPPED →
      lm_adapter_stop_discovery adapter = (LM_STATUS_SUCCESS, adapter, [])) ∧
    (adapter.discovery_state = .LM_ADAPTER_DISCOVERY_STARTED →
      lm_adapter_start_discovery adapter = (LM_STATUS_SUCCESS, adapter, [])) := by
  constructor
  · intro h
    simp [lm_adapter_stop_discovery, h]
  · intro h
    simp [lm_adapter_start_discovery, h]

/-- C6 at the adapter `/a` in state stopped and in state started. -/
theorem C6_discovery_noop_witness :
    lm_adapter_stop_discovery example_adapter = (LM_STATUS_SUCCESS, example_adapter, []) ∧
    lm_adapter_start_discovery
        { example_adapter with discovery_state := .LM_ADAPTER_DISCOVERY_STARTED }
      = (LM_STATUS_SUCCESS,
        { example_adapter with discovery_state := .LM_ADAPTER_DISCOVERY_STARTED }, []) :=
  ⟨(C6_discovery_noop example_adapter).1 rfl,
   (C6_discovery_noop { example_adapter with
      discovery_state := .LM_ADAPTER_DISCOVERY_STARTED }).2 rfl⟩

/-! ## The discovery filter -/

theorem has_prefix_iff (str pfx : String) :
    g_str_has_prefix str pfx = true ↔ pfx.data <+: str.data := by
  unfold g_str_has_prefix
  exact List.isPrefixOf_iff_prefix

theorem lm_device_has_service_iff (device : lm_device) (service_uuid : String) :
    lm_device_has_service device service_uuid = true ↔ service_uuid ∈ device.uuids := by
  unfold lm_device_has_service
  simp [List.any_eq_true]

/-- C8 (as the code has it): `matches_discovery_filter` returns true exactly when
the adapter has no filter, or the rssi is at or above the floor, and the filter
has no pattern or the device has no name or the name or the address begins with
the pattern, and the allowlist is empty or lists a UUID of the device. -/
theorem C8_matches_discovery_filter_rule (adapter : lm_adapter) (device : lm_device) :
    matches_discovery_filter adapter device = true
      ↔ matches_discovery_filter_rule adapter device := by
  unfold matches_discovery_filter matches_discovery_filter_rule
  cases hf : adapter.discovery_filter with
  | none => simp
  | some f =>
    simp only [lm_device_get_rssi, lm_device_get_name, lm_device_get_address]
    by_cases hr : device.rssi < f.rssi
    · simp [hr]
    · have hr' : f.rssi ≤ device.rssi := not_lt.mp hr
      simp only [hr, if_false, hr', true_and]
      have hsvc : (match f.services with
            | some services_filter =>
              if services_filter.length = 0 then true
              else services_filter.any (fun uuid_filter => lm_device_has_service device uuid_filter)
            | none => true) = true
          ↔ (f.services.getD [] = [] ∨ ∃ u ∈ f.services.getD [], u ∈ device.uuids) := by
        cases hs : f.services with
        | none => simp
        | some l =>
          cases l with
          | nil => simp
          | cons x xs =>
            simp [List.any_eq_true, lm_device_has_service_iff]
      cases hp : f.pattern with
      | none => simpa using hsvc
      | some p =>
        cases hn : device.name with
        | none => simpa using hsvc
        | some n =>
          by_cases hm : g_str_has_prefix n p = true ∨ g_str_has_prefix device.address p = true
          · have hm' : p.data <+: n.data ∨ p.data <+: device.address.data := by
              rcases hm with h | h
              · exact Or.inl ((has_prefix_iff _ _).mp h)
              · exact Or.inr ((has_prefix_iff _ _).mp h)
            have hb : ( g_str_has_prefix n p || g_str_has_prefix device.address p) = true := by
              simpa using hm
            simp only [hb, Bool.not_true, Bool.false_eq_true, if_false, hm', true_and]
            exact hsvc
          · have hm' : ¬ (p.data <+: n.data ∨ p.data <+: device.address.data) := by
              intro h
              apply hm
              rcases h with h | h
              · exact Or.inl ((has_prefix_iff _ _).mpr h)
              · exact Or.inr ((has_prefix_iff _ _).mpr h)
            have hb : ( g_str_has_prefix n p || g_str_has_prefix device.address p) = false := by
              simpa using hm
            simp [hb, hm']

/-- C8 as stated fails: with the pattern `"AA"`, a device without a name whose
address is `00:00:00:00:00:00` and whose rssi is above the floor passes
`matches_discovery_filter`, although its address does not begin with the pattern. -/
theorem C8_nameless_device_passes_pattern :
    ¬ (matches_discovery_filter
          { example_adapter with discovery_filter := some { example_filter with pattern := some "AA" } }
          { example_device with rssi := -60 } = true
        ↔ matches_discovery_filter_spec
          { example_adapter with discovery_filter := some { example_filter with pattern := some "AA" } }
          { example_device with rssi := -60 }) := by
  intro h
  have h1 : matches_discovery_filter
      { example_adapter with discovery_filter := some { example_filter with pattern := some "AA" } }
      { example_device with rssi := -60 } = true := by decide
  have h2 := h.mp h1
  simp only [matches_discovery_filter_spec] at h2
  obtain ⟨_, h3, _⟩ := h2
  rcases h3 with h3 | h3
  · exact h3
  · have h4 := (has_prefix_iff example_device.address "AA").mpr h3
    revert h4
    decide

theorem matches_discovery_filter_rssi (adapter : lm_adapter) (device : lm_device)
    (f : lm_adapter_discovery_filter_t) (hf : adapter.discovery_filter = some f)
    (h : device.rssi < f.rssi) : matches_discovery_filter adapter device = false := by
  simp [matches_discovery_filter, hf, lm_device_get_rssi, h]

/-- C9: when the adapter has a filter with rssi floor `f.rssi` and the device's
rssi is below it, `deliver_discovery_result` changes nothing in the adapter (the
counter and the discovery state stay as they are) and has no effect: no
discovery-result event, no stop call. -/
theorem C9_deliver_below_rssi_floor (adapter : lm_adapter) (device : lm_device)
    (f : lm_adapter_discovery_filter_t) (hf : adapter.discovery_filter = some f)
    (h : device.rssi < f.rssi) :
    deliver_discovery_result adapter device = (adapter, []) := by
  unfold deliver_discovery_result
  split
  · simp [matches_discovery_filter_rssi adapter device f hf h]
  · rfl

/-- C9 at a device with rssi -80 and a filter with floor -70. -/
theorem C9_deliver_below_rssi_floor_witness :
    example_device.rssi = -80 ∧ example_filter.rssi = -70 ∧
    deliver_discovery_result
        { example_adapter with
          discovery_state := .LM_ADAPTER_DISCOVERY_STARTED,
          discovery_filter := some example_filter }
        example_device
      = ({ example_adapter with
          discovery_state := .LM_ADAPTER_DISCOVERY_STARTED,
          discovery_filter := some example_filter }, []) :=
  ⟨rfl, rfl, C9_deliver_below_rssi_floor _ example_device example_filter rfl (by decide)⟩

/-! ## `lm_adapter_set_discovery_state` -/

theorem lm_adapter_set_discovery_state_state (id : Nat) (adapter : lm_adapter)
    (discovery_state : lm_adapter_discovery_state_t) :
    (lm_adapter_set_discovery_state id adapter discovery_state).1.discovery_state
      = discovery_state := by
  unfold lm_adapter_set_discovery_state
  by_cases h : adapter.discovery_state = discovery_state
  · simp [h]
  · simp only [h, if_false]
    cases discovery_state <;> simp
    · split <;> simp
    · split
      · split <;> simp
      · simp

theorem lm_adapter_set_discovery_state_stopped (id : Nat) (adapter : lm_adapter)
    (h : adapter.discovery_state ≠ .LM_ADAPTER_DISCOVERY_STOPPED) :
    (lm_adapter_set_discovery_state id adapter .LM_ADAPTER_DISCOVERY_STOPPED).1.discovery_timer_id = 0
    ∧ (lm_adapter_set_discovery_state id adapter
        .LM_ADAPTER_DISCOVERY_STOPPED).1.discovery_devices_found = 0 := by
  unfold lm_adapter_set_discovery_state
  simp only [h, if_false]
  by_cases ht : adapter.discovery_timer_id = 0
  · simp [ht]
  · simp [ht]

/-! ## Reaching the device limit -/

/-- C10 (as the code has it): in state started with `max_devices = n > 0` and
`n - 1` devices found so far, one more accepted result (a disconnected device
that passes the filter) emits one discovery-result and exactly one
discovery-complete event, issues one `StopDiscovery` call and leaves
`discovery_state` = stopping; when that call completes without error the state
is stopped and the counter is back at 0. -/
theorem C10_max_devices_reached (adapter : lm_adapter) (device : lm_device)
    (f : lm_adapter_discovery_filter_t) (n : Nat)
    (hstate : adapter.discovery_state = .LM_ADAPTER_DISCOVERY_STARTED)
    (hf : adapter.discovery_filter = some f) (hmax : f.max_devices = n) (hn : 0 < n)
    (hguint : n < 2 ^ 32) (hfound : adapter.discovery_devices_found = n - 1)
    (hdisc : device.connection_state = .LM_DEVICE_DISCONNECTED)
    (hpass : matches_discovery_filter adapter device = true) :
    count_events LM_ADAPTER_DISCOVERY_COMPLETE_IND (deliver_discovery_result adapter device).2 = 1 ∧
    count_events LM_ADAPTER_DISCOVERY_RESULT_IND (deliver_discovery_result adapter device).2 = 1 ∧
    count_calls .ADAPTER_METHOD_STOP_DISCOVERY (deliver_discovery_result adapter device).2 = 1 ∧
    (deliver_discovery_result adapter device).1.discovery_state = .LM_ADAPTER_DISCOVERY_STOPPING ∧
    (lm_adapter_stop_discovery_cb (deliver_discovery_result adapter device).1 .success).1.discovery_state
      = .LM_ADAPTER_DISCOVERY_STOPPED ∧
    (lm_adapter_stop_discovery_cb (deliver_discovery_result adapter device).1 .success).1.discovery_devices_found
      = 0 := by
  have hne : f.max_devices ≠ 0 := by omega
  have hcnt : (n - 1 + 1) % 2 ^ 32 = n := by
    rw [Nat.sub_add_cancel hn]
    exact Nat.mod_eq_of_lt hguint
  have hge : f.max_devices ≤ (adapter.discovery_devices_found + 1) % 2 ^ 32 := by
    rw [hfound, hcnt, hmax]
  have hge' : f.max_devices ≤ (adapter.discovery_devices_found + 1) % 4294967296 := by
    simpa using hge
  have key : deliver_discovery_result adapter device =
      ({ adapter with
          discovery_devices_found := (adapter.discovery_devices_found + 1) % 2 ^ 32,
          discovery_state := .LM_ADAPTER_DISCOVERY_STOPPING },
        [.event LM_ADAPTER_DISCOVERY_RESULT_IND LM_STATUS_SUCCESS
            (.adapter_device adapter.path device.path),
         .event LM_ADAPTER_DISCOVERY_STATE_CHANGE_IND LM_STATUS_SUCCESS (.adapter adapter.path),
         .dbus_call adapter.path .ADAPTER_METHOD_STOP_DISCOVERY,
         .event LM_ADAPTER_DISCOVERY_COMPLETE_IND LM_STATUS_SUCCESS (.adapter adapter.path)]) := by
    simp [deliver_discovery_result, lm_device_get_connection_state, hdisc, hpass, hf, hne, hge',
      lm_adapter_stop_discovery, lm_adapter_set_discovery_state, hstate]
  rw [key]
  refine ⟨rfl, rfl, rfl, rfl, ?_, ?_⟩
  · exact lm_adapter_set_discovery_state_state 0 _ _
  · exact (lm_adapter_set_discovery_state_stopped 0 _ (by simp)).2

/-- C10 at an adapter whose filter stops discovery after one device. -/
theorem C10_max_devices_reached_witness :
    count_events LM_ADAPTER_DISCOVERY_COMPLETE_IND
      (deliver_discovery_result example_adapter_limit example_device_near).2 = 1 ∧
    count_events LM_ADAPTER_DISCOVERY_RESULT_IND
      (deliver_discovery_result example_adapter_limit example_device_near).2 = 1 ∧
    count_calls .ADAPTER_METHOD_STOP_DISCOVERY
      (deliver_discovery_result example_adapter_limit example_device_near).2 = 1 ∧
    (deliver_discovery_result example_adapter_limit example_device_near).1.discovery_state
      = .LM_ADAPTER_DISCOVERY_STOPPING ∧
    (lm_adapter_stop_discovery_cb
      (deliver_discovery_result example_adapter_limit example_device_near).1
      .success).1.discovery_state = .LM_ADAPTER_DISCOVERY_STOPPED ∧
    (lm_adapter_stop_discovery_cb
      (deliver_discovery_result example_adapter_limit example_device_near).1
      .success).1.discovery_devices_found = 0 :=
  C10_max_devices_reached example_adapter_limit example_device_near
    { example_filter with max_devices := 1 } 1 rfl rfl rfl (by decide) (by decide) rfl rfl
    (by decide)

/-- C10 as stated fails: the adapter is in state started, its filter has
`max_devices = 1`, no device was found so far, and the device is disconnected and
passes the filter; after `deliver_discovery_result` the state is not stopped. -/
theorem C10_state_not_stopped :
    example_adapter_limit.discovery_state = .LM_ADAPTER_DISCOVERY_STARTED ∧
    example_adapter_limit.discovery_filter = some { example_filter with max_devices := 1 } ∧
    example_adapter_limit.discovery_devices_found = 1 - 1 ∧
    example_device_near.connection_state = .LM_DEVICE_DISCONNECTED ∧
    matches_discovery_filter example_adapter_limit example_device_near = true ∧
    ¬ (count_events LM_ADAPTER_DISCOVERY_COMPLETE_IND
          (deliver_discovery_result example_adapter_limit example_device_near).2 = 1 ∧
        (deliver_discovery_result example_adapter_limit example_device_near).1.discovery_state
          = .LM_ADAPTER_DISCOVERY_STOPPED) := by
  decide

/-! ## Recomputing the active player and the active transport -/

theorem lm_device_update_active_transport_eq (device : lm_device) :
    lm_device_update_active_transport device =
      if device.active_transport = lm_device_transport_winner device then (device, [])
      else
        ({ device with active_transport := lm_device_transport_winner device },
          [active_change_event LM_TRANSPORT_ADDED_IND LM_TRANSPORT_REMOVED_IND
            LM_TRANSPORT_UPDATE_IND lm_transport_ind device.active_transport
            (lm_device_transport_winner device)]) := by
  unfold lm_device_update_active_transport lm_device_transport_winner
  cases hw : lm_device_find_transport device .LM_TRANSPORT_PROFILE_A2DP_SINK with
  | some t =>
    cases ha : device.active_transport with
    | none => simp [active_change_event]
    | some a =>
      by_cases hat : a = t
      · simp [hat]
      · simp [hat, active_change_event]
  | none =>
    cases hb : lm_device_find_transport device .LM_TRANSPORT_PROFILE_BAP_SINK with
    | none =>
      cases ha : device.active_transport with
      | none => simp
      | some a => simp [active_change_event]
    | some t =>
      cases ha : device.active_transport with
      | none => simp [active_change_event]
      | some a =>
        by_cases hat : a = t
        · simp [hat]
        · simp [hat, active_change_event]

theorem lm_device_update_active_player_eq (device : lm_device) :
    lm_device_update_active_player device =
      if device.active_player = lm_device_player_winner device then (device, [])
      else
        ({ device with active_player := lm_device_player_winner device },
          [active_change_event LM_PLAYER_ADDED_IND LM_PLAYER_REMOVED_IND
            LM_PLAYER_UPDATE_IND lm_player_ind device.active_player
            (lm_device_player_winner device)]) := by
  unfold lm_device_update_active_player lm_device_player_winner
  cases hw : lm_device_find_player device .LM_PLAYER_PROFILE_AVRCP with
  | some t =>
    cases ha : device.active_player with
    | none => simp [active_change_event]
    | some a =>
      by_cases hat : a = t
      · simp [hat]
      · simp [hat, active_change_event]
  | none =>
    cases hb : lm_device_find_player device .LM_PLAYER_PROFILE_MCP with
    | none =>
      cases ha : device.active_player with
      | none => simp
      | some a => simp [active_change_event]
    | some t =>
      cases ha : device.active_player with
      | none => simp [active_change_event]
      | some a =>
        by_cases hat : a = t
        · simp [hat]
        · simp [hat, active_change_event]

theorem lm_device_transport_winner_active (device : lm_device) (active : Option String) :
    lm_device_transport_winner { device with active_transport := active }
      = lm_device_transport_winner device := rfl

theorem lm_device_player_winner_active (device : lm_device) (active : Option String) :
    lm_device_player_winner { device with active_player := active }
      = lm_device_player_winner device := rfl

/-- C3: `lm_device_update_active_transport` returns the device unchanged and
emits nothing when the priority winner is the active transport; otherwise it
sets the active transport to the winner, changes nothing else, and emits exactly
one event: `added` from none to some, `removed` from some to none, `updated`
from one transport to another.  A second call right after emits nothing.  The
same holds for `lm_device_update_active_player`. -/
theorem C3_update_active (device : lm_device) :
    (lm_device_transport_winner device = device.active_transport →
      lm_device_update_active_transport device = (device, [])) ∧
    (lm_device_transport_winner device ≠ device.active_transport →
      (lm_device_update_active_transport device).1
        = { device with active_transport := lm_device_transport_winner device }) ∧
    (∀ t, device.active_transport = none → lm_device_transport_winner device = some t →
      (lm_device_update_active_transport device).2
        = [.event LM_TRANSPORT_ADDED_IND LM_STATUS_SUCCESS (.transport t)]) ∧
    (∀ a, device.active_transport = some a → lm_device_transport_winner device = none →
      (lm_device_update_active_transport device).2
        = [.event LM_TRANSPORT_REMOVED_IND LM_STATUS_SUCCESS .null]) ∧
    (∀ a t, device.active_transport = some a → lm_device_transport_winner device = some t →
      a ≠ t →
      (lm_device_update_active_transport device).2
        = [.event LM_TRANSPORT_UPDATE_IND LM_STATUS_SUCCESS (.transport t)]) ∧
    (lm_device_update_active_transport (lm_device_update_active_transport device).1).2 = [] ∧
    (lm_device_player_winner device = device.active_player →
      lm_device_update_active_player device = (device, [])) ∧
    (lm_device_player_winner device ≠ device.active_player →
      (lm_device_update_active_player device).1
        = { device with active_player := lm_device_player_winner device }) ∧
    (∀ p, device.active_player = none → lm_device_player_winner device = some p →
      (lm_device_update_active_player device).2
        = [.event LM_PLAYER_ADDED_IND LM_STATUS_SUCCESS (.player p)]) ∧
    (∀ a, device.active_player = some a → lm_device_player_winner device = none →
      (lm_device_update_active_player device).2
        = [.event LM_PLAYER_REMOVED_IND LM_STATUS_SUCCESS .null]) ∧
    (∀ a p, device.active_player = some a → lm_device_player_winner device = some p →
      a ≠ p →
      (lm_device_update_active_player device).2
        = [.event LM_PLAYER_UPDATE_IND LM_STATUS_SUCCESS (.player p)]) ∧
    (lm_device_update_active_player (lm_device_update_active_player device).1).2 = [] := by
  refine ⟨?_, ?_, ?_, ?_, ?_, ?_, ?_, ?_, ?_, ?_, ?_, ?_⟩
  · intro h
    rw [lm_device_update_active_transport_eq, if_pos h.symm]
  · intro h
    rw [lm_device_update_active_transport_eq, if_neg (fun e => h e.symm)]
  · intro t ha hw
    rw [lm_device_update_active_transport_eq, ha, hw]
    simp [active_change_event, lm_transport_ind]
  · intro a ha hw
    rw [lm_device_update_active_transport_eq, ha, hw]
    simp [active_change_event]
  · intro a t ha hw hne
    rw [lm_device_update_active_transport_eq, ha, hw]
    simp [active_change_event, lm_transport_ind, hne]
  · rw [lm_device_update_active_transport_eq device]
    by_cases h : device.active_transport = lm_device_transport_winner device
    · rw [if_pos h, lm_device_update_active_transport_eq, if_pos h]
    · rw [if_neg h]
      have e := lm_device_update_active_transport_eq
        { device with active_transport := lm_device_transport_winner device }
      rw [if_pos (lm_device_transport_winner_active device _).symm] at e
      show (lm_device_update_active_transport
        { device with active_transport := lm_device_transport_winner device }).2 = []
      rw [e]
  · intro h
    rw [lm_device_update_active_player_eq, if_pos h.symm]
  · intro h
    rw [lm_device_update_active_player_eq, if_neg (fun e => h e.symm)]
  · intro t ha hw
    rw [lm_device_update_active_player_eq, ha, hw]
    simp [active_change_event, lm_player_ind]
  · intro a ha hw
    rw [lm_device_update_active_player_eq, ha, hw]
    simp [active_change_event]
  · intro a t ha hw hne
    rw [lm_device_update_active_player_eq, ha, hw]
    simp [active_change_event, lm_player_ind, hne]
  · rw [lm_device_update_active_player_eq device]
    by_cases h : device.active_player = lm_device_player_winner device
    · rw [if_pos h, lm_device_update_active_player_eq, if_pos h]
    · rw [if_neg h]
      have e := lm_device_update_active_player_eq
        { device with active_player := lm_device_player_winner device }
      rw [if_pos (lm_device_player_winner_active device _).symm] at e
      show (lm_device_update_active_player
        { device with active_player := lm_device_player_winner device }).2 = []
      rw [e]

/-- C3 at a device that holds one a2dp sink transport and one mcp player and has
no active entity yet: each recomputation emits one `added` event. -/
theorem C3_update_active_witness :
    (lm_device_update_active_transport example_device_media).2
      = [.event LM_TRANSPORT_ADDED_IND LM_STATUS_SUCCESS (.transport "/a/d/fd0")] ∧
    (lm_device_update_active_player example_device_media).2
      = [.event LM_PLAYER_ADDED_IND LM_STATUS_SUCCESS (.player "/a/d/mcp/player0")] ∧
    (lm_device_update_active_player example_device_media).1
      = { example_device_media with active_player := some "/a/d/mcp/player0" } :=
  ⟨(C3_update_active example_device_media).2.2.1 "/a/d/fd0" rfl (by decide),
   (C3_update_active example_device_media).2.2.2.2.2.2.2.2.1 "/a/d/mcp/player0" rfl (by decide),
   (C3_update_active example_device_media).2.2.2.2.2.2.2.1 (by decide)⟩

/-! ## Hash tables -/

theorem g_hash_table_contains_iff {V : Type} (t : GHashTable V) (key : String) :
    g_hash_table_contains t key = true ↔ key ∈ g_hash_table_get_keys t := by
  unfold g_hash_table_contains g_hash_table_get_keys
  simp [List.any_eq_true]

theorem g_hash_table_lookup_isSome {V : Type} (t : GHashTable V) (key : String) :
    (g_hash_table_lookup t key).isSome = g_hash_table_contains t key := by
  unfold g_hash_table_lookup g_hash_table_contains
  induction t with
  | nil => rfl
  | cons e t ih =>
    by_cases h : e.1 = key
    · simp [List.find?, h]
    · have hb : (e.1 == key) = false := by simpa using h
      simp only [List.find?, hb, List.any_cons, Bool.false_or]
      exact ih

theorem g_hash_table_lookup_mem {V : Type} (t : GHashTable V) (key : String) (v : V)
    (h : g_hash_table_lookup t key = some v) : (key, v) ∈ t := by
  unfold g_hash_table_lookup at h
  cases hf : t.find? (fun e => e.1 == key) with
  | none => simp [hf] at h
  | some e =>
    rw [hf] at h
    simp only [Option.map_some', Option.some.injEq] at h
    have h1 := List.mem_of_find?_eq_some hf
    have h2 := List.find?_some hf
    simp only [beq_iff_eq] at h2
    rw [← h2, ← h]
    exact h1

theorem g_hash_table_keys_store {V : Type} (t : GHashTable V) (key : String) (v : V) :
    g_hash_table_get_keys (g_hash_table_store t key v) = g_hash_table_get_keys t := by
  unfold g_hash_table_get_keys g_hash_table_store
  rw [List.map_map]
  apply List.map_congr_left
  intro e _
  by_cases h : e.1 = key <;> simp [h]

theorem g_hash_table_keys_insert {V : Type} (t : GHashTable V) (key : String) (v : V) :
    g_hash_table_get_keys (g_hash_table_insert t key v)
      = if key ∈ g_hash_table_get_keys t then g_hash_table_get_keys t
        else g_hash_table_get_keys t ++ [key] := by
  unfold g_hash_table_insert
  by_cases h : g_hash_table_contains t key = true
  · rw [if_pos h, if_pos ((g_hash_table_contains_iff t key).mp h)]
    exact g_hash_table_keys_store t key v
  · rw [if_neg h, if_neg (fun hk => h ((g_hash_table_contains_iff t key).mpr hk))]
    simp [g_hash_table_get_keys]

theorem g_hash_table_keys_remove {V : Type} (t : GHashTable V) (key : String) :
    g_hash_table_get_keys (g_hash_table_remove t key)
      = (g_hash_table_get_keys t).filter (fun k => !(k == key)) := by
  unfold g_hash_table_get_keys g_hash_table_remove
  rw [List.filter_map]
  rfl

theorem g_hash_table_lookup_eq_none {V : Type} (t : GHashTable V) (key : String) :
    g_hash_table_lookup t key = none ↔ key ∉ g_hash_table_get_keys t := by
  rw [← g_hash_table_contains_iff, ← g_hash_table_lookup_isSome]
  cases g_hash_table_lookup t key <;> simp

theorem g_hash_table_keys_remove_nodup {V : Type} (t : GHashTable V) (key : String)
    (h : (g_hash_table_get_keys t).Nodup) :
    (g_hash_table_get_keys (g_hash_table_remove t key)).Nodup := by
  rw [g_hash_table_keys_remove]
  exact h.filter _

theorem g_hash_table_keys_insert_nodup {V : Type} (t : GHashTable V) (key : String) (v : V)
    (h : (g_hash_table_get_keys t).Nodup) :
    (g_hash_table_get_keys (g_hash_table_insert t key v)).Nodup := by
  rw [g_hash_table_keys_insert]
  split
  · exact h
  · rename_i hk
    exact List.Nodup.append h (List.nodup_singleton key) (by simpa using hk)

/-! ## The device map of an adapter under object lifecycle signals -/

theorem lm_device_set_conn_state_path (device : lm_device)
    (state : lm_device_connection_state_t) :
    (lm_device_set_conn_state device state).1.path = device.path := by
  unfold lm_device_set_conn_state
  simp only
  split <;> rfl

theorem lm_device_update_property_path (device : lm_device) (p : lm_device_property) :
    (lm_device_update_property device p).1.path = device.path := by
  cases p <;>
    first
      | exact lm_device_set_conn_state_path device _
      | rfl

theorem lm_device_update_properties_path (device : lm_device) (ps : List lm_device_property) :
    (lm_device_update_properties device ps).1.path = device.path := by
  induction ps generalizing device with
  | nil => rfl
  | cons p ps ih =>
    simp only [lm_device_update_properties]
    rw [ih, lm_device_update_property_path]

theorem lm_adapter_set_discovery_state_frame (id : Nat) (adapter : lm_adapter)
    (discovery_state : lm_adapter_discovery_state_t) :
    (lm_adapter_set_discovery_state id adapter discovery_state).1.path = adapter.path
    ∧ (lm_adapter_set_discovery_state id adapter discovery_state).1.device_cache
        = adapter.device_cache
    ∧ (lm_adapter_set_discovery_state id adapter discovery_state).1.discovery_filter
        = adapter.discovery_filter := by
  unfold lm_adapter_set_discovery_state
  by_cases h : adapter.discovery_state = discovery_state
  · simp [h]
  · simp only [h, if_false]
    cases discovery_state <;> simp
    · split <;> simp
    · split
      · split <;> simp
      · simp

theorem lm_adapter_stop_discovery_frame (adapter : lm_adapter) :
    (lm_adapter_stop_discovery adapter).2.1.path = adapter.path
    ∧ (lm_adapter_stop_discovery adapter).2.1.device_cache = adapter.device_cache
    ∧ (lm_adapter_stop_discovery adapter).2.1.discovery_filter = adapter.discovery_filter := by
  unfold lm_adapter_stop_discovery
  split
  · simp
  · split
    · simp
    · exact lm_adapter_set_discovery_state_frame 0 adapter _

theorem deliver_discovery_result_frame (adapter : lm_adapter) (device : lm_device) :
    (deliver_discovery_result adapter device).1.path = adapter.path
    ∧ (deliver_discovery_result adapter device).1.device_cache = adapter.device_cache := by
  unfold deliver_discovery_result
  by_cases hc : lm_device_get_connection_state device = .LM_DEVICE_DISCONNECTED
  · rw [if_pos hc]
    by_cases hm : (!matches_discovery_filter adapter device) = true
    · rw [if_pos hm]
      exact ⟨rfl, rfl⟩
    · rw [if_neg hm]
      dsimp only
      cases adapter.discovery_filter with
      | none => exact ⟨rfl, rfl⟩
      | some f =>
        dsimp only
        by_cases hmax : f.max_devices ≠ 0
        · rw [if_pos hmax]
          by_cases hge : (adapter.discovery_devices_found + 1) % 2 ^ 32 ≥ f.max_devices
          · rw [if_pos hge]
            exact ⟨(lm_adapter_stop_discovery_frame _).1, (lm_adapter_stop_discovery_frame _).2.1⟩
          · rw [if_neg hge]
            exact ⟨rfl, rfl⟩
        · rw [if_neg hmax]
          exact ⟨rfl, rfl⟩
  · rw [if_neg hc]
    exact ⟨rfl, rfl⟩

theorem lm_adapter_on_interface_appeared_entry_keys (U : lm_uuids) (object : String)
    (adapter : lm_adapter) (i : lm_interface_added)
    (hp : g_str_has_prefix object adapter.path = true) :
    (lm_adapter_on_interface_appeared_entry U object adapter i).1.path = adapter.path
    ∧ g_hash_table_get_keys (lm_adapter_on_interface_appeared_entry U object adapter i).1.device_cache
      = if i.is_device = true ∧ object ∉ g_hash_table_get_keys adapter.device_cache then
          g_hash_table_get_keys adapter.device_cache ++ [object]
        else g_hash_table_get_keys adapter.device_cache := by
  cases i with
  | INTERFACE_DEVICE properties =>
    simp only [lm_adapter_on_interface_appeared_entry, hp, Bool.not_true, Bool.false_eq_true,
      if_false, lm_interface_added.is_device, true_and]
    by_cases hc : g_hash_table_contains adapter.device_cache object = true
    · have hk := (g_hash_table_contains_iff _ _).mp hc
      simp [hc, hk]
    · have hk : object ∉ g_hash_table_get_keys adapter.device_cache :=
        fun h => hc ((g_hash_table_contains_iff _ _).mpr h)
      rw [if_neg hc, if_pos hk]
      have hpath : lm_device_get_path
          (lm_device_update_properties (lm_device_create_with_path adapter.path object)
            properties).1 = object := by
        unfold lm_device_get_path
        rw [lm_device_update_properties_path]
        rfl
      rw [hpath]
      have hins : g_hash_table_get_keys (g_hash_table_insert adapter.device_cache object
          (lm_device_update_properties (lm_device_create_with_path adapter.path object)
            properties).1) = g_hash_table_get_keys adapter.device_cache ++ [object] := by
        rw [g_hash_table_keys_insert, if_neg hk]
      split
      · rw [(deliver_discovery_result_frame _ _).1, (deliver_discovery_result_frame _ _).2]
        exact ⟨rfl, hins⟩
      · exact ⟨rfl, hins⟩
  | INTERFACE_MEDIA_TRANSPORT properties =>
    simp only [lm_adapter_on_interface_appeared_entry, hp, Bool.not_true, Bool.false_eq_true,
      if_false, lm_interface_added.is_device, false_and]
    split
    · exact ⟨rfl, rfl⟩
    · split <;> exact ⟨rfl, rfl⟩
  | INTERFACE_MEDIA_PLAYER properties =>
    simp [lm_adapter_on_interface_appeared_entry, lm_interface_added.is_device]
  | other name =>
    simp [lm_adapter_on_interface_appeared_entry, lm_interface_added.is_device]

theorem lm_adapter_on_interface_appeared_keys (U : lm_uuids) (object : String)
    (adapter : lm_adapter) (interfaces : List lm_interface_added)
    (hp : g_str_has_prefix object adapter.path = true) :
    (lm_adapter_on_interface_appeared U adapter object interfaces).1.path = adapter.path
    ∧ g_hash_table_get_keys (lm_adapter_on_interface_appeared U adapter object interfaces).1.device_cache
      = if interfaces.any lm_interface_added.is_device = true
            ∧ object ∉ g_hash_table_get_keys adapter.device_cache then
          g_hash_table_get_keys adapter.device_cache ++ [object]
        else g_hash_table_get_keys adapter.device_cache := by
  induction interfaces generalizing adapter with
  | nil => simp [lm_adapter_on_interface_appeared]
  | cons i is ih =>
    simp only [lm_adapter_on_interface_appeared]
    have he := lm_adapter_on_interface_appeared_entry_keys U object adapter i hp
    have hp' : g_str_has_prefix object
        (lm_adapter_on_interface_appeared_entry U object adapter i).1.path = true := by
      rw [he.1]; exact hp
    have h := ih (lm_adapter_on_interface_appeared_entry U object adapter i).1 hp'
    rw [h.1, h.2, he.1, he.2]
    refine ⟨rfl, ?_⟩
    by_cases hk : object ∈ g_hash_table_get_keys adapter.device_cache
    · simp [hk]
    · by_cases hi : i.is_device = true
      · simp [hk, hi]
      · simp [hk, hi]

theorem lm_adapter_on_interface_disappeared_entry_keys (object : String)
    (adapter : lm_adapter) (i : lm_interface_removed) :
    (lm_adapter_on_interface_disappeared_entry object adapter i).1.path = adapter.path
    ∧ g_hash_table_get_keys (lm_adapter_on_interface_disappeared_entry object adapter i).1.device_cache
      = if i.is_device = true then
          (g_hash_table_get_keys adapter.device_cache).filter (fun k => !(k == object))
        else g_hash_table_get_keys adapter.device_cache := by
  cases i with
  | INTERFACE_DEVICE =>
    simp only [lm_adapter_on_interface_disappeared_entry, lm_interface_removed.is_device, if_true]
    cases hl : g_hash_table_lookup adapter.device_cache object with
    | none =>
      have hk := (g_hash_table_lookup_eq_none _ _).mp hl
      refine ⟨rfl, ?_⟩
      symm
      rw [List.filter_eq_self]
      intro k hkm
      have : k ≠ object := fun e => hk (e ▸ hkm)
      simpa using this
    | some device =>
      exact ⟨rfl, g_hash_table_keys_remove _ _⟩
  | INTERFACE_MEDIA_TRANSPORT =>
    simp only [lm_adapter_on_interface_disappeared_entry, lm_interface_removed.is_device]
    split
    · exact ⟨rfl, by simp⟩
    · split
      · split <;> exact ⟨rfl, by simp⟩
      · exact ⟨rfl, by simp⟩
  | INTERFACE_MEDIA_PLAYER =>
    simp [lm_adapter_on_interface_disappeared_entry, lm_interface_removed.is_device]
  | other name =>
    simp [lm_adapter_on_interface_disappeared_entry, lm_interface_removed.is_device]

theorem lm_adapter_on_interface_disappeared_keys (object : String)
    (adapter : lm_adapter) (interfaces : List lm_interface_removed) :
    (lm_adapter_on_interface_disappeared adapter object interfaces).1.path = adapter.path
    ∧ g_hash_table_get_keys (lm_adapter_on_interface_disappeared adapter object interfaces).1.device_cache
      = if interfaces.any lm_interface_removed.is_device = true then
          (g_hash_table_get_keys adapter.device_cache).filter (fun k => !(k == object))
        else g_hash_table_get_keys adapter.device_cache := by
  induction interfaces generalizing adapter with
  | nil => simp [lm_adapter_on_interface_disappeared]
  | cons i is ih =>
    simp only [lm_adapter_on_interface_disappeared]
    have he := lm_adapter_on_interface_disappeared_entry_keys object adapter i
    have h := ih (lm_adapter_on_interface_disappeared_entry object adapter i).1
    rw [h.1, h.2, he.1, he.2]
    refine ⟨rfl, ?_⟩
    by_cases hi : i.is_device = true
    · simp [hi, List.filter_filter]
    · simp [hi]

theorem lm_adapter_handle_signal_keys (U : lm_uuids) (adapter : lm_adapter)
    (s : lm_object_signal) (hd : s.carries_device = true)
    (hp : g_str_has_prefix s.object adapter.path = true) :
    (lm_adapter_handle_signal U adapter s).1.path = adapter.path
    ∧ g_hash_table_get_keys (lm_adapter_handle_signal U adapter s).1.device_cache
      = if s.is_added = true then
          (if s.object ∈ g_hash_table_get_keys adapter.device_cache then
            g_hash_table_get_keys adapter.device_cache
          else g_hash_table_get_keys adapter.device_cache ++ [s.object])
        else (g_hash_table_get_keys adapter.device_cache).filter (fun k => !(k == s.object)) := by
  cases s with
  | InterfacesAdded object interfaces =>
    simp only [lm_object_signal.carries_device, lm_object_signal.object] at hd hp
    have h := lm_adapter_on_interface_appeared_keys U object adapter interfaces hp
    simp only [lm_adapter_handle_signal, lm_object_signal.is_added, lm_object_signal.object,
      if_true]
    refine ⟨h.1, ?_⟩
    rw [h.2]
    by_cases hk : object ∈ g_hash_table_get_keys adapter.device_cache
    · simp [hk]
    · simp [hk, hd]
  | InterfacesRemoved object interfaces =>
    simp only [lm_object_signal.carries_device, lm_object_signal.object] at hd hp
    have h := lm_adapter_on_interface_disappeared_keys object adapter interfaces
    simp only [lm_adapter_handle_signal, lm_object_signal.is_added, lm_object_signal.object]
    refine ⟨h.1, ?_⟩
    rw [h.2]
    simp [hd]

theorem most_recent_signal_cons (path : String) (s : lm_object_signal)
    (ss : List lm_object_signal) :
    most_recent_signal path (s :: ss)
      = match most_recent_signal path ss with
        | some b => some b
        | none => if s.object = path then some s.is_added else none := by
  unfold most_recent_signal
  rw [List.reverse_cons, List.find?_append]
  cases h : List.find? (fun s => s.object == path) ss.reverse with
  | some x => simp
  | none =>
    by_cases hs : s.object = path
    · simp [hs]
    · simp [hs]

/-- C1: let an adapter (whose device map has each key once) handle any sequence
of object-appeared and object-disappeared signals that carry the device interface
for paths prefixed by the adapter's path.  Afterwards a path is a key of the
device map exactly when the most recent signal about it was object-appeared, a
path without a signal is a key exactly when it was one before, and no key occurs
twice. -/
theorem C1_device_map_tracks_signals (U : lm_uuids) (adapter : lm_adapter)
    (signals : List lm_object_signal) (path : String)
    (hsig : ∀ s ∈ signals, s.carries_device = true
      ∧ g_str_has_prefix s.object adapter.path = true)
    (hnodup : (g_hash_table_get_keys adapter.device_cache).Nodup) :
    (path ∈ g_hash_table_get_keys (lm_adapter_handle_signals U adapter signals).1.device_cache
      ↔ match most_recent_signal path signals with
        | some appeared => appeared = true
        | none => path ∈ g_hash_table_get_keys adapter.device_cache)
    ∧ (g_hash_table_get_keys (lm_adapter_handle_signals U adapter signals).1.device_cache).Nodup := by
  induction signals generalizing adapter with
  | nil => exact ⟨by simp [lm_adapter_handle_signals, most_recent_signal], hnodup⟩
  | cons s ss ih =>
    have hs := hsig s (List.mem_cons_self s ss)
    have h1 := lm_adapter_handle_signal_keys U adapter s hs.1 hs.2
    have hsig' : ∀ t ∈ ss, t.carries_device = true
        ∧ g_str_has_prefix t.object (lm_adapter_handle_signal U adapter s).1.path = true := by
      intro t ht
      rw [h1.1]
      exact hsig t (List.mem_cons_of_mem s ht)
    have hnodup' : (g_hash_table_get_keys
        (lm_adapter_handle_signal U adapter s).1.device_cache).Nodup := by
      rw [h1.2]
      split
      · split
        · exact hnodup
        · rename_i hk
          exact List.Nodup.append hnodup (List.nodup_singleton _) (by simpa using hk)
      · exact hnodup.filter _
    have h := ih (lm_adapter_handle_signal U adapter s).1 hsig' hnodup'
    simp only [lm_adapter_handle_signals]
    refine ⟨?_, h.2⟩
    rw [h.1, most_recent_signal_cons]
    cases most_recent_signal path ss with
    | some b => simp
    | none =>
      simp only
      rw [h1.2]
      by_cases ho : s.object = path
      · subst ho
        cases hadd : s.is_added with
        | true =>
          by_cases hk : s.object ∈ g_hash_table_get_keys adapter.device_cache
          · simp [hk]
          · simp [hk]
        | false => simp
      · have ho' : path ≠ s.object := fun e => ho e.symm
        cases hadd : s.is_added with
        | true =>
          by_cases hk : s.object ∈ g_hash_table_get_keys adapter.device_cache
          · simp [hk, ho]
          · simp [hk, ho, ho']
        | false => simp [ho, ho', List.mem_filter]

/-- C1 at a sequence of six signals about the devices `/a/d` and `/a/e`. -/
theorem C1_device_map_tracks_signals_witness :
    "/a/d" ∈ g_hash_table_get_keys
      (lm_adapter_handle_signals sig_uuids example_adapter example_signals).1.device_cache
    ∧ "/a/e" ∉ g_hash_table_get_keys
      (lm_adapter_handle_signals sig_uuids example_adapter example_signals).1.device_cache
    ∧ (g_hash_table_get_keys
      (lm_adapter_handle_signals sig_uuids example_adapter example_signals).1.device_cache).Nodup :=
  ⟨(C1_device_map_tracks_signals sig_uuids example_adapter example_signals "/a/d"
      (by decide) (by decide)).1.mpr
        (by rw [show most_recent_signal "/a/d" example_signals = some true from by decide]),
   fun h => absurd ((C1_device_map_tracks_signals sig_uuids example_adapter example_signals "/a/e"
      (by decide) (by decide)).1.mp h)
        (by rw [show most_recent_signal "/a/e" example_signals = some false from by decide]
            decide),
   (C1_device_map_tracks_signals sig_uuids example_adapter example_signals "/a/d"
      (by decide) (by decide)).2⟩

/-! ## The active player after player objects appear -/

theorem lm_player_update_property_frame (active_player : Option String) (player : lm_player)
    (p : lm_player_property) :
    (lm_player_update_property active_player player p).1.path = player.path
    ∧ (lm_player_update_property active_player player p).1.profile = player.profile := by
  cases p <;> exact ⟨rfl, rfl⟩

theorem lm_player_update_properties_frame (active_player : Option String) (player : lm_player)
    (ps : List lm_player_property) :
    (lm_player_update_properties active_player player ps).1.path = player.path
    ∧ (lm_player_update_properties active_player player ps).1.profile = player.profile := by
  induction ps generalizing player with
  | nil => exact ⟨rfl, rfl⟩
  | cons p ps ih =>
    simp only [lm_player_update_properties]
    have h := ih (lm_player_update_property active_player player p).1
    have h' := lm_player_update_property_frame active_player player p
    exact ⟨h.1.trans h'.1, h.2.trans h'.2⟩

theorem lm_device_find_player_keys_aux (l : GHashTable lm_player) (profile : lm_player_profile_t)
    (h : ∀ e ∈ l, e.2.path = e.1 ∧ e.2.profile = lm_player_path_to_profile (some e.1)) :
    ((g_hash_table_get_values l).find? (fun p => lm_player_get_profile p == profile)).map
        lm_player_get_path
      = (g_hash_table_get_keys l).find?
        (fun k => lm_player_path_to_profile (some k) == profile) := by
  induction l with
  | nil => rfl
  | cons e l ih =>
    have he := h e (List.mem_cons_self e l)
    have ih' := ih (fun x hx => h x (List.mem_cons_of_mem e hx))
    simp only [g_hash_table_get_values, g_hash_table_get_keys, List.map_cons, List.find?,
      lm_player_get_profile] at ih' ⊢
    rw [he.2]
    cases hb : (lm_player_path_to_profile (some e.1) == profile) with
    | true => simp [lm_player_get_path, he.1]
    | false => simpa using ih'

theorem lm_device_find_player_keys (device : lm_device) (profile : lm_player_profile_t)
    (h : lm_device_players_wf device) :
    lm_device_find_player device profile
      = (g_hash_table_get_keys device.players).find?
        (fun k => lm_player_path_to_profile (some k) == profile) :=
  lm_device_find_player_keys_aux device.players profile h.2

theorem lm_device_update_active_player_frame (device : lm_device) :
    (lm_device_update_active_player device).1.players = device.players
    ∧ (lm_device_update_active_player device).1.path = device.path
    ∧ (lm_device_update_active_player device).1.active_player
        = lm_device_player_winner device := by
  rw [lm_device_update_active_player_eq]
  split
  · rename_i h
    exact ⟨rfl, rfl, h⟩
  · exact ⟨rfl, rfl, rfl⟩

theorem lm_device_update_active_transport_frame (device : lm_device) :
    (lm_device_update_active_transport device).1.players = device.players
    ∧ (lm_device_update_active_transport device).1.path = device.path
    ∧ (lm_device_update_active_transport device).1.active_player = device.active_player
    ∧ (lm_device_update_active_transport device).1.transports = device.transports := by
  rw [lm_device_update_active_transport_eq]
  split <;> exact ⟨rfl, rfl, rfl, rfl⟩

theorem lm_device_player_winner_congr (d₁ d₂ : lm_device) (h : d₁.players = d₂.players) :
    lm_device_player_winner d₁ = lm_device_player_winner d₂ := by
  unfold lm_device_player_winner lm_device_find_player
  rw [h]

theorem g_hash_table_store_fresh {V : Type} (t : GHashTable V) (key : String) (w : V)
    (h : key ∉ g_hash_table_get_keys t) : g_hash_table_store t key w = t := by
  unfold g_hash_table_store
  have hmap : List.map (fun e : String × V => if (e.1 == key) = true then (e.1, w) else e) t
      = List.map (fun e => e) t := by
    apply List.map_congr_left
    intro e he
    have hne : e.1 ≠ key := by
      intro heq
      apply h
      rw [← heq]
      exact List.mem_map_of_mem (fun e : String × V => e.1) he
    simp [hne]
  rw [hmap, List.map_id']

theorem g_hash_table_store_append_fresh {V : Type} (t : GHashTable V) (key : String) (v w : V)
    (h : key ∉ g_hash_table_get_keys t) :
    g_hash_table_store (t ++ [(key, v)]) key w = t ++ [(key, w)] := by
  have h1 := g_hash_table_store_fresh t key w h
  unfold g_hash_table_store at h1 ⊢
  rw [List.map_append, h1]
  simp

theorem g_hash_table_mem_store {V : Type} (t : GHashTable V) (key : String) (w : V)
    (e : String × V) (he : e ∈ g_hash_table_store t key w) :
    e ∈ t ∨ (e = (key, w) ∧ key ∈ g_hash_table_get_keys t) := by
  unfold g_hash_table_store at he
  rw [List.mem_map] at he
  obtain ⟨x, hx, rfl⟩ := he
  by_cases hk : x.1 = key
  · right
    refine ⟨by simp [hk], ?_⟩
    rw [← hk]
    exact List.mem_map_of_mem (fun e : String × V => e.1) hx
  · left
    simpa [hk] using hx

theorem g_hash_table_keys_append_singleton {V : Type} (t : GHashTable V) (key : String)
    (v : V) : g_hash_table_get_keys (t ++ [(key, v)]) = g_hash_table_get_keys t ++ [key] := by
  simp [g_hash_table_get_keys]

theorem lm_device_players_wf_of_update (d₁ d₂ : lm_device)
    (hwf : lm_device_players_wf d₂)
    (hplayers : (lm_device_update_active_player d₂).1 = d₁) :
    lm_device_players_wf d₁ ∧ d₁.path = d₂.path
    ∧ g_hash_table_get_keys d₁.players = g_hash_table_get_keys d₂.players
    ∧ d₁.active_player = lm_device_player_winner d₁ := by
  subst hplayers
  have h := lm_device_update_active_player_frame d₂
  refine ⟨?_, h.2.1, by rw [h.1], ?_⟩
  · unfold lm_device_players_wf
    rw [h.1]
    exact hwf
  · rw [h.2.2]
    exact (lm_device_player_winner_congr _ _ h.1).symm

theorem lm_device_on_interface_appeared_entry_player (U : lm_uuids) (id : Nat)
    (object : String) (device : lm_device) (properties : List lm_player_property)
    (hp : g_str_has_prefix object device.path = true) (hwf : lm_device_players_wf device) :
    lm_device_players_wf
      (lm_device_on_interface_appeared_entry U id object device
        (.INTERFACE_MEDIA_PLAYER properties)).1
    ∧ (lm_device_on_interface_appeared_entry U id object device
        (.INTERFACE_MEDIA_PLAYER properties)).1.path = device.path
    ∧ g_hash_table_get_keys (lm_device_on_interface_appeared_entry U id object device
        (.INTERFACE_MEDIA_PLAYER properties)).1.players
      = (if object ∈ g_hash_table_get_keys device.players then
          g_hash_table_get_keys device.players
        else g_hash_table_get_keys device.players ++ [object])
    ∧ (lm_device_on_interface_appeared_entry U id object device
        (.INTERFACE_MEDIA_PLAYER properties)).1.active_player
      = lm_device_player_winner (lm_device_on_interface_appeared_entry U id object device
        (.INTERFACE_MEDIA_PLAYER properties)).1 := by
  cases hl : g_hash_table_lookup device.players object with
  | none =>
    have hk : object ∉ g_hash_table_get_keys device.players :=
      (g_hash_table_lookup_eq_none _ _).mp hl
    have hc : ¬ g_hash_table_contains device.players object = true :=
      fun h => hk ((g_hash_table_contains_iff _ _).mp h)
    have hr := lm_player_update_properties_frame device.active_player
      (lm_player_create device.path object) properties
    have hwf2 : lm_device_players_wf { device with players := (device.players ++
        [(object, (lm_player_update_properties device.active_player
          (lm_player_create device.path object) properties).1)]) } := by
      constructor
      · show (g_hash_table_get_keys (device.players ++ _)).Nodup
        rw [g_hash_table_keys_append_singleton]
        exact List.Nodup.append hwf.1 (List.nodup_singleton _) (by simpa using hk)
      · intro e he
        rcases List.mem_append.mp he with he | he
        · exact hwf.2 e he
        · simp only [List.mem_singleton] at he
          subst he
          exact ⟨hr.1, hr.2⟩
    have key := lm_device_players_wf_of_update
      (lm_device_on_interface_appeared_entry U id object device
        (.INTERFACE_MEDIA_PLAYER properties)).1 _ hwf2
      (by
        simp only [lm_device_on_interface_appeared_entry, hp, hl, Bool.not_true,
          Bool.false_eq_true, if_false, Option.isNone_none, if_true, Option.getD_none,
          g_hash_table_insert, hc, g_hash_table_store_append_fresh _ _ _ _ hk])
    refine ⟨key.1, key.2.1, ?_, key.2.2.2⟩
    rw [key.2.2.1, if_neg hk]
    exact g_hash_table_keys_append_singleton _ _ _
  | some p =>
    have hmem := g_hash_table_lookup_mem _ _ _ hl
    have hpwf := hwf.2 _ hmem
    have hk : object ∈ g_hash_table_get_keys device.players :=
      List.mem_map_of_mem (fun e : String × lm_player => e.1) hmem
    have hr := lm_player_update_properties_frame device.active_player p properties
    have hwf2 : lm_device_players_wf { device with players := (g_hash_table_store
        device.players object
        (lm_player_update_properties device.active_player p properties).1) } := by
      constructor
      · show (g_hash_table_get_keys (g_hash_table_store device.players object _)).Nodup
        rw [g_hash_table_keys_store]
        exact hwf.1
      · intro e he
        rcases g_hash_table_mem_store _ _ _ _ he with he | ⟨he, _⟩
        · exact hwf.2 e he
        · subst he
          exact ⟨hr.1.trans hpwf.1, hr.2.trans hpwf.2⟩
    have key := lm_device_players_wf_of_update
      (lm_device_on_interface_appeared_entry U id object device
        (.INTERFACE_MEDIA_PLAYER properties)).1 _ hwf2
      (by
        simp only [lm_device_on_interface_appeared_entry, hp, hl, Bool.not_true,
          Bool.false_eq_true, if_false, Option.isNone_some, Option.getD_some])
    refine ⟨key.1, key.2.1, ?_, key.2.2.2⟩
    rw [key.2.2.1, if_pos hk]
    exact g_hash_table_keys_store _ _ _

theorem lm_device_on_interface_appeared_entry_other (U : lm_uuids) (id : Nat)
    (object : String) (device : lm_device) (i : lm_interface_added)
    (h : i.is_media_player = false) :
    (lm_device_on_interface_appeared_entry U id object device i).1.players = device.players
    ∧ (lm_device_on_interface_appeared_entry U id object device i).1.path = device.path
    ∧ (lm_device_on_interface_appeared_entry U id object device i).1.active_player
        = device.active_player := by
  cases i with
  | INTERFACE_MEDIA_PLAYER properties => simp [lm_interface_added.is_media_player] at h
  | INTERFACE_DEVICE properties => exact ⟨rfl, rfl, rfl⟩
  | other name => exact ⟨rfl, rfl, rfl⟩
  | INTERFACE_MEDIA_TRANSPORT properties =>
    simp only [lm_device_on_interface_appeared_entry]
    split
    · exact ⟨rfl, rfl, rfl⟩
    · cases hl : g_hash_table_lookup device.transports object with
      | none =>
        simp only [Option.isNone_none, if_true, Option.getD_none]
        split
        · have hf := lm_device_update_active_transport_frame
            { device with transports := (g_hash_table_store
              (g_hash_table_insert device.transports object
                (lm_transport_create (some device.path) object)) object
              (lm_transport_update_properties U device.active_transport
                (lm_transport_create (some device.path) object) properties).1) }
          exact ⟨hf.1, hf.2.1, hf.2.2.1⟩
        · have hf := lm_device_update_active_transport_frame
            { device with transports := (g_hash_table_store
              (g_hash_table_insert device.transports object
                (lm_transport_create (some device.path) object)) object
              (lm_transport_update_properties U device.active_transport
                (lm_transport_create (some device.path) object) properties).1) }
          exact ⟨hf.1, hf.2.1, hf.2.2.1⟩
      | some t =>
        simp only [Option.isNone_some, Bool.false_eq_true, if_false, Option.getD_some]
        split
        · have hf := lm_device_update_active_transport_frame
            { device with transports := (g_hash_table_store device.transports object
              (lm_transport_update_properties U device.active_transport t properties).1) }
          exact ⟨hf.1, hf.2.1, hf.2.2.1⟩
        · have hf := lm_device_update_active_transport_frame
            { device with transports := (g_hash_table_store device.transports object
              (lm_transport_update_properties U device.active_transport t properties).1) }
          exact ⟨hf.1, hf.2.1, hf.2.2.1⟩

theorem lm_device_players_wf_congr (d₁ d₂ : lm_device) (h : d₁.players = d₂.players)
    (hwf : lm_device_players_wf d₂) : lm_device_players_wf d₁ := by
  unfold lm_device_players_wf at hwf ⊢
  rw [h]
  exact hwf

/-- What the device's `on_interface_appeared` does to the player map for a signal
about `object` (a path under the device): with a media player interface in the
signal the key `object` is added if it was missing and the active player becomes
the priority winner; without one the player map and the active player stay. -/
theorem lm_device_on_interface_appeared_players (U : lm_uuids) (id : Nat) (object : String)
    (device : lm_device) (interfaces : List lm_interface_added)
    (hp : g_str_has_prefix object device.path = true) (hwf : lm_device_players_wf device) :
    lm_device_players_wf (lm_device_on_interface_appeared U id device object interfaces).1
    ∧ (lm_device_on_interface_appeared U id device object interfaces).1.path = device.path
    ∧ (if interfaces.any lm_interface_added.is_media_player = true then
        g_hash_table_get_keys (lm_device_on_interface_appeared U id device object interfaces).1.players
          = (if object ∈ g_hash_table_get_keys device.players then
              g_hash_table_get_keys device.players
            else g_hash_table_get_keys device.players ++ [object])
        ∧ (lm_device_on_interface_appeared U id device object interfaces).1.active_player
          = lm_device_player_winner
              (lm_device_on_interface_appeared U id device object interfaces).1
      else
        (lm_device_on_interface_appeared U id device object interfaces).1.players = device.players
        ∧ (lm_device_on_interface_appeared U id device object interfaces).1.active_player
          = device.active_player) := by
  induction interfaces generalizing device with
  | nil => exact ⟨hwf, rfl, by simp [lm_device_on_interface_appeared]⟩
  | cons i is ih =>
    simp only [lm_device_on_interface_appeared]
    cases hi : i.is_media_player with
    | false =>
      have he := lm_device_on_interface_appeared_entry_other U id object device i hi
      have hp' : g_str_has_prefix object
          (lm_device_on_interface_appeared_entry U id object device i).1.path = true := by
        rw [he.2.1]; exact hp
      have h := ih (lm_device_on_interface_appeared_entry U id object device i).1 hp'
        (lm_device_players_wf_congr _ _ he.1 hwf)
      refine ⟨h.1, h.2.1.trans he.2.1, ?_⟩
      have h3 := h.2.2
      rw [he.1, he.2.2] at h3
      simpa [List.any_cons, hi] using h3
    | true =>
      cases i with
      | INTERFACE_MEDIA_PLAYER properties =>
        have he := lm_device_on_interface_appeared_entry_player U id object device properties
          hp hwf
        have hp' : g_str_has_prefix object
            (lm_device_on_interface_appeared_entry U id object device
              (.INTERFACE_MEDIA_PLAYER properties)).1.path = true := by
          rw [he.2.1]; exact hp
        have h := ih (lm_device_on_interface_appeared_entry U id object device
          (.INTERFACE_MEDIA_PLAYER properties)).1 hp' he.1
        refine ⟨h.1, h.2.1.trans he.2.1, ?_⟩
        have h3 := h.2.2
        simp only [List.any_cons, lm_interface_added.is_media_player, Bool.true_or, if_true]
        cases hany : is.any lm_interface_added.is_media_player with
        | true =>
          rw [hany] at h3
          simp only [if_true] at h3
          refine ⟨?_, h3.2⟩
          rw [h3.1, he.2.2.1]
          by_cases hk : object ∈ g_hash_table_get_keys device.players
          · simp [hk]
          · simp [hk]
        | false =>
          rw [hany] at h3
          simp only [Bool.false_eq_true, if_false] at h3
          refine ⟨?_, ?_⟩
          · rw [h3.1, he.2.2.1]
          · rw [h3.2, he.2.2.2]
            exact lm_device_player_winner_congr _ _ h3.1.symm
      | INTERFACE_DEVICE properties => simp [lm_interface_added.is_media_player] at hi
      | INTERFACE_MEDIA_TRANSPORT properties => simp [lm_interface_added.is_media_player] at hi
      | other name => simp [lm_interface_added.is_media_player] at hi

/-- C2: a device with an empty player map handles an object-appeared signal for
an mcp player and one for an avrcp player (each signal lists the media player
interface for a path under the device, the path of the mcp player being one
that `lm_player_path_to_profile` maps to mcp, the other to avrcp).  In either
order of arrival `lm_device_get_active_player` then returns the avrcp player. -/
theorem C2_avrcp_player_is_active (U : lm_uuids) (id₁ id₂ : Nat) (device : lm_device)
    (mcp avrcp : String) (interfaces_mcp interfaces_avrcp : List lm_interface_added)
    (hempty : device.players = [])
    (hm_path : g_str_has_prefix mcp device.path = true)
    (ha_path : g_str_has_prefix avrcp device.path = true)
    (hm_sig : interfaces_mcp.any lm_interface_added.is_media_player = true)
    (ha_sig : interfaces_avrcp.any lm_interface_added.is_media_player = true)
    (hm : lm_player_path_to_profile (some mcp) = .LM_PLAYER_PROFILE_MCP)
    (ha : lm_player_path_to_profile (some avrcp) = .LM_PLAYER_PROFILE_AVRCP) :
    lm_device_get_active_player
        (lm_device_on_interface_appeared U id₂
          (lm_device_on_interface_appeared U id₁ device mcp interfaces_mcp).1
          avrcp interfaces_avrcp).1 = some avrcp
    ∧ lm_device_get_active_player
        (lm_device_on_interface_appeared U id₂
          (lm_device_on_interface_appeared U id₁ device avrcp interfaces_avrcp).1
          mcp interfaces_mcp).1 = some avrcp := by
  have hwf : lm_device_players_wf device := by
    unfold lm_device_players_wf
    rw [hempty]
    exact ⟨List.nodup_nil, fun e he => absurd he (List.not_mem_nil e)⟩
  have hkeys : g_hash_table_get_keys device.players = [] := by rw [hempty]; rfl
  have hne : avrcp ≠ mcp := by
    intro e
    rw [e, hm] at ha
    exact absurd ha (by decide)
  have hma : (lm_player_path_to_profile (some mcp) == lm_player_profile_t.LM_PLAYER_PROFILE_AVRCP)
      = false := by rw [hm]; rfl
  have haa : (lm_player_path_to_profile (some avrcp) == lm_player_profile_t.LM_PLAYER_PROFILE_AVRCP)
      = true := by rw [ha]; rfl
  constructor
  · have h1 := lm_device_on_interface_appeared_players U id₁ mcp device interfaces_mcp
      hm_path hwf
    rw [hm_sig, if_pos rfl, hkeys] at h1
    have hp2 : g_str_has_prefix avrcp
        (lm_device_on_interface_appeared U id₁ device mcp interfaces_mcp).1.path = true := by
      rw [h1.2.1]; exact ha_path
    have h2 := lm_device_on_interface_appeared_players U id₂ avrcp _ interfaces_avrcp hp2 h1.1
    rw [ha_sig, if_pos rfl, h1.2.2.1] at h2
    unfold lm_device_get_active_player
    rw [h2.2.2.2]
    unfold lm_device_player_winner
    rw [lm_device_find_player_keys _ _ h2.1, h2.2.2.1]
    simp [hne, List.find?, hma, haa]
  · have h1 := lm_device_on_interface_appeared_players U id₁ avrcp device interfaces_avrcp
      ha_path hwf
    rw [ha_sig, if_pos rfl, hkeys] at h1
    have hp2 : g_str_has_prefix mcp
        (lm_device_on_interface_appeared U id₁ device avrcp interfaces_avrcp).1.path = true := by
      rw [h1.2.1]; exact hm_path
    have h2 := lm_device_on_interface_appeared_players U id₂ mcp _ interfaces_mcp hp2 h1.1
    rw [hm_sig, if_pos rfl, h1.2.2.1] at h2
    unfold lm_device_get_active_player
    rw [h2.2.2.2]
    unfold lm_device_player_winner
    rw [lm_device_find_player_keys _ _ h2.1, h2.2.2.1]
    simp [Ne.symm hne, List.find?, haa]

/-- C2 at the players `/a/d/mcp/player0` and `/a/d/avrcp/player0` of device `/a/d`. -/
theorem C2_avrcp_player_is_active_witness :
    lm_device_get_active_player
        (lm_device_on_interface_appeared sig_uuids 2
          (lm_device_on_interface_appeared sig_uuids 1 example_device "/a/d/mcp/player0"
            [.INTERFACE_MEDIA_PLAYER [.MEDIA_PLAYER_PROPERTY_STATUS "playing"]]).1
          "/a/d/avrcp/player0" [.other "org.freedesktop.DBus.Properties",
            .INTERFACE_MEDIA_PLAYER []]).1 = some "/a/d/avrcp/player0"
    ∧ lm_device_get_active_player
        (lm_device_on_interface_appeared sig_uuids 2
          (lm_device_on_interface_appeared sig_uuids 1 example_device "/a/d/avrcp/player0"
            [.other "org.freedesktop.DBus.Properties", .INTERFACE_MEDIA_PLAYER []]).1
          "/a/d/mcp/player0"
          [.INTERFACE_MEDIA_PLAYER [.MEDIA_PLAYER_PROPERTY_STATUS "playing"]]).1
        = some "/a/d/avrcp/player0" :=
  C2_avrcp_player_is_active sig_uuids 1 2 example_device "/a/d/mcp/player0" "/a/d/avrcp/player0"
    [.INTERFACE_MEDIA_PLAYER [.MEDIA_PLAYER_PROPERTY_STATUS "playing"]]
    [.other "org.freedesktop.DBus.Properties", .INTERFACE_MEDIA_PLAYER []]
    rfl (by decide) (by decide) (by decide) (by decide) (by decide) (by decide)

/-! ## The discovery state machine -/

theorem lm_adapter_start_discovery_eq (adapter : lm_adapter) :
    (lm_adapter_start_discovery adapter).2
      = if adapter.discovery_state = .LM_ADAPTER_DISCOVERY_STOPPED then
          ({ adapter with discovery_state := .LM_ADAPTER_DISCOVERY_STARTING },
            [.event LM_ADAPTER_DISCOVERY_STATE_CHANGE_IND LM_STATUS_SUCCESS (.adapter adapter.path),
             .dbus_call adapter.path .ADAPTER_METHOD_START_DISCOVERY])
        else (adapter, []) := by
  unfold lm_adapter_start_discovery
  cases h : adapter.discovery_state <;> simp [lm_adapter_set_discovery_state, h]

theorem lm_adapter_stop_discovery_eq (adapter : lm_adapter) :
    (lm_adapter_stop_discovery adapter).2
      = if adapter.discovery_state = .LM_ADAPTER_DISCOVERY_STARTED then
          ({ adapter with discovery_state := .LM_ADAPTER_DISCOVERY_STOPPING },
            [.event LM_ADAPTER_DISCOVERY_STATE_CHANGE_IND LM_STATUS_SUCCESS (.adapter adapter.path),
             .dbus_call adapter.path .ADAPTER_METHOD_STOP_DISCOVERY])
        else (adapter, []) := by
  unfold lm_adapter_stop_discovery
  cases h : adapter.discovery_state <;> simp [lm_adapter_set_discovery_state, h]

theorem lm_adapter_set_discovery_state_calls (id : Nat) (adapter : lm_adapter)
    (discovery_state : lm_adapter_discovery_state_t) (m : lm_dbus_method) :
    count_calls m (lm_adapter_set_discovery_state id adapter discovery_state).2 = 0 := by
  unfold lm_adapter_set_discovery_state
  by_cases h : adapter.discovery_state = discovery_state
  · simp [h, count_calls]
  · simp only [h, if_false]
    cases discovery_state <;> simp
    · split <;> simp [count_calls]
    · simp [count_calls]
    · split
      · split <;> simp [count_calls]
      · simp [count_calls]
    · simp [count_calls]

theorem lm_adapter_set_discovery_state_started (id : Nat) (adapter : lm_adapter) :
    (lm_adapter_set_discovery_state id adapter .LM_ADAPTER_DISCOVERY_STARTED).1.discovery_devices_found
      = adapter.discovery_devices_found := by
  unfold lm_adapter_set_discovery_state
  by_cases h : adapter.discovery_state = .LM_ADAPTER_DISCOVERY_STARTED
  · simp [h]
  · simp only [h, if_false]
    split
    · split <;> rfl
    · rfl

theorem count_calls_nil (m : lm_dbus_method) : count_calls m [] = 0 := rfl

theorem lm_adapter_run_start_discovery (adapter : lm_adapter) :
    (adapter.discovery_state = .LM_ADAPTER_DISCOVERY_STOPPED
      ∧ (lm_adapter_run_input adapter .start_discovery).1.discovery_state
          = .LM_ADAPTER_DISCOVERY_STARTING
      ∧ (lm_adapter_run_input adapter .start_discovery).1.discovery_timer_id
          = adapter.discovery_timer_id
      ∧ (lm_adapter_run_input adapter .start_discovery).1.discovery_devices_found
          = adapter.discovery_devices_found
      ∧ count_calls .ADAPTER_METHOD_START_DISCOVERY
          (lm_adapter_run_input adapter .start_discovery).2 = 1
      ∧ count_calls .ADAPTER_METHOD_STOP_DISCOVERY
          (lm_adapter_run_input adapter .start_discovery).2 = 0)
    ∨ (adapter.discovery_state ≠ .LM_ADAPTER_DISCOVERY_STOPPED
      ∧ lm_adapter_run_input adapter .start_discovery = (adapter, [])) := by
  simp only [lm_adapter_run_input]
  rw [lm_adapter_start_discovery_eq]
  by_cases h : adapter.discovery_state = .LM_ADAPTER_DISCOVERY_STOPPED
  · left
    rw [if_pos h]
    exact ⟨h, rfl, rfl, rfl, rfl, rfl⟩
  · right
    rw [if_neg h]
    exact ⟨h, rfl⟩

theorem lm_adapter_run_stop_discovery (adapter : lm_adapter) :
    (adapter.discovery_state = .LM_ADAPTER_DISCOVERY_STARTED
      ∧ (lm_adapter_run_input adapter .stop_discovery).1.discovery_state
          = .LM_ADAPTER_DISCOVERY_STOPPING
      ∧ count_calls .ADAPTER_METHOD_START_DISCOVERY
          (lm_adapter_run_input adapter .stop_discovery).2 = 0
      ∧ count_calls .ADAPTER_METHOD_STOP_DISCOVERY
          (lm_adapter_run_input adapter .stop_discovery).2 = 1)
    ∨ (adapter.discovery_state ≠ .LM_ADAPTER_DISCOVERY_STARTED
      ∧ lm_adapter_run_input adapter .stop_discovery = (adapter, [])) := by
  simp only [lm_adapter_run_input]
  rw [lm_adapter_stop_discovery_eq]
  by_cases h : adapter.discovery_state = .LM_ADAPTER_DISCOVERY_STARTED
  · left
    rw [if_pos h]
    exact ⟨h, rfl, rfl, rfl⟩
  · right
    rw [if_neg h]
    exact ⟨h, rfl⟩

theorem lm_adapter_run_filter (adapter : lm_adapter) (i : lm_input)
    (h : (∃ r s p m t, i = .set_discovery_filter r s p m t) ∨ i = .clear_discovery_filter) :
    (lm_adapter_run_input adapter i).1.discovery_state = adapter.discovery_state
    ∧ (lm_adapter_run_input adapter i).1.discovery_timer_id = adapter.discovery_timer_id
    ∧ (lm_adapter_run_input adapter i).1.discovery_devices_found
        = adapter.discovery_devices_found
    ∧ count_calls .ADAPTER_METHOD_START_DISCOVERY (lm_adapter_run_input adapter i).2 = 0
    ∧ count_calls .ADAPTER_METHOD_STOP_DISCOVERY (lm_adapter_run_input adapter i).2 = 0 := by
  rcases h with ⟨r, s, p, m, t, rfl⟩ | rfl
  · exact ⟨rfl, rfl, rfl, rfl, rfl⟩
  · exact ⟨rfl, rfl, rfl, rfl, rfl⟩

theorem lm_adapter_run_start_discovery_done (adapter : lm_adapter) (res : lm_dbus_result)
    (id : Nat) :
    count_calls .ADAPTER_METHOD_START_DISCOVERY
      (lm_adapter_run_input adapter (.start_discovery_done res id)).2 = 0
    ∧ count_calls .ADAPTER_METHOD_STOP_DISCOVERY
      (lm_adapter_run_input adapter (.start_discovery_done res id)).2 = 0
    ∧ (lm_adapter_run_input adapter (.start_discovery_done res id)).1.discovery_devices_found
        = adapter.discovery_devices_found
    ∧ (((lm_adapter_run_input adapter (.start_discovery_done res id)).1.discovery_state
          = .LM_ADAPTER_DISCOVERY_STOPPED
        ∧ (lm_adapter_run_input adapter (.start_discovery_done res id)).1.discovery_timer_id
          = adapter.discovery_timer_id)
      ∨ (lm_adapter_run_input adapter (.start_discovery_done res id)).1.discovery_state
          = .LM_ADAPTER_DISCOVERY_STARTED) := by
  simp only [lm_adapter_run_input, lm_adapter_start_discovery_cb]
  cases res with
  | success =>
    exact ⟨lm_adapter_set_discovery_state_calls _ _ _ _,
      lm_adapter_set_discovery_state_calls _ _ _ _,
      lm_adapter_set_discovery_state_started _ _,
      Or.inr (lm_adapter_set_discovery_state_state _ _ _)⟩
  | error code_str =>
    simp only
    split
    · exact ⟨lm_adapter_set_discovery_state_calls _ _ _ _,
        lm_adapter_set_discovery_state_calls _ _ _ _,
        lm_adapter_set_discovery_state_started _ _,
        Or.inr (lm_adapter_set_discovery_state_state _ _ _)⟩
    · exact ⟨rfl, rfl, rfl, Or.inl ⟨rfl, rfl⟩⟩

theorem lm_adapter_run_stop_discovery_done (adapter : lm_adapter) (res : lm_dbus_result)
    (h : adapter.discovery_state = .LM_ADAPTER_DISCOVERY_STOPPING) :
    count_calls .ADAPTER_METHOD_START_DISCOVERY
      (lm_adapter_run_input adapter (.stop_discovery_done res)).2 = 0
    ∧ count_calls .ADAPTER_METHOD_STOP_DISCOVERY
      (lm_adapter_run_input adapter (.stop_discovery_done res)).2 = 0
    ∧ (((lm_adapter_run_input adapter (.stop_discovery_done res)).1.discovery_state
          = .LM_ADAPTER_DISCOVERY_STOPPED
        ∧ (lm_adapter_run_input adapter (.stop_discovery_done res)).1.discovery_timer_id = 0
        ∧ (lm_adapter_run_input adapter (.stop_discovery_done res)).1.discovery_devices_found = 0)
      ∨ (lm_adapter_run_input adapter (.stop_discovery_done res)).1.discovery_state
          = .LM_ADAPTER_DISCOVERY_STARTED) := by
  have hne : adapter.discovery_state ≠ .LM_ADAPTER_DISCOVERY_STOPPED := by rw [h]; decide
  simp only [lm_adapter_run_input, lm_adapter_stop_discovery_cb]
  cases res with
  | success =>
    exact ⟨lm_adapter_set_discovery_state_calls _ _ _ _,
      lm_adapter_set_discovery_state_calls _ _ _ _,
      Or.inl ⟨lm_adapter_set_discovery_state_state _ _ _,
        lm_adapter_set_discovery_state_stopped _ _ hne⟩⟩
  | error code_str =>
    simp only
    split
    · exact ⟨lm_adapter_set_discovery_state_calls _ _ _ _,
        lm_adapter_set_discovery_state_calls _ _ _ _,
        Or.inl ⟨lm_adapter_set_discovery_state_state _ _ _,
          lm_adapter_set_discovery_state_stopped _ _ hne⟩⟩
    · exact ⟨rfl, rfl, Or.inr rfl⟩

theorem lm_adapter_run_discovery_timeout (adapter : lm_adapter) :
    (lm_adapter_run_input adapter .discovery_timeout).1.discovery_timer_id = 0
    ∧ (lm_adapter_run_input adapter .discovery_timeout).1.discovery_devices_found = 0
    ∧ count_calls .ADAPTER_METHOD_START_DISCOVERY
        (lm_adapter_run_input adapter .discovery_timeout).2 = 0
    ∧ ((adapter.discovery_state = .LM_ADAPTER_DISCOVERY_STARTED
        ∧ (lm_adapter_run_input adapter .discovery_timeout).1.discovery_state
            = .LM_ADAPTER_DISCOVERY_STOPPING
        ∧ count_calls .ADAPTER_METHOD_STOP_DISCOVERY
            (lm_adapter_run_input adapter .discovery_timeout).2 = 1)
      ∨ (adapter.discovery_state ≠ .LM_ADAPTER_DISCOVERY_STARTED
        ∧ (lm_adapter_run_input adapter .discovery_timeout).1.discovery_state
            = adapter.discovery_state
        ∧ count_calls .ADAPTER_METHOD_STOP_DISCOVERY
            (lm_adapter_run_input adapter .discovery_timeout).2 = 0)) := by
  simp only [lm_adapter_run_input, lm_adapter_discovery_timeout_cb]
  rw [lm_adapter_stop_discovery_eq]
  by_cases h : adapter.discovery_state = .LM_ADAPTER_DISCOVERY_STARTED
  · rw [if_pos h]
    exact ⟨trivial, trivial, rfl, Or.inl ⟨h, rfl, rfl⟩⟩
  · rw [if_neg h]
    exact ⟨trivial, trivial, rfl, Or.inr ⟨h, rfl, rfl⟩⟩

theorem lm_adapter_run_discovery_result (adapter : lm_adapter) (device : lm_device) :
    count_calls .ADAPTER_METHOD_START_DISCOVERY
        (lm_adapter_run_input adapter (.discovery_result device)).2 = 0
    ∧ (((lm_adapter_run_input adapter (.discovery_result device)).1.discovery_state
          = adapter.discovery_state
        ∧ count_calls .ADAPTER_METHOD_STOP_DISCOVERY
            (lm_adapter_run_input adapter (.discovery_result device)).2 = 0)
      ∨ (adapter.discovery_state = .LM_ADAPTER_DISCOVERY_STARTED
        ∧ (lm_adapter_run_input adapter (.discovery_result device)).1.discovery_state
            = .LM_ADAPTER_DISCOVERY_STOPPING
        ∧ count_calls .ADAPTER_METHOD_STOP_DISCOVERY
            (lm_adapter_run_input adapter (.discovery_result device)).2 = 1)) := by
  simp only [lm_adapter_run_input]
  unfold deliver_discovery_result
  by_cases hc : lm_device_get_connection_state device = .LM_DEVICE_DISCONNECTED
  · rw [if_pos hc]
    by_cases hm : (!matches_discovery_filter adapter device) = true
    · rw [if_pos hm]
      exact ⟨rfl, Or.inl ⟨rfl, rfl⟩⟩
    · rw [if_neg hm]
      dsimp only
      cases hf : adapter.discovery_filter with
      | none => exact ⟨rfl, Or.inl ⟨rfl, rfl⟩⟩
      | some f =>
        dsimp only
        by_cases hmax : f.max_devices ≠ 0
        · rw [if_pos hmax]
          by_cases hge : (adapter.discovery_devices_found + 1) % 2 ^ 32 ≥ f.max_devices
          · rw [if_pos hge, lm_adapter_stop_discovery_eq]
            by_cases hs : adapter.discovery_state = .LM_ADAPTER_DISCOVERY_STARTED
            · rw [if_pos hs]
              exact ⟨rfl, Or.inr ⟨hs, rfl, rfl⟩⟩
            · rw [if_neg hs]
              exact ⟨rfl, Or.inl ⟨rfl, rfl⟩⟩
          · rw [if_neg hge]
            exact ⟨rfl, Or.inl ⟨rfl, rfl⟩⟩
        · rw [if_neg hmax]
          exact ⟨rfl, Or.inl ⟨rfl, rfl⟩⟩
  · rw [if_neg hc]
    exact ⟨rfl, Or.inl ⟨rfl, rfl⟩⟩

theorem lm_discovery_inv_step (s : lm_system) (i : lm_input) (hinv : lm_discovery_inv s)
    (hen : lm_input_enabled s i = true) : lm_discovery_inv (lm_system_step s i).1 := by
  obtain ⟨h1, h2, h3⟩ := hinv
  unfold lm_discovery_inv
  simp only [lm_system_step]
  cases i with
  | start_discovery =>
    simp only [lm_input_completes, Nat.sub_zero]
    rcases lm_adapter_run_start_discovery s.adapter with
      ⟨hs, hst, ht, hc, hcs, hcq⟩ | ⟨hs, hr⟩
    · rw [hst, ht, hc, hcs, hcq]
      have hz := h3 (Or.inl hs)
      have hp : s.pending_start = 0 := by
        rcases h1 with h | ⟨_, h⟩
        · exact h
        · rw [hs] at h; exact absurd h (by decide)
      have hq : s.pending_stop = 0 := by
        rcases h2 with h | ⟨_, h⟩
        · exact h
        · rw [hs] at h; exact absurd h (by decide)
      refine ⟨Or.inr ⟨by omega, rfl⟩, Or.inl (by omega), fun _ => hz⟩
    · rw [hr]
      simp only [count_calls_nil, Nat.add_zero]
      exact ⟨h1, h2, h3⟩
  | stop_discovery =>
    simp only [lm_input_completes, Nat.sub_zero]
    rcases lm_adapter_run_stop_discovery s.adapter with ⟨hs, hst, hcs, hcq⟩ | ⟨hs, hr⟩
    · rw [hst, hcs, hcq]
      have hp : s.pending_start = 0 := by
        rcases h1 with h | ⟨_, h⟩
        · exact h
        · rw [hs] at h; exact absurd h (by decide)
      have hq : s.pending_stop = 0 := by
        rcases h2 with h | ⟨_, h⟩
        · exact h
        · rw [hs] at h; exact absurd h (by decide)
      refine ⟨Or.inl (by omega), Or.inr ⟨by omega, rfl⟩, fun h => ?_⟩
      rcases h with h | h <;> exact absurd h (by decide)
    · rw [hr]
      simp only [count_calls_nil, Nat.add_zero]
      exact ⟨h1, h2, h3⟩
  | set_discovery_filter r sv p m t =>
    simp only [lm_input_completes, Nat.sub_zero]
    obtain ⟨hst, ht, hc, hcs, hcq⟩ := lm_adapter_run_filter s.adapter
      (.set_discovery_filter r sv p m t) (Or.inl ⟨r, sv, p, m, t, rfl⟩)
    rw [hst, ht, hc, hcs, hcq]
    exact ⟨h1, h2, h3⟩
  | clear_discovery_filter =>
    simp only [lm_input_completes, Nat.sub_zero]
    obtain ⟨hst, ht, hc, hcs, hcq⟩ := lm_adapter_run_filter s.adapter
      .clear_discovery_filter (Or.inr rfl)
    rw [hst, ht, hc, hcs, hcq]
    exact ⟨h1, h2, h3⟩
  | start_discovery_done res id =>
    simp only [lm_input_enabled, Bool.and_eq_true, decide_eq_true_eq] at hen
    have hp : s.pending_start = 1
        ∧ s.adapter.discovery_state = .LM_ADAPTER_DISCOVERY_STARTING := by
      rcases h1 with h | h
      · omega
      · exact h
    have hq : s.pending_stop = 0 := by
      rcases h2 with h | ⟨_, h⟩
      · exact h
      · rw [hp.2] at h; exact absurd h (by decide)
    have hz := h3 (Or.inr hp.2)
    obtain ⟨hcs, hcq, hc, hcase⟩ := lm_adapter_run_start_discovery_done s.adapter res id
    simp only [lm_input_completes, if_true]
    rw [hcs, hcq, hc]
    rcases hcase with ⟨hst, ht⟩ | hst
    · rw [hst, ht]
      refine ⟨Or.inl (by omega), Or.inl (by simp [hq]), fun _ => hz⟩
    · rw [hst]
      refine ⟨Or.inl (by omega), Or.inl (by simp [hq]), fun h => ?_⟩
      rcases h with h | h <;> exact absurd h (by decide)
  | stop_discovery_done res =>
    simp only [lm_input_enabled, decide_eq_true_eq] at hen
    have hq : s.pending_stop = 1
        ∧ s.adapter.discovery_state = .LM_ADAPTER_DISCOVERY_STOPPING := by
      rcases h2 with h | h
      · omega
      · exact h
    have hp : s.pending_start = 0 := by
      rcases h1 with h | ⟨_, h⟩
      · exact h
      · rw [hq.2] at h; exact absurd h (by decide)
    obtain ⟨hcs, hcq, hcase⟩ := lm_adapter_run_stop_discovery_done s.adapter res hq.2
    simp only [lm_input_completes, if_true]
    rw [hcs, hcq]
    rcases hcase with ⟨hst, ht, hc⟩ | hst
    · rw [hst, ht, hc]
      refine ⟨Or.inl (by simp [hp]), Or.inl (by omega), fun _ => ⟨rfl, rfl⟩⟩
    · rw [hst]
      refine ⟨Or.inl (by simp [hp]), Or.inl (by omega), fun h => ?_⟩
      rcases h with h | h <;> exact absurd h (by decide)
  | discovery_timeout =>
    simp only [lm_input_completes, Nat.sub_zero]
    obtain ⟨ht, hc, hcs, hcase⟩ := lm_adapter_run_discovery_timeout s.adapter
    rw [ht, hc, hcs]
    rcases hcase with ⟨hs, hst, hcq⟩ | ⟨hs, hst, hcq⟩
    · rw [hst, hcq]
      have hp : s.pending_start = 0 := by
        rcases h1 with h | ⟨_, h⟩
        · exact h
        · rw [hs] at h; exact absurd h (by decide)
      have hq : s.pending_stop = 0 := by
        rcases h2 with h | ⟨_, h⟩
        · exact h
        · rw [hs] at h; exact absurd h (by decide)
      exact ⟨Or.inl (by omega), Or.inr ⟨by omega, rfl⟩, fun _ => ⟨rfl, rfl⟩⟩
    · rw [hst, hcq]
      exact ⟨h1, h2, fun _ => ⟨rfl, rfl⟩⟩
  | discovery_result device =>
    simp only [lm_input_enabled, decide_eq_true_eq] at hen
    simp only [lm_input_completes, Nat.sub_zero]
    have hp : s.pending_start = 0 := by
      rcases h1 with h | ⟨_, h⟩
      · exact h
      · rw [hen] at h; exact absurd h (by decide)
    have hq : s.pending_stop = 0 := by
      rcases h2 with h | ⟨_, h⟩
      · exact h
      · rw [hen] at h; exact absurd h (by decide)
    obtain ⟨hcs, hcase⟩ := lm_adapter_run_discovery_result s.adapter device
    rw [hcs]
    rcases hcase with ⟨hst, hcq⟩ | ⟨_, hst, hcq⟩
    · rw [hst, hcq, hen]
      refine ⟨Or.inl (by omega), Or.inl (by omega), fun h => ?_⟩
      rcases h with h | h <;> exact absurd h (by decide)
    · rw [hst, hcq]
      refine ⟨Or.inl (by omega), Or.inr ⟨by omega, rfl⟩, fun h => ?_⟩
      rcases h with h | h <;> exact absurd h (by decide)

theorem lm_discovery_inv_reachable (s : lm_system) (h : lm_reachable s) :
    lm_discovery_inv s := by
  induction h with
  | create path =>
    exact ⟨Or.inl rfl, Or.inl rfl, fun _ => ⟨rfl, rfl⟩⟩
  | step s i _ hen ih => exact lm_discovery_inv_step s i ih hen

theorem lm_reachable_run (s : lm_system) (inputs : List lm_input) (h : lm_reachable s)
    (hen : lm_system_run_enabled s inputs = true) : lm_reachable (lm_system_run s inputs) := by
  induction inputs generalizing s with
  | nil => exact h
  | cons i is ih =>
    simp only [lm_system_run_enabled, Bool.and_eq_true] at hen
    exact ih _ (lm_reachable.step s i h hen.1) hen.2

theorem example_system_stopping_reachable : lm_reachable example_system_stopping :=
  lm_reachable_run _ _ (lm_reachable.create "/a") (by decide)

theorem example_system_start_failed_reachable : lm_reachable example_system_start_failed :=
  lm_reachable_run _ _ (lm_reachable.create "/a") (by decide)

/-- C4 (as the code has it): in every step of an adapter in a reachable state,
if `discovery_state` changes then the change is one of stopped→starting,
starting→started, starting→stopped, started→stopping, stopping→stopped, or it is
stopping→started, which happens when a `StopDiscovery` call completes with an
error other than `org.bluez.Error.InProgress`. -/
theorem C4_discovery_transitions (s : lm_system) (i : lm_input) (hs : lm_reachable s)
    (hen : lm_input_enabled s i = true)
    (hch : (lm_system_step s i).1.adapter.discovery_state ≠ s.adapter.discovery_state) :
    lm_discovery_transition_listed s.adapter.discovery_state
        (lm_system_step s i).1.adapter.discovery_state = true
    ∨ (s.adapter.discovery_state = .LM_ADAPTER_DISCOVERY_STOPPING
      ∧ (lm_system_step s i).1.adapter.discovery_state = .LM_ADAPTER_DISCOVERY_STARTED
      ∧ ∃ e, i = .stop_discovery_done (.error e) ∧ e ≠ some "org.bluez.Error.InProgress") := by
  obtain ⟨h1, h2, _⟩ := lm_discovery_inv_reachable s hs
  simp only [lm_system_step] at hch ⊢
  cases i with
  | start_discovery =>
    rcases lm_adapter_run_start_discovery s.adapter with ⟨hst, hst', _⟩ | ⟨_, hr⟩
    · left; rw [hst, hst']; rfl
    · rw [hr] at hch; exact absurd rfl hch
  | stop_discovery =>
    rcases lm_adapter_run_stop_discovery s.adapter with ⟨hst, hst', _⟩ | ⟨_, hr⟩
    · left; rw [hst, hst']; rfl
    · rw [hr] at hch; exact absurd rfl hch
  | set_discovery_filter r sv p m t => exact absurd rfl hch
  | clear_discovery_filter => exact absurd rfl hch
  | start_discovery_done res id =>
    simp only [lm_input_enabled, Bool.and_eq_true, decide_eq_true_eq] at hen
    have hst : s.adapter.discovery_state = .LM_ADAPTER_DISCOVERY_STARTING := by
      rcases h1 with h | h
      · omega
      · exact h.2
    left
    rcases (lm_adapter_run_start_discovery_done s.adapter res id).2.2.2 with ⟨h, _⟩ | h
    · rw [hst, h]; rfl
    · rw [hst, h]; rfl
  | stop_discovery_done res =>
    simp only [lm_input_enabled, decide_eq_true_eq] at hen
    have hst : s.adapter.discovery_state = .LM_ADAPTER_DISCOVERY_STOPPING := by
      rcases h2 with h | h
      · omega
      · exact h.2
    cases res with
    | success =>
      left
      rw [hst]
      simp only [lm_adapter_run_input, lm_adapter_stop_discovery_cb]
      rw [lm_adapter_set_discovery_state_state]
      rfl
    | error e =>
      by_cases he : e = some "org.bluez.Error.InProgress"
      · left
        rw [hst]
        simp only [lm_adapter_run_input, lm_adapter_stop_discovery_cb, he, if_true]
        rw [lm_adapter_set_discovery_state_state]
        rfl
      · right
        refine ⟨hst, ?_, e, rfl, he⟩
        simp only [lm_adapter_run_input, lm_adapter_stop_discovery_cb, he, if_false]
  | discovery_timeout =>
    rcases (lm_adapter_run_discovery_timeout s.adapter).2.2.2 with
      ⟨hst, hst', _⟩ | ⟨_, hst', _⟩
    · left; rw [hst, hst']; rfl
    · exact absurd hst' hch
  | discovery_result device =>
    rcases (lm_adapter_run_discovery_result s.adapter device).2 with
      ⟨hst', _⟩ | ⟨hst, hst', _⟩
    · exact absurd hst' hch
    · left; rw [hst, hst']; rfl

/-- C4 at the completion of a `StopDiscovery` call without error. -/
theorem C4_discovery_transitions_witness :
    lm_discovery_transition_listed example_system_stopping.adapter.discovery_state
        (lm_system_step example_system_stopping
          (.stop_discovery_done .success)).1.adapter.discovery_state = true
    ∨ (example_system_stopping.adapter.discovery_state = .LM_ADAPTER_DISCOVERY_STOPPING
      ∧ (lm_system_step example_system_stopping
          (.stop_discovery_done .success)).1.adapter.discovery_state
          = .LM_ADAPTER_DISCOVERY_STARTED
      ∧ ∃ e, lm_input.stop_discovery_done .success = .stop_discovery_done (.error e)
          ∧ e ≠ some "org.bluez.Error.InProgress") :=
  C4_discovery_transitions example_system_stopping (.stop_discovery_done .success)
    example_system_stopping_reachable (by decide) (by decide)

/-- C4 as stated fails: the adapter is in a reachable state with a
`StopDiscovery` call in flight; the call completes with the error
`org.bluez.Error.Failed`; `discovery_state` changes from stopping to started,
which is not among the five transitions. -/
theorem C4_stop_failure_reverts_to_started :
    lm_reachable example_system_stopping
    ∧ lm_input_enabled example_system_stopping
        (.stop_discovery_done (.error (some "org.bluez.Error.Failed"))) = true
    ∧ example_system_stopping.adapter.discovery_state = .LM_ADAPTER_DISCOVERY_STOPPING
    ∧ (lm_system_step example_system_stopping
        (.stop_discovery_done (.error (some "org.bluez.Error.Failed")))).1.adapter.discovery_state
        = .LM_ADAPTER_DISCOVERY_STARTED
    ∧ lm_discovery_transition_listed .LM_ADAPTER_DISCOVERY_STOPPING
        .LM_ADAPTER_DISCOVERY_STARTED = false :=
  ⟨example_system_stopping_reachable, by decide, by decide, by decide, rfl⟩

/-- C7 (as the code has it): in every state an adapter can reach from
`lm_adapter_create` by discovery commands, completions of bus calls, discovery
results and timer firings, if `discovery_state` is stopped or starting then the
discovery timer is disarmed and the device counter is 0. -/
theorem C7_timer_and_counter_cleared (s : lm_system) (hs : lm_reachable s)
    (hst : s.adapter.discovery_state = .LM_ADAPTER_DISCOVERY_STOPPED
      ∨ s.adapter.discovery_state = .LM_ADAPTER_DISCOVERY_STARTING) :
    s.adapter.discovery_timer_id = 0 ∧ s.adapter.discovery_devices_found = 0 :=
  (lm_discovery_inv_reachable s hs).2.2 hst

/-- C7 at the adapter `/a` after a failed `StartDiscovery` call. -/
theorem C7_timer_and_counter_cleared_witness :
    example_system_start_failed.adapter.discovery_state = .LM_ADAPTER_DISCOVERY_STOPPED
    ∧ example_system_start_failed.adapter.discovery_timer_id = 0
    ∧ example_system_start_failed.adapter.discovery_devices_found = 0 :=
  ⟨by decide,
   C7_timer_and_counter_cleared example_system_start_failed
     example_system_start_failed_reachable (Or.inl (by decide))⟩

/-- C7 as stated fails: after the filter was set with a timeout, discovery
started and `lm_adapter_stop_discovery` was called, the adapter is in state
stopping, which is not started, and the discovery timer is still armed. -/
theorem C7_timer_armed_while_stopping :
    lm_reachable example_system_stopping
    ∧ example_system_stopping.adapter.discovery_state ≠ .LM_ADAPTER_DISCOVERY_STARTED
    ∧ ¬ (example_system_stopping.adapter.discovery_timer_id = 0
      ∧ example_system_stopping.adapter.discovery_devices_found = 0) :=
  ⟨example_system_stopping_reachable, by decide, by decide⟩

/-! ## The volume of a transport -/

theorem roundf_natCast_div (n d : ℕ) (hd : 0 < d) :
    roundf ((n : ℚ) / (d : ℚ)) = (((2 * n + d) / (2 * d) : ℕ) : ℤ) := by
  have hd' : (d : ℚ) ≠ 0 := by exact_mod_cast hd.ne'
  have hnn : (0 : ℚ) ≤ (n : ℚ) / (d : ℚ) := by positivity
  unfold roundf
  rw [if_pos hnn]
  have e : (n : ℚ) / (d : ℚ) + 1 / 2 = ((2 * n + d : ℕ) : ℚ) / ((2 * d : ℕ) : ℚ) := by
    push_cast
    field_simp
    ring
  rw [e, Rat.floor_natCast_div_natCast]
  norm_cast

theorem roundf_set_volume (p m : ℕ) :
    roundf (((p : ℚ) * (m : ℚ)) / VOLUME_PERCENTAGE_MAX)
      = (((2 * (p * m) + 100) / 200 : ℕ) : ℤ) := by
  have h := roundf_natCast_div (p * m) 100 (by decide)
  have e : (((p * m : ℕ) : ℚ)) / ((100 : ℕ) : ℚ) = ((p : ℚ) * (m : ℚ)) / VOLUME_PERCENTAGE_MAX := by
    unfold VOLUME_PERCENTAGE_MAX
    push_cast
    rfl
  rw [← e, h]

theorem roundf_get_volume (v m : ℕ) (hm : 0 < m) :
    roundf (((v : ℚ) * VOLUME_PERCENTAGE_MAX) / (m : ℚ))
      = (((2 * (v * 100) + m) / (2 * m) : ℕ) : ℤ) := by
  have h := roundf_natCast_div (v * 100) m hm
  have e : (((v * 100 : ℕ) : ℚ)) / (m : ℚ) = ((v : ℚ) * VOLUME_PERCENTAGE_MAX) / (m : ℚ) := by
    unfold VOLUME_PERCENTAGE_MAX
    push_cast
    rfl
  rw [← e, h]

theorem guint16_of_long_natCast (k : ℕ) (h : k < 65536) : guint16_of_long (k : ℤ) = k := by
  unfold guint16_of_long
  have : ((k : ℤ) % 65536) = (k : ℤ) := Int.emod_eq_of_lt (by omega) (by omega)
  rw [this]
  simp

theorem lm_transport_get_volume_percentage_eq (transport : lm_transport) :
    lm_transport_get_volume_percentage transport
      = if transport.profile = .LM_TRANSPORT_PROFILE_A2DP_SINK then
          (((2 * (transport.volume * 100) + 127) / 254 : ℕ) : ℚ)
        else if transport.profile = .LM_TRANSPORT_PROFILE_BAP_SINK then
          (((2 * (transport.volume * 100) + 255) / 510 : ℕ) : ℚ)
        else 0 := by
  unfold lm_transport_get_volume_percentage
  split
  · rw [show AVRCP_VOLUME_MAX = 127 from rfl, roundf_get_volume _ 127 (by decide)]
    norm_cast
  · split
    · rw [show MCP_VOLUME_MAX = 255 from rfl, roundf_get_volume _ 255 (by decide)]
      norm_cast
    · rfl

theorem lm_transport_set_volume_percentage_eq (transport : lm_transport) (p : ℕ)
    (hp : p ≤ 100) (res : lm_dbus_result)
    (hprofile : transport.profile = .LM_TRANSPORT_PROFILE_A2DP_SINK
      ∨ transport.profile = .LM_TRANSPORT_PROFILE_BAP_SINK) :
    lm_transport_set_volume_percentage transport (p : ℚ) res
      = if (lm_transport_set_property_sync transport res).1 = LM_STATUS_SUCCESS then
          ((lm_transport_set_property_sync transport res).1,
            { transport with
              volume := (2 * (p * lm_transport_volume_max transport.profile) + 100) / 200 },
            (lm_transport_set_property_sync transport res).2)
        else ((lm_transport_set_property_sync transport res).1, transport,
          (lm_transport_set_property_sync transport res).2) := by
  have h1 : ¬ ((p : ℚ) > VOLUME_PERCENTAGE_MAX) := by
    unfold VOLUME_PERCENTAGE_MAX
    have : (p : ℚ) ≤ 100 := by exact_mod_cast hp
    exact not_lt.mpr this
  have h2 : ¬ ((p : ℚ) < 0) := not_lt.mpr (by positivity)
  have hlt : ∀ m : ℕ, m ≤ 255 → (2 * (p * m) + 100) / 200 < 65536 := by
    intro m hm
    have : p * m ≤ 100 * 255 := Nat.mul_le_mul hp hm
    omega
  unfold lm_transport_set_volume_percentage
  simp only [h1, h2, if_false]
  rcases hprofile with h | h
  · have hb : transport.profile ≠ .LM_TRANSPORT_PROFILE_BAP_SINK := by rw [h]; decide
    simp only [h, if_true, lm_transport_volume_max]
    rw [roundf_set_volume, guint16_of_long_natCast _ (hlt _ (by decide))]
  · have ha : transport.profile ≠ .LM_TRANSPORT_PROFILE_A2DP_SINK := by rw [h]; decide
    simp only [h, if_true, lm_transport_volume_max]
    simp only [show (lm_transport_profile_t.LM_TRANSPORT_PROFILE_BAP_SINK
      = lm_transport_profile_t.LM_TRANSPORT_PROFILE_A2DP_SINK) = False from by simp, if_false]
    rw [roundf_set_volume, guint16_of_long_natCast _ (hlt _ (by decide))]

theorem volume_round_trip_a2dp (p : ℕ) :
    (2 * ((2 * (p * 127) + 100) / 200 * 100) + 127) / 254 = p := by omega

theorem volume_round_trip_bap (p : ℕ) :
    (2 * ((2 * (p * 255) + 100) / 200 * 100) + 255) / 510 = p := by omega

/-- C17: for an integer percentage `p` between 0 and 100 and a transport whose
profile is a2dp sink (largest raw volume 127) or bap sink (255), when the
property write succeeds `lm_transport_set_volume_percentage` returns success,
stores the raw volume round-half-away-from-zero (p × max / 100) and changes
nothing else, and `lm_transport_get_volume_percentage` then returns `p`.  The
`float` arithmetic is exact rational arithmetic. -/
theorem C17_volume_percentage_round_trip (transport : lm_transport) (p : ℕ) (hp : p ≤ 100)
    (hprofile : transport.profile = .LM_TRANSPORT_PROFILE_A2DP_SINK
      ∨ transport.profile = .LM_TRANSPORT_PROFILE_BAP_SINK) :
    (lm_transport_set_volume_percentage transport (p : ℚ) .success).1 = LM_STATUS_SUCCESS
    ∧ (((lm_transport_set_volume_percentage transport (p : ℚ) .success).2.1.volume : ℕ) : ℤ)
        = roundf (((p : ℚ) * (lm_transport_volume_max transport.profile : ℚ)) / 100)
    ∧ (lm_transport_set_volume_percentage transport (p : ℚ) .success).2.1
        = { transport with
            volume := (lm_transport_set_volume_percentage transport (p : ℚ) .success).2.1.volume }
    ∧ lm_transport_get_volume_percentage
        (lm_transport_set_volume_percentage transport (p : ℚ) .success).2.1 = (p : ℚ) := by
  rw [lm_transport_set_volume_percentage_eq transport p hp .success hprofile]
  have hs : (lm_transport_set_property_sync transport .success).1 = LM_STATUS_SUCCESS := rfl
  rw [if_pos hs]
  refine ⟨rfl, ?_, rfl, ?_⟩
  · have h := roundf_set_volume p (lm_transport_volume_max transport.profile)
    unfold VOLUME_PERCENTAGE_MAX at h
    rw [h]
  · rw [lm_transport_get_volume_percentage_eq]
    rcases hprofile with h | h
    · simp only [h, if_true, lm_transport_volume_max]
      rw [show AVRCP_VOLUME_MAX = 127 from rfl, volume_round_trip_a2dp p]
    · simp only [h, lm_transport_volume_max]
      simp only [show (lm_transport_profile_t.LM_TRANSPORT_PROFILE_BAP_SINK
        = lm_transport_profile_t.LM_TRANSPORT_PROFILE_A2DP_SINK) = False from by simp,
        if_false, if_true]
      rw [show MCP_VOLUME_MAX = 255 from rfl, volume_round_trip_bap p]

/-- C17 at 50 % on an a2dp sink transport: the raw volume stored is 64 and the
percentage read back is 50. -/
theorem C17_volume_percentage_round_trip_witness :
    (lm_transport_set_volume_percentage example_transport_quiet ((50 : ℕ) : ℚ) .success).2.1.volume
      = 64
    ∧ lm_transport_get_volume_percentage
        (lm_transport_set_volume_percentage example_transport_quiet ((50 : ℕ) : ℚ) .success).2.1
      = ((50 : ℕ) : ℚ) :=
  ⟨by
    rw [lm_transport_set_volume_percentage_eq example_transport_quiet 50 (by decide) .success
      (Or.inl rfl)]
    rfl,
   (C17_volume_percentage_round_trip example_transport_quiet 50 (by decide) (Or.inl rfl)).2.2.2⟩

/-- C18 (as the code has it): `lm_transport_get_volume_percentage` returns a
value between 0 and 100 when the raw volume is at most the largest raw volume of
the profile (127 for a2dp sink, 255 for bap sink); for every other profile it
returns 0 whatever the raw volume. -/
theorem C18_volume_percentage_bounds (transport : lm_transport)
    (ha : transport.profile = .LM_TRANSPORT_PROFILE_A2DP_SINK →
      transport.volume ≤ AVRCP_VOLUME_MAX)
    (hb : transport.profile = .LM_TRANSPORT_PROFILE_BAP_SINK →
      transport.volume ≤ MCP_VOLUME_MAX) :
    0 ≤ lm_transport_get_volume_percentage transport
    ∧ lm_transport_get_volume_percentage transport ≤ 100
    ∧ (transport.profile ≠ .LM_TRANSPORT_PROFILE_A2DP_SINK →
        transport.profile ≠ .LM_TRANSPORT_PROFILE_BAP_SINK →
        lm_transport_get_volume_percentage transport = 0) := by
  rw [lm_transport_get_volume_percentage_eq]
  by_cases h1 : transport.profile = .LM_TRANSPORT_PROFILE_A2DP_SINK
  · have hv : transport.volume ≤ 127 := ha h1
    have hle : (2 * (transport.volume * 100) + 127) / 254 ≤ 100 := by omega
    rw [if_pos h1]
    refine ⟨by positivity, by exact_mod_cast hle, fun h => absurd h1 h⟩
  · rw [if_neg h1]
    by_cases h2 : transport.profile = .LM_TRANSPORT_PROFILE_BAP_SINK
    · have hv : transport.volume ≤ 255 := hb h2
      have hle : (2 * (transport.volume * 100) + 255) / 510 ≤ 100 := by omega
      rw [if_pos h2]
      refine ⟨by positivity, by exact_mod_cast hle, fun _ h => absurd h2 h⟩
    · rw [if_neg h2]
      exact ⟨le_refl 0, by norm_num, fun _ _ => rfl⟩

/-- C18 at an a2dp sink transport with raw volume 0. -/
theorem C18_volume_percentage_bounds_witness :
    0 ≤ lm_transport_get_volume_percentage example_transport_quiet
    ∧ lm_transport_get_volume_percentage example_transport_quiet ≤ 100 :=
  ⟨(C18_volume_percentage_bounds example_transport_quiet (fun _ => by decide)
      (fun _ => by decide)).1,
   (C18_volume_percentage_bounds example_transport_quiet (fun _ => by decide)
      (fun _ => by decide)).2.1⟩

/-- C18 as stated fails: an a2dp sink transport whose `Volume` property update
carried the raw value 128 reports 101 per cent. -/
theorem C18_volume_percentage_above_100 :
    example_transport_a2dp.profile = .LM_TRANSPORT_PROFILE_A2DP_SINK
    ∧ example_transport_a2dp.volume = 128
    ∧ lm_transport_get_volume_percentage example_transport_a2dp = 101
    ∧ ¬ (lm_transport_get_volume_percentage example_transport_a2dp ≤ 100) := by
  have h : lm_transport_get_volume_percentage example_transport_a2dp = 101 := by
    rw [lm_transport_get_volume_percentage_eq]
    rw [if_pos (by decide)]
    rw [show example_transport_a2dp.volume = 128 from by decide]
    norm_num
  refine ⟨by decide, by decide, h, ?_⟩
  rw [h]
  norm_num

/-! ## Refused and failed volume writes -/

/-- C19: for a transport whose profile is neither a2dp sink nor bap sink,
`lm_transport_set_volume_percentage` returns `LM_STATUS_INVALID_ARGS`, issues no
property write (it has no effect at all) and leaves the transport unchanged,
whatever the percentage; for an a2dp sink or bap sink transport whose property
write fails it returns `LM_STATUS_FAIL` and leaves the transport unchanged. -/
theorem C19_set_volume_percentage_errors (transport : lm_transport) (volume_per : ℚ) :
    (transport.profile ≠ .LM_TRANSPORT_PROFILE_A2DP_SINK →
      transport.profile ≠ .LM_TRANSPORT_PROFILE_BAP_SINK →
      ∀ res, lm_transport_set_volume_percentage transport volume_per res
        = (LM_STATUS_INVALID_ARGS, transport, []))
    ∧ (transport.profile = .LM_TRANSPORT_PROFILE_A2DP_SINK
        ∨ transport.profile = .LM_TRANSPORT_PROFILE_BAP_SINK →
      ∀ e, (lm_transport_set_volume_percentage transport volume_per (.error e)).1
          = LM_STATUS_FAIL
        ∧ (lm_transport_set_volume_percentage transport volume_per (.error e)).2.1
          = transport) := by
  constructor
  · intro h1 h2 res
    unfold lm_transport_set_volume_percentage
    simp only [h1, h2, if_false]
  · intro h e
    unfold lm_transport_set_volume_percentage
    have hf : ¬ (lm_transport_set_property_sync transport (.error e)).1 = LM_STATUS_SUCCESS := by
      simp only [lm_transport_set_property_sync]
      decide
    rcases h with h | h
    · simp only [h, if_true, hf, if_false]
      exact ⟨rfl, trivial⟩
    · simp only [h, show (lm_transport_profile_t.LM_TRANSPORT_PROFILE_BAP_SINK
        = lm_transport_profile_t.LM_TRANSPORT_PROFILE_A2DP_SINK) = False from by simp,
        if_true, hf, if_false]
      exact ⟨rfl, trivial⟩

/-- C19 at a transport without a profile and at an a2dp sink transport whose
write fails. -/
theorem C19_set_volume_percentage_errors_witness :
    lm_transport_set_volume_percentage (lm_transport_create none "/a/fd1") 50 .success
      = (LM_STATUS_INVALID_ARGS, lm_transport_create none "/a/fd1", [])
    ∧ (lm_transport_set_volume_percentage example_transport_quiet 50 (.error none)).1
      = LM_STATUS_FAIL
    ∧ (lm_transport_set_volume_percentage example_transport_quiet 50 (.error none)).2.1
      = example_transport_quiet :=
  ⟨(C19_set_volume_percentage_errors (lm_transport_create none "/a/fd1") 50).1
      (by decide) (by decide) .success,
   (C19_set_volume_percentage_errors example_transport_quiet 50).2 (Or.inl rfl) none⟩

/-! ## The profile of a transport -/

theorem lm_transport_update_property_profile (U : lm_uuids) (active_transport : Option String)
    (transport : lm_transport) (p : lm_transport_property)
    (h : transport.profile = lm_transport_uuid_to_profile U transport.uuid) :
    (lm_transport_update_property U active_transport transport p).1.profile
      = lm_transport_uuid_to_profile U
          (lm_transport_update_property U active_transport transport p).1.uuid := by
  cases p <;> first | exact h | rfl

/-- C20: every transport that `lm_transport_create` and any sequence of
`lm_transport_update_property` calls produce has
`profile = lm_transport_uuid_to_profile (uuid)`; the profile of a transport
without a uuid, or with a uuid that is not in the table, is the null profile;
and an update of a property other than `UUID` leaves uuid and profile as they
are. -/
theorem C20_profile_follows_uuid (U : lm_uuids) (transport : lm_transport)
    (h : lm_transport_reachable U transport) :
    transport.profile = lm_transport_uuid_to_profile U transport.uuid
    ∧ (transport.uuid = none → transport.profile = .LM_TRANSPORT_PROFILE_NULL)
    ∧ (∀ u, transport.uuid = some u →
        (∀ e ∈ transport_profile_map U, e.2 ≠ u) →
        transport.profile = .LM_TRANSPORT_PROFILE_NULL)
    ∧ (∀ active_transport p, p.is_uuid = false →
        (lm_transport_update_property U active_transport transport p).1.profile
          = transport.profile
        ∧ (lm_transport_update_property U active_transport transport p).1.uuid
          = transport.uuid) := by
  have inv : transport.profile = lm_transport_uuid_to_profile U transport.uuid := by
    induction h with
    | create device path => rfl
    | update t act p _ ih => exact lm_transport_update_property_profile U act t p ih
  refine ⟨inv, ?_, ?_, ?_⟩
  · intro hu
    rw [inv, hu]
    rfl
  · intro u hu hnot
    rw [inv, hu]
    unfold lm_transport_uuid_to_profile
    have hf : (transport_profile_map U).find? (fun e => e.2 == u) = none := by
      rw [List.find?_eq_none]
      intro e he
      simpa using hnot e he
    simp only [hf]
  · intro act p hp
    cases p <;> first | exact ⟨rfl, rfl⟩ | simp [lm_transport_property.is_uuid] at hp

theorem example_transport_a2dp_reachable :
    lm_transport_reachable sig_uuids example_transport_a2dp :=
  .update _ none (.MEDIA_TRANSPORT_PROPERTY_VOLUME 128)
    (.update _ none (.MEDIA_TRANSPORT_PROPERTY_UUID "0000110b-0000-1000-8000-00805f9b34fb")
      (.create (some "/a/d") "/a/d/fd0"))

/-- C20 at the a2dp sink transport of the examples, which two property updates
build from a fresh transport. -/
theorem C20_profile_follows_uuid_witness :
    lm_transport_reachable sig_uuids example_transport_a2dp
    ∧ example_transport_a2dp.profile = .LM_TRANSPORT_PROFILE_A2DP_SINK
    ∧ example_transport_a2dp.profile
      = lm_transport_uuid_to_profile sig_uuids example_transport_a2dp.uuid :=
  ⟨example_transport_a2dp_reachable, by decide,
    (C20_profile_follows_uuid sig_uuids example_transport_a2dp
      example_transport_a2dp_reachable).1⟩

/-! ## The broadcast timer -/

/-- C16, the claim as written fails: the device `/a/d` holds no broadcast sink
transport while its broadcast timer runs; the callback returns `TRUE`, which
keeps the periodic timer, and `bcast_transport_timer_id` stays 7. -/
theorem C16_timer_kept_without_bcast_transport :
    lm_device_get_transports example_device_timer_armed .LM_TRANSPORT_PROFILE_BAP_BCAST_SINK = []
    ∧ (bcast_sink_transport_timer_cb sig_uuids example_adapter example_device_timer_armed).1
      = true
    ∧ (bcast_sink_transport_timer_cb sig_uuids example_adapter
        example_device_timer_armed).2.1.bcast_transport_timer_id = 7 := by
  decide

/-- C16, amended: when the broadcast timer of a device fires and the transport
map holds no broadcast sink transport, no event is emitted, the device is left
as it is (also `bcast_transport_timer_id`) and the callback returns `TRUE`, so
the timer stays armed and fires again; when the map holds a broadcast sink
transport, exactly one event is emitted, `LM_ADAPTER_BCAST_DISCOVERED_IND` for
this device with these transports, the callback returns `FALSE` and
`bcast_transport_timer_id` becomes 0. -/
theorem C16_bcast_timer_cb (U : lm_uuids) (adapter : lm_adapter) (device : lm_device) :
    (lm_device_get_transports device .LM_TRANSPORT_PROFILE_BAP_BCAST_SINK = [] →
      bcast_sink_transport_timer_cb U adapter device = (true, device, []))
    ∧ (lm_device_get_transports device .LM_TRANSPORT_PROFILE_BAP_BCAST_SINK ≠ [] →
      (bcast_sink_transport_timer_cb U adapter device).1 = false
      ∧ (bcast_sink_transport_timer_cb U adapter device).2.1
        = { device with bcast_transport_timer_id := 0 }
      ∧ (∃ method, (bcast_sink_transport_timer_cb U adapter device).2.2
          = [.event LM_ADAPTER_BCAST_DISCOVERED_IND LM_STATUS_SUCCESS
              (.bcast_discovered device.path method
                (lm_device_get_transports device .LM_TRANSPORT_PROFILE_BAP_BCAST_SINK))])
      ∧ count_events LM_ADAPTER_BCAST_DISCOVERED_IND
          (bcast_sink_transport_timer_cb U adapter device).2.2 = 1) := by
  constructor
  · intro h
    simp [bcast_sink_transport_timer_cb, h]
  · intro h
    have hl : ¬ (lm_device_get_transports device
        .LM_TRANSPORT_PROFILE_BAP_BCAST_SINK).length = 0 := by
      intro h0
      exact h (List.length_eq_zero.mp h0)
    unfold bcast_sink_transport_timer_cb
    simp only [hl, if_false]
    refine ⟨trivial, trivial, ⟨_, rfl⟩, ?_⟩
    simp [count_events, lm_effect.is_event]

/-- C16 amended, at the device `/a/d` with and without a broadcast sink
transport. -/
theorem C16_bcast_timer_cb_witness :
    bcast_sink_transport_timer_cb sig_uuids example_adapter example_device_timer_armed
      = (true, example_device_timer_armed, [])
    ∧ (bcast_sink_transport_timer_cb sig_uuids example_adapter example_device_bcast).1 = false
    ∧ (bcast_sink_transport_timer_cb sig_uuids example_adapter
        example_device_bcast).2.1.bcast_transport_timer_id = 0
    ∧ count_events LM_ADAPTER_BCAST_DISCOVERED_IND
        (bcast_sink_transport_timer_cb sig_uuids example_adapter example_device_bcast).2.2 = 1 :=
  ⟨(C16_bcast_timer_cb sig_uuids example_adapter example_device_timer_armed).1 (by decide),
   ((C16_bcast_timer_cb sig_uuids example_adapter example_device_bcast).2 (by decide)).1,
   by decide,
   ((C16_bcast_timer_cb sig_uuids example_adapter example_device_bcast).2 (by decide)).2.2.2⟩

/-! ## The connected devices of an adapter -/

theorem lm_adapter_get_connected_devices_eq (U : lm_uuids) (adapter : lm_adapter) :
    lm_adapter_get_connected_devices U adapter
      = (adapter.device_cache.filter (fun e =>
          decide (lm_device_get_connection_state e.2 = .LM_DEVICE_CONNECTED)
            && !lm_device_is_special_device U e.2)).map (fun e => e.2) := by
  unfold lm_adapter_get_connected_devices g_hash_table_get_values
  rw [List.filter_map]
  rfl

/-- C12: `lm_adapter_get_connected_devices` returns one element for each entry
of the device map whose device is in connection state connected and has no
broadcast announcement UUID among its UUIDs, in the order of the map, and nothing
else: a device is in the result exactly when it is such a device of the map, a
special device is never in the result, and when the map has each key once and
stores each device under its path, no device and no path occurs twice in the
result. -/
theorem C12_connected_devices (U : lm_uuids) (adapter : lm_adapter) :
    lm_adapter_get_connected_devices U adapter
      = (adapter.device_cache.filter (fun e =>
          decide (e.2.connection_state = .LM_DEVICE_CONNECTED)
            && !lm_device_is_special_device U e.2)).map (fun e => e.2)
    ∧ (∀ device, device ∈ lm_adapter_get_connected_devices U adapter
        ↔ device ∈ g_hash_table_get_values adapter.device_cache
          ∧ device.connection_state = .LM_DEVICE_CONNECTED
          ∧ U.BCAST_AUDIO_AUNOUNCEMENT_SERVICE_UUID ∉ device.uuids)
    ∧ (∀ device, lm_device_is_special_device U device = true →
        device ∉ lm_adapter_get_connected_devices U adapter)
    ∧ ((g_hash_table_get_keys adapter.device_cache).Nodup →
        (∀ e ∈ adapter.device_cache, e.2.path = e.1) →
        ((lm_adapter_get_connected_devices U adapter).map (fun device => device.path)).Nodup
        ∧ (lm_adapter_get_connected_devices U adapter).Nodup) := by
  have hsp : ∀ device : lm_device, lm_device_is_special_device U device = true
      ↔ U.BCAST_AUDIO_AUNOUNCEMENT_SERVICE_UUID ∈ device.uuids := by
    intro device
    simp [lm_device_is_special_device, List.any_eq_true]
  have heq := lm_adapter_get_connected_devices_eq U adapter
  simp only [lm_device_get_connection_state] at heq
  have hmem : ∀ device, device ∈ lm_adapter_get_connected_devices U adapter
      ↔ device ∈ g_hash_table_get_values adapter.device_cache
        ∧ device.connection_state = .LM_DEVICE_CONNECTED
        ∧ U.BCAST_AUDIO_AUNOUNCEMENT_SERVICE_UUID ∉ device.uuids := by
    intro device
    rw [← hsp]
    unfold lm_adapter_get_connected_devices
    simp [List.mem_filter, lm_device_get_connection_state]
  refine ⟨heq, hmem, ?_, ?_⟩
  · intro device hs hin
    exact ((hmem device).mp hin).2.2 ((hsp device).mp hs)
  · intro hnodup hpath
    have hp : ((lm_adapter_get_connected_devices U adapter).map
        (fun device => device.path)).Nodup := by
      rw [heq, List.map_map]
      have hc : ∀ e ∈ adapter.device_cache.filter (fun e =>
          decide (e.2.connection_state = .LM_DEVICE_CONNECTED)
            && !lm_device_is_special_device U e.2),
          ((fun device : lm_device => device.path) ∘ fun e : String × lm_device => e.2) e
            = (fun e : String × lm_device => e.1) e := by
        intro e he
        exact hpath e (List.mem_of_mem_filter he)
      rw [List.map_congr_left hc]
      exact List.Nodup.sublist (List.Sublist.map _ (List.filter_sublist _)) hnodup
    exact ⟨hp, List.Nodup.of_map _ hp⟩

/-- C12 at the adapter `/a` with a connected device, a connected special device
and a disconnected device: only the first is returned. -/
theorem C12_connected_devices_witness :
    (g_hash_table_get_keys example_adapter_devices.device_cache).Nodup
    ∧ (lm_adapter_get_connected_devices sig_uuids example_adapter_devices).map
        (fun device => device.path) = ["/a/d"]
    ∧ ((lm_adapter_get_connected_devices sig_uuids example_adapter_devices).map
        (fun device => device.path)).Nodup :=
  ⟨by decide, by decide,
    ((C12_connected_devices sig_uuids example_adapter_devices).2.2.2
      (by decide) (by decide)).1⟩

/-! ## Connected and Disconnected signals -/

theorem g_hash_table_lookup_append_fresh {V : Type} (t : GHashTable V) (key : String) (v : V)
    (h : g_hash_table_lookup t key = none) (p : String) :
    g_hash_table_lookup (t ++ [(key, v)]) p
      = if p = key then some v else g_hash_table_lookup t p := by
  unfold g_hash_table_lookup at h ⊢
  rw [List.find?_append]
  by_cases hp : p = key
  · subst hp
    have hf : List.find? (fun e : String × V => e.1 == p) t = none := by
      cases hf : List.find? (fun e : String × V => e.1 == p) t with
      | none => rfl
      | some e => simp [hf] at h
    simp [hf]
  · have hk : ¬ key = p := fun e => hp e.symm
    simp [hp, hk]

theorem g_hash_table_insert_fresh {V : Type} (t : GHashTable V) (key : String) (v : V)
    (h : g_hash_table_lookup t key = none) :
    g_hash_table_insert t key v = t ++ [(key, v)] := by
  have hc : g_hash_table_contains t key = false := by
    rw [← g_hash_table_lookup_isSome, h]
    rfl
  unfold g_hash_table_insert
  simp [hc]

/-- The device that a `Connected` or `Disconnected` signal looks up or creates is
special exactly when a special device is cached under the path, and the cache
afterwards holds the same `conn_bearer` for every path. -/
theorem lm_adapter_lookup_or_create_device_spec (U : lm_uuids) (adapter : lm_adapter)
    (object_path : String) :
    lm_device_is_special_device U (lm_adapter_lookup_or_create_device adapter object_path).2
      = lm_adapter_device_is_special U adapter object_path
    ∧ ∀ p, lm_adapter_device_conn_bearer
        (lm_adapter_lookup_or_create_device adapter object_path).1 p
      = lm_adapter_device_conn_bearer adapter p := by
  unfold lm_adapter_lookup_or_create_device lm_adapter_device_is_special
  cases hl : g_hash_table_lookup adapter.device_cache object_path with
  | some device => exact ⟨rfl, fun p => rfl⟩
  | none =>
    refine ⟨rfl, fun p => ?_⟩
    show lm_adapter_device_conn_bearer { adapter with device_cache := (g_hash_table_insert adapter.device_cache object_path (lm_device_create_with_path adapter.path object_path)) } p = _
    unfold lm_adapter_device_conn_bearer
    simp only []
    rw [g_hash_table_insert_fresh _ _ _ hl, g_hash_table_lookup_append_fresh _ _ _ hl]
    by_cases hp : p = object_path
    · subst hp
      rw [if_pos rfl, hl]
      rfl
    · rw [if_neg hp]

theorem on_device_connected_spec (U : lm_uuids) (adapter : lm_adapter) (object_path : String)
    (dict : List (String × String)) :
    (lm_connection_signal_indicated U adapter object_path dict = true →
      ∃ payload, (on_device_connected U adapter object_path dict).2
        = [.event LM_DEVICE_CONNECTED_IND LM_STATUS_SUCCESS payload])
    ∧ (lm_connection_signal_indicated U adapter object_path dict = false →
      (on_device_connected U adapter object_path dict).2 = []
      ∧ ∀ p, lm_adapter_device_conn_bearer (on_device_connected U adapter object_path dict).1 p
        = lm_adapter_device_conn_bearer adapter p) := by
  have hspec := lm_adapter_lookup_or_create_device_spec U adapter object_path
  unfold lm_connection_signal_indicated on_device_connected
  cases hb : lm_signal_dict_string "bearer" dict with
  | none => exact ⟨fun h => by simp at h, fun _ => ⟨rfl, fun p => rfl⟩⟩
  | some bearer =>
    simp only []
    rw [← hspec.1]
    cases hs : lm_device_is_special_device U
        (lm_adapter_lookup_or_create_device adapter object_path).2 with
    | true =>
      simp only [Bool.not_true, Bool.and_false, if_true]
      exact ⟨fun h => by simp at h, fun _ => ⟨trivial, hspec.2⟩⟩
    | false =>
      by_cases hle : bearer = "le"
      · simp [hle]
      · by_cases hbr : bearer = "bredr"
        · simp [hbr]
        · simp only [hle, hbr, if_false]
          exact ⟨fun h => by simp [hle, hbr] at h, fun _ => ⟨rfl, hspec.2⟩⟩

theorem on_device_disconnected_spec (U : lm_uuids) (adapter : lm_adapter)
    (object_path : String) (dict : List (String × String)) :
    (lm_connection_signal_indicated U adapter object_path dict = true →
      ∃ payload, (on_device_disconnected U adapter object_path dict).2
        = [.event LM_DEVICE_DISCONNECTED_IND LM_STATUS_SUCCESS payload])
    ∧ (lm_connection_signal_indicated U adapter object_path dict = false →
      (on_device_disconnected U adapter object_path dict).2 = []
      ∧ ∀ p, lm_adapter_device_conn_bearer
          (on_device_disconnected U adapter object_path dict).1 p
        = lm_adapter_device_conn_bearer adapter p) := by
  have hspec := lm_adapter_lookup_or_create_device_spec U adapter object_path
  unfold lm_connection_signal_indicated on_device_disconnected
  cases hb : lm_signal_dict_string "bearer" dict with
  | none => exact ⟨fun h => by simp at h, fun _ => ⟨rfl, fun p => rfl⟩⟩
  | some bearer =>
    simp only []
    rw [← hspec.1]
    cases hs : lm_device_is_special_device U
        (lm_adapter_lookup_or_create_device adapter object_path).2 with
    | true =>
      simp only [Bool.not_true, Bool.and_false, if_true]
      exact ⟨fun h => by simp at h, fun _ => ⟨trivial, hspec.2⟩⟩
    | false =>
      by_cases hle : bearer = "le"
      · simp [hle]
      · by_cases hbr : bearer = "bredr"
        · simp [hbr]
        · simp only [hle, hbr, if_false]
          exact ⟨fun h => by simp [hle, hbr] at h, fun _ => ⟨rfl, hspec.2⟩⟩

/-- C11: a `Connected` (resp. `Disconnected`) signal for a path whose dictionary
carries the bearer tag `"le"` or `"bredr"`, for a device that is not special,
emits exactly one event and it is `LM_DEVICE_CONNECTED_IND` (resp.
`LM_DEVICE_DISCONNECTED_IND`); any other signal (special device, unknown or
missing bearer tag) emits nothing and leaves the `conn_bearer` bitmask of every
device as it was. -/
theorem C11_connection_indications (U : lm_uuids) (adapter : lm_adapter)
    (object_path : String) (dict : List (String × String)) :
    (lm_connection_signal_indicated U adapter object_path dict = true →
      ((on_device_connected U adapter object_path dict).2.length = 1
        ∧ count_events LM_DEVICE_CONNECTED_IND
            (on_device_connected U adapter object_path dict).2 = 1)
      ∧ ((on_device_disconnected U adapter object_path dict).2.length = 1
        ∧ count_events LM_DEVICE_DISCONNECTED_IND
            (on_device_disconnected U adapter object_path dict).2 = 1))
    ∧ (lm_connection_signal_indicated U adapter object_path dict = false →
      ((on_device_connected U adapter object_path dict).2 = []
        ∧ ∀ p, lm_adapter_device_conn_bearer
            (on_device_connected U adapter object_path dict).1 p
          = lm_adapter_device_conn_bearer adapter p)
      ∧ ((on_device_disconnected U adapter object_path dict).2 = []
        ∧ ∀ p, lm_adapter_device_conn_bearer
            (on_device_disconnected U adapter object_path dict).1 p
          = lm_adapter_device_conn_bearer adapter p)) := by
  have hc := on_device_connected_spec U adapter object_path dict
  have hd := on_device_disconnected_spec U adapter object_path dict
  constructor
  · intro h
    obtain ⟨pc, hpc⟩ := hc.1 h
    obtain ⟨pd, hpd⟩ := hd.1 h
    rw [hpc, hpd]
    simp [count_events, lm_effect.is_event]
  · intro h
    exact ⟨hc.2 h, hd.2 h⟩

/-- C11 at the adapter `/a`: a `Connected` signal over LE for the device `/a/d`
is indicated once; one for the special device `/a/e` and a `Disconnected` signal
with the bearer tag `"usb"` for `/a/d` are not, and the bitmask of the device
stays 1. -/
theorem C11_connection_indications_witness :
    count_events LM_DEVICE_CONNECTED_IND
      (on_device_connected sig_uuids example_adapter_bearers "/a/d" [("bearer", "le")]).2 = 1
    ∧ (on_device_connected sig_uuids example_adapter_bearers "/a/e" [("bearer", "le")]).2 = []
    ∧ (on_device_disconnected sig_uuids example_adapter_bearers "/a/d" [("bearer", "usb")]).2
      = []
    ∧ lm_adapter_device_conn_bearer
      (on_device_disconnected sig_uuids example_adapter_bearers "/a/d" [("bearer", "usb")]).1
      "/a/d" = 1 :=
  ⟨((C11_connection_indications sig_uuids example_adapter_bearers "/a/d" [("bearer", "le")]).1
      (by decide)).1.2,
   ((C11_connection_indications sig_uuids example_adapter_bearers "/a/e" [("bearer", "le")]).2
      (by decide)).1.1,
   ((C11_connection_indications sig_uuids example_adapter_bearers "/a/d" [("bearer", "usb")]).2
      (by decide)).2.1,
   (((C11_connection_indications sig_uuids example_adapter_bearers "/a/d"
      [("bearer", "usb")]).2 (by decide)).2.2 "/a/d").trans (by decide)⟩

/-! ## The loss of the last broadcast sink transport -/

theorem count_events_active_change_event (msg added removed updated : Nat)
    (ind : Option String → lm_buf) (before after : Option String)
    (ha : added ≠ msg) (hr : removed ≠ msg) (hu : updated ≠ msg) :
    count_events msg [active_change_event added removed updated ind before after] = 0 := by
  unfold active_change_event
  cases before <;> cases after <;> simp [count_events, lm_effect.is_event, ha, hr, hu]

theorem lm_device_update_active_transport_no_event (device : lm_device) (msg : Nat)
    (ha : LM_TRANSPORT_ADDED_IND ≠ msg) (hr : LM_TRANSPORT_REMOVED_IND ≠ msg)
    (hu : LM_TRANSPORT_UPDATE_IND ≠ msg) :
    count_events msg (lm_device_update_active_transport device).2 = 0 := by
  rw [lm_device_update_active_transport_eq]
  split
  · rfl
  · exact count_events_active_change_event msg _ _ _ _ _ _ ha hr hu

theorem lm_device_update_active_player_no_event (device : lm_device) (msg : Nat)
    (ha : LM_PLAYER_ADDED_IND ≠ msg) (hr : LM_PLAYER_REMOVED_IND ≠ msg)
    (hu : LM_PLAYER_UPDATE_IND ≠ msg) :
    count_events msg (lm_device_update_active_player device).2 = 0 := by
  rw [lm_device_update_active_player_eq]
  split
  · rfl
  · exact count_events_active_change_event msg _ _ _ _ _ _ ha hr hu

theorem lm_device_update_active_player_transports (device : lm_device) :
    (lm_device_update_active_player device).1.transports = device.transports := by
  rw [lm_device_update_active_player_eq]
  split <;> rfl

theorem g_hash_table_lookup_remove_self {V : Type} (t : GHashTable V) (key : String) :
    g_hash_table_lookup (g_hash_table_remove t key) key = none := by
  rw [g_hash_table_lookup_eq_none, g_hash_table_keys_remove]
  simp

theorem lm_device_find_transport_eq_none (device : lm_device)
    (profile : lm_transport_profile_t) :
    lm_device_find_transport device profile = none
      ↔ (g_hash_table_get_values device.transports).all (fun t => t.profile != profile)
          = true := by
  unfold lm_device_find_transport lm_transport_get_profile
  simp [List.find?_eq_none, List.all_eq_true]

theorem lm_device_on_interface_disappeared_entry_transport (device : lm_device)
    (object : String) (hp : g_str_has_prefix object device.path = true) :
    count_events LM_DEVICE_BCAST_SYNC_LOST_IND
        (lm_device_on_interface_disappeared_entry object device .INTERFACE_MEDIA_TRANSPORT).2
      = (if lm_device_is_last_bcast_transport device object = true then 1 else 0)
    ∧ (lm_device_on_interface_disappeared_entry object device .INTERFACE_MEDIA_TRANSPORT).1.path
      = device.path
    ∧ lm_device_is_last_bcast_transport
        (lm_device_on_interface_disappeared_entry object device .INTERFACE_MEDIA_TRANSPORT).1
        object = false := by
  unfold lm_device_on_interface_disappeared_entry
  simp only [hp, Bool.not_true, Bool.false_eq_true, if_false]
  cases hl : g_hash_table_lookup device.transports object with
  | none =>
    have hlast : lm_device_is_last_bcast_transport device object = false := by
      unfold lm_device_is_last_bcast_transport
      rw [hl]
    simp only [hlast]
    exact ⟨rfl, trivial, trivial⟩
  | some transport =>
    have hf := lm_device_update_active_transport_frame
      { device with transports := g_hash_table_remove device.transports object }
    have hno := lm_device_update_active_transport_no_event
      { device with transports := g_hash_table_remove device.transports object }
      LM_DEVICE_BCAST_SYNC_LOST_IND (by decide) (by decide) (by decide)
    have hfind : lm_device_find_transport (lm_device_update_active_transport
          { device with transports := g_hash_table_remove device.transports object }).1
          .LM_TRANSPORT_PROFILE_BAP_BCAST_SINK = none
        ↔ (g_hash_table_get_values (g_hash_table_remove device.transports object)).all
            (fun t => t.profile != .LM_TRANSPORT_PROFILE_BAP_BCAST_SINK) = true := by
      rw [lm_device_find_transport_eq_none, hf.2.2.2]
    have hafter : ∀ d : lm_device,
        d.transports = g_hash_table_remove device.transports object →
        lm_device_is_last_bcast_transport d object = false := by
      intro d hd
      unfold lm_device_is_last_bcast_transport
      rw [hd, g_hash_table_lookup_remove_self]
    have hlast : lm_device_is_last_bcast_transport device object
        = (transport.profile == .LM_TRANSPORT_PROFILE_BAP_BCAST_SINK
          && (g_hash_table_get_values (g_hash_table_remove device.transports object)).all
              (fun t => t.profile != .LM_TRANSPORT_PROFILE_BAP_BCAST_SINK)) := by
      unfold lm_device_is_last_bcast_transport
      rw [hl]
    rw [hlast]
    simp only [lm_transport_get_profile]
    by_cases hprof : transport.profile = .LM_TRANSPORT_PROFILE_BAP_BCAST_SINK
    · by_cases hall : (g_hash_table_get_values
          (g_hash_table_remove device.transports object)).all
            (fun t => t.profile != .LM_TRANSPORT_PROFILE_BAP_BCAST_SINK) = true
      · have hn := hfind.mpr hall
        rw [if_pos ⟨hprof, hn⟩]
        refine ⟨?_, hf.2.1, hafter _ hf.2.2.2⟩
        rw [count_events_append, hno]
        simp [hprof, hall, count_events, lm_effect.is_event]
      · have hn : ¬ lm_device_find_transport (lm_device_update_active_transport
            { device with transports := g_hash_table_remove device.transports object }).1
            .LM_TRANSPORT_PROFILE_BAP_BCAST_SINK = none := fun h => hall (hfind.mp h)
        rw [if_neg (fun h => hn h.2)]
        refine ⟨?_, hf.2.1, hafter _ hf.2.2.2⟩
        rw [hno]
        simp [hprof, hall]
    · rw [if_neg (fun h => hprof h.1)]
      refine ⟨?_, hf.2.1, hafter _ hf.2.2.2⟩
      rw [hno]
      simp [hprof]

theorem lm_device_on_interface_disappeared_entry_other (device : lm_device)
    (object : String) (i : lm_interface_removed) (hi : i.is_media_transport = false) :
    count_events LM_DEVICE_BCAST_SYNC_LOST_IND
        (lm_device_on_interface_disappeared_entry object device i).2 = 0
    ∧ (lm_device_on_interface_disappeared_entry object device i).1.path = device.path
    ∧ (lm_device_on_interface_disappeared_entry object device i).1.transports
      = device.transports := by
  cases i with
  | INTERFACE_MEDIA_TRANSPORT => simp [lm_interface_removed.is_media_transport] at hi
  | INTERFACE_DEVICE => exact ⟨rfl, rfl, rfl⟩
  | other name => exact ⟨rfl, rfl, rfl⟩
  | INTERFACE_MEDIA_PLAYER =>
    unfold lm_device_on_interface_disappeared_entry
    by_cases hp : g_str_has_prefix object device.path = true
    · simp only [hp, Bool.not_true, Bool.false_eq_true, if_false]
      cases hl : g_hash_table_lookup device.players object with
      | none => exact ⟨rfl, rfl, rfl⟩
      | some player =>
        exact ⟨lm_device_update_active_player_no_event _ _ (by decide) (by decide) (by decide),
          (lm_device_update_active_player_frame _).2.1,
          lm_device_update_active_player_transports _⟩
    · have hp' : g_str_has_prefix object device.path = false := by
        cases h : g_str_has_prefix object device.path with
        | true => exact absurd h hp
        | false => rfl
      simp only [hp', Bool.not_false, if_true]
      exact ⟨rfl, trivial, trivial⟩

theorem lm_device_is_last_bcast_transport_congr (d₁ d₂ : lm_device) (object : String)
    (h : d₁.transports = d₂.transports) :
    lm_device_is_last_bcast_transport d₁ object
      = lm_device_is_last_bcast_transport d₂ object := by
  unfold lm_device_is_last_bcast_transport
  rw [h]

theorem lm_device_on_interface_disappeared_sync_lost (device : lm_device) (object : String)
    (interfaces : List lm_interface_removed)
    (hp : g_str_has_prefix object device.path = true) :
    count_events LM_DEVICE_BCAST_SYNC_LOST_IND
        (lm_device_on_interface_disappeared device object interfaces).2
      = (if interfaces.any lm_interface_removed.is_media_transport = true
            ∧ lm_device_is_last_bcast_transport device object = true then 1 else 0) := by
  induction interfaces generalizing device with
  | nil => simp [lm_device_on_interface_disappeared, count_events]
  | cons i is ih =>
    unfold lm_device_on_interface_disappeared
    simp only []
    rw [count_events_append]
    cases hi : i.is_media_transport with
    | false =>
      have h := lm_device_on_interface_disappeared_entry_other device object i hi
      rw [h.1, ih _ (by rw [h.2.1]; exact hp),
        lm_device_is_last_bcast_transport_congr _ device object h.2.2]
      simp [hi]
    | true =>
      have hi' : i = .INTERFACE_MEDIA_TRANSPORT := by
        cases i <;> simp [lm_interface_removed.is_media_transport] at hi
        rfl
      subst hi'
      have h := lm_device_on_interface_disappeared_entry_transport device object hp
      rw [h.1, ih _ (by rw [h.2.1]; exact hp), h.2.2]
      simp [lm_interface_removed.is_media_transport]

/-- C15: an `InterfacesRemoved` signal that lists the media transport interface
for a path under the device emits exactly one `LM_DEVICE_BCAST_SYNC_LOST_IND`
when the path is cached in the transport map, the profile of the transport
removed is broadcast sink and the map holds no broadcast sink transport
afterwards; when the path is not cached, or the profile is another one, or a
broadcast sink transport remains, it emits none. -/
theorem C15_bcast_sync_lost (device : lm_device) (object : String)
    (interfaces : List lm_interface_removed)
    (hp : g_str_has_prefix object device.path = true)
    (ht : interfaces.any lm_interface_removed.is_media_transport = true) :
    count_events LM_DEVICE_BCAST_SYNC_LOST_IND
        (lm_device_on_interface_disappeared device object interfaces).2
      = (if lm_device_is_last_bcast_transport device object = true then 1 else 0)
    ∧ (g_hash_table_lookup device.transports object = none →
        count_events LM_DEVICE_BCAST_SYNC_LOST_IND
          (lm_device_on_interface_disappeared device object interfaces).2 = 0)
    ∧ (∀ transport, g_hash_table_lookup device.transports object = some transport →
        transport.profile ≠ .LM_TRANSPORT_PROFILE_BAP_BCAST_SINK →
        count_events LM_DEVICE_BCAST_SYNC_LOST_IND
          (lm_device_on_interface_disappeared device object interfaces).2 = 0)
    ∧ (∀ e ∈ g_hash_table_remove device.transports object,
        e.2.profile = .LM_TRANSPORT_PROFILE_BAP_BCAST_SINK →
        count_events LM_DEVICE_BCAST_SYNC_LOST_IND
          (lm_device_on_interface_disappeared device object interfaces).2 = 0)
    ∧ (∀ transport, g_hash_table_lookup device.transports object = some transport →
        transport.profile = .LM_TRANSPORT_PROFILE_BAP_BCAST_SINK →
        (∀ e ∈ g_hash_table_remove device.transports object,
          e.2.profile ≠ .LM_TRANSPORT_PROFILE_BAP_BCAST_SINK) →
        count_events LM_DEVICE_BCAST_SYNC_LOST_IND
          (lm_device_on_interface_disappeared device object interfaces).2 = 1) := by
  have h := lm_device_on_interface_disappeared_sync_lost device object interfaces hp
  rw [ht] at h
  simp only [true_and] at h
  refine ⟨h, ?_, ?_, ?_, ?_⟩
  · intro hl
    rw [h]
    simp [lm_device_is_last_bcast_transport, hl]
  · intro transport hl hprof
    rw [h]
    simp [lm_device_is_last_bcast_transport, hl, hprof]
  · intro e he hprof
    rw [h]
    have hall : (g_hash_table_get_values (g_hash_table_remove device.transports object)).all
        (fun t => t.profile != .LM_TRANSPORT_PROFILE_BAP_BCAST_SINK) = false := by
      rw [Bool.eq_false_iff]
      intro hall
      rw [List.all_eq_true] at hall
      have := hall e.2 (by
        unfold g_hash_table_get_values
        exact List.mem_map_of_mem _ he)
      simp [hprof] at this
    unfold lm_device_is_last_bcast_transport
    cases hl : g_hash_table_lookup device.transports object with
    | none => simp
    | some transport => simp [hall]
  · intro transport hl hprof hrest
    rw [h]
    have hall : (g_hash_table_get_values (g_hash_table_remove device.transports object)).all
        (fun t => t.profile != .LM_TRANSPORT_PROFILE_BAP_BCAST_SINK) = true := by
      rw [List.all_eq_true]
      intro t ht'
      unfold g_hash_table_get_values at ht'
      obtain ⟨e, he, rfl⟩ := List.mem_map.mp ht'
      simpa using hrest e he
    simp [lm_device_is_last_bcast_transport, hl, hprof, hall]

/-- C15 at the device `/a/d`: the removal of its only broadcast sink transport
emits one sync-lost event; with two broadcast sink transports the removal of
the first emits none. -/
theorem C15_bcast_sync_lost_witness :
    count_events LM_DEVICE_BCAST_SYNC_LOST_IND
      (lm_device_on_interface_disappeared example_device_bcast "/a/d/bis1"
        [.INTERFACE_MEDIA_TRANSPORT]).2 = 1
    ∧ count_events LM_DEVICE_BCAST_SYNC_LOST_IND
      (lm_device_on_interface_disappeared example_device_two_bcast "/a/d/bis1"
        [.INTERFACE_MEDIA_TRANSPORT]).2 = 0 :=
  ⟨(C15_bcast_sync_lost example_device_bcast "/a/d/bis1" [.INTERFACE_MEDIA_TRANSPORT]
      (by decide) (by decide)).1.trans (by decide),
   (C15_bcast_sync_lost example_device_two_bcast "/a/d/bis1" [.INTERFACE_MEDIA_TRANSPORT]
      (by decide) (by decide)).1.trans (by decide)⟩

/-! ## The sync-up event of a device -/

theorem count_events_lm_transport_active_event (active_transport : Option String)
    (transport : lm_transport) (msg m : Nat) (h : msg ≠ m) :
    count_events m (lm_transport_active_event active_transport transport msg) = 0 := by
  unfold lm_transport_active_event
  cases transport.device with
  | none => rfl
  | some d =>
    by_cases ha : active_transport = some transport.path
    · simp [ha, count_events, lm_effect.is_event, h]
    · simp [ha, count_events]

theorem lm_transport_update_property_no_event (U : lm_uuids)
    (active_transport : Option String) (transport : lm_transport)
    (p : lm_transport_property) (m : Nat)
    (hs : LM_TRANSPORT_STATE_CHANGE_IND ≠ m) (hv : LM_TRANSPORT_VOLUME_CHANGE_IND ≠ m)
    (hq : LM_TRANSPORT_QOS_UPDATE_IND ≠ m) :
    count_events m (lm_transport_update_property U active_transport transport p).2 = 0 := by
  cases p <;>
    first
    | rfl
    | exact count_events_lm_transport_active_event _ _ _ _ hs
    | exact count_events_lm_transport_active_event _ _ _ _ hv
    | exact count_events_lm_transport_active_event _ _ _ _ hq

theorem lm_transport_update_properties_no_event (U : lm_uuids)
    (active_transport : Option String) (transport : lm_transport)
    (ps : List lm_transport_property) (m : Nat)
    (hs : LM_TRANSPORT_STATE_CHANGE_IND ≠ m) (hv : LM_TRANSPORT_VOLUME_CHANGE_IND ≠ m)
    (hq : LM_TRANSPORT_QOS_UPDATE_IND ≠ m) :
    count_events m (lm_transport_update_properties U active_transport transport ps).2 = 0 := by
  induction ps generalizing transport with
  | nil => rfl
  | cons p ps ih =>
    unfold lm_transport_update_properties
    simp only []
    rw [count_events_append, ih, lm_transport_update_property_no_event U _ _ _ m hs hv hq]

theorem count_events_event_self (m status : Nat) (buf : lm_buf) :
    count_events m [.event m status buf] = 1 := by
  simp [count_events, lm_effect.is_event]

/-- One signal: the sync-up event is emitted exactly when the signal moves a
broadcast sink transport to active and the latch is not set, and the latch is
set afterwards exactly when it was set or the event was emitted. -/
theorem on_transport_prop_changed_sync_up (U : lm_uuids) (device : lm_device)
    (s : String × List lm_transport_property) :
    count_events LM_DEVICE_BCAST_SYNC_UP_IND (on_transport_prop_changed U device s.1 s.2).2
      = (if lm_transport_signal_syncs U device s = true ∧ device.bcast_sync_notified = false
          then 1 else 0)
    ∧ (on_transport_prop_changed U device s.1 s.2).1.bcast_sync_notified
      = (device.bcast_sync_notified || lm_transport_signal_syncs U device s) := by
  unfold on_transport_prop_changed lm_transport_signal_syncs
  cases hp : g_str_has_prefix s.1 device.path with
  | false => simp [count_events]
  | true =>
    simp only [Bool.not_true, Bool.false_eq_true, if_false, Bool.true_and]
    cases hl : g_hash_table_lookup device.transports s.1 with
    | none => simp [count_events]
    | some transport =>
      have hno := lm_transport_update_properties_no_event U device.active_transport transport
        s.2 LM_DEVICE_BCAST_SYNC_UP_IND (by decide) (by decide) (by decide)
      simp only [lm_transport_get_state, lm_transport_get_profile]
      by_cases hnew : lm_transport_string_to_state
          (lm_transport_update_properties U device.active_transport transport s.2).1.state
          = .LM_TRANSPORT_ACTIVE
      · by_cases hold : lm_transport_string_to_state transport.state = .LM_TRANSPORT_ACTIVE
        · simp [hnew, hold, hno]
        · by_cases hprof : (lm_transport_update_properties U device.active_transport
              transport s.2).1.profile = .LM_TRANSPORT_PROFILE_BAP_BCAST_SINK
          · cases hlatch : device.bcast_sync_notified with
            | true => simp [hnew, hold, hprof, hno]
            | false =>
              simp [hnew, hold, hprof, count_events_append, hno, count_events_event_self]
          · simp [hnew, hold, hprof, hno]
      · simp [hnew, hno]

theorem lm_device_transport_signals_append (U : lm_uuids) (device : lm_device)
    (pre post : List (String × List lm_transport_property)) :
    lm_device_transport_signals U device (pre ++ post)
      = ((lm_device_transport_signals U (lm_device_transport_signals U device pre).1 post).1,
          (lm_device_transport_signals U device pre).2
            ++ (lm_device_transport_signals U (lm_device_transport_signals U device pre).1
                post).2) := by
  induction pre generalizing device with
  | nil => simp [lm_device_transport_signals]
  | cons s ss ih =>
    have h := ih (on_transport_prop_changed U device s.1 s.2).1
    show ((lm_device_transport_signals U (on_transport_prop_changed U device s.1 s.2).1
        (ss ++ post)).1, (on_transport_prop_changed U device s.1 s.2).2
          ++ (lm_device_transport_signals U (on_transport_prop_changed U device s.1 s.2).1
            (ss ++ post)).2) = _
    rw [h]
    simp [lm_device_transport_signals, List.append_assoc]

theorem lm_device_transport_signals_latched (U : lm_uuids) (device : lm_device)
    (signals : List (String × List lm_transport_property))
    (h : device.bcast_sync_notified = true) :
    count_events LM_DEVICE_BCAST_SYNC_UP_IND (lm_device_transport_signals U device signals).2
      = 0 := by
  induction signals generalizing device with
  | nil => rfl
  | cons s ss ih =>
    have hs := on_transport_prop_changed_sync_up U device s
    simp only [lm_device_transport_signals]
    rw [count_events_append, hs.1, ih _ (by rw [hs.2, h]; rfl)]
    simp [h]

theorem lm_device_transport_signals_no_syncs (U : lm_uuids) (device : lm_device)
    (signals : List (String × List lm_transport_property))
    (h : lm_no_transport_signal_syncs U device signals = true) :
    count_events LM_DEVICE_BCAST_SYNC_UP_IND (lm_device_transport_signals U device signals).2
      = 0
    ∧ (lm_device_transport_signals U device signals).1.bcast_sync_notified
      = device.bcast_sync_notified := by
  induction signals generalizing device with
  | nil => exact ⟨rfl, rfl⟩
  | cons s ss ih =>
    have hs := on_transport_prop_changed_sync_up U device s
    simp only [lm_no_transport_signal_syncs, Bool.and_eq_true, Bool.not_eq_true',
      ] at h
    have ht := ih _ h.2
    simp only [lm_device_transport_signals]
    rw [count_events_append, hs.1, ht.1, ht.2, hs.2, h.1]
    simp

theorem lm_device_transport_signals_le_one (U : lm_uuids) (device : lm_device)
    (signals : List (String × List lm_transport_property)) :
    count_events LM_DEVICE_BCAST_SYNC_UP_IND (lm_device_transport_signals U device signals).2
      ≤ 1 := by
  induction signals generalizing device with
  | nil => simp [lm_device_transport_signals, count_events]
  | cons s ss ih =>
    have hs := on_transport_prop_changed_sync_up U device s
    simp only [lm_device_transport_signals]
    rw [count_events_append, hs.1]
    by_cases hc : lm_transport_signal_syncs U device s = true
        ∧ device.bcast_sync_notified = false
    · rw [if_pos hc, lm_device_transport_signals_latched U _ ss (by rw [hs.2, hc.1]; simp)]
    · rw [if_neg hc, Nat.zero_add]
      exact ih _

/-- C14: over any sequence of transport `PropertiesChanged` signals delivered to
a device at most one `LM_DEVICE_BCAST_SYNC_UP_IND` is emitted.  For a device whose
latch `bcast_sync_notified` is not set (as after `lm_device_create_with_path`) it
is emitted at the first signal that moves a broadcast sink transport from a state
other than active to active: the signals before it emit none, this signal emits
one, the signals after it emit none, also those that move a transport to active
again.  A sequence without such a signal, or one delivered when the latch is set,
emits none. -/
theorem C14_sync_up_once (U : lm_uuids) (device : lm_device)
    (signals : List (String × List lm_transport_property)) :
    count_events LM_DEVICE_BCAST_SYNC_UP_IND (lm_device_transport_signals U device signals).2
      ≤ 1
    ∧ (device.bcast_sync_notified = false →
        ∀ pre s post, signals = pre ++ s :: post →
          lm_no_transport_signal_syncs U device pre = true →
          lm_transport_signal_syncs U (lm_device_transport_signals U device pre).1 s = true →
          count_events LM_DEVICE_BCAST_SYNC_UP_IND
              (lm_device_transport_signals U device pre).2 = 0
          ∧ count_events LM_DEVICE_BCAST_SYNC_UP_IND
              (on_transport_prop_changed U (lm_device_transport_signals U device pre).1
                s.1 s.2).2 = 1
          ∧ count_events LM_DEVICE_BCAST_SYNC_UP_IND
              (lm_device_transport_signals U
                (on_transport_prop_changed U (lm_device_transport_signals U device pre).1
                  s.1 s.2).1 post).2 = 0
          ∧ count_events LM_DEVICE_BCAST_SYNC_UP_IND
              (lm_device_transport_signals U device signals).2 = 1)
    ∧ (lm_no_transport_signal_syncs U device signals = true →
        count_events LM_DEVICE_BCAST_SYNC_UP_IND
          (lm_device_transport_signals U device signals).2 = 0)
    ∧ (device.bcast_sync_notified = true →
        count_events LM_DEVICE_BCAST_SYNC_UP_IND
          (lm_device_transport_signals U device signals).2 = 0) := by
  refine ⟨lm_device_transport_signals_le_one U device signals, ?_,
    fun h => (lm_device_transport_signals_no_syncs U device signals h).1,
    lm_device_transport_signals_latched U device signals⟩
  intro hlatch pre s post hsplit hpre hs
  have h1 := lm_device_transport_signals_no_syncs U device pre hpre
  have h2 := on_transport_prop_changed_sync_up U (lm_device_transport_signals U device pre).1 s
  have hl : (lm_device_transport_signals U device pre).1.bcast_sync_notified = false := by
    rw [h1.2, hlatch]
  have hstep : count_events LM_DEVICE_BCAST_SYNC_UP_IND
      (on_transport_prop_changed U (lm_device_transport_signals U device pre).1 s.1 s.2).2
      = 1 := by
    rw [h2.1, if_pos ⟨hs, hl⟩]
  have h3 := lm_device_transport_signals_latched U
    (on_transport_prop_changed U (lm_device_transport_signals U device pre).1 s.1 s.2).1 post
    (by rw [h2.2, hs]; simp)
  refine ⟨h1.1, hstep, h3, ?_⟩
  rw [hsplit, lm_device_transport_signals_append]
  simp only [lm_device_transport_signals]
  rw [count_events_append, count_events_append, h1.1, hstep, h3]

/-- C14 at the device `/a/d` with its broadcast sink transport in state idle:
of the four signals the second is the first to move the transport to active;
the whole sequence emits one sync-up event, at the second signal, although the
fourth moves the transport to active again. -/
theorem C14_sync_up_once_witness :
    count_events LM_DEVICE_BCAST_SYNC_UP_IND
      (lm_device_transport_signals sig_uuids example_device_bcast example_transport_signals).2
      = 1
    ∧ count_events LM_DEVICE_BCAST_SYNC_UP_IND
      (on_transport_prop_changed sig_uuids
        (lm_device_transport_signals sig_uuids example_device_bcast
          [("/a/d/bis1", [.MEDIA_TRANSPORT_PROPERTY_VOLUME 10])]).1
        "/a/d/bis1" [.MEDIA_TRANSPORT_PROPERTY_STATE "active"]).2 = 1 :=
  ⟨((C14_sync_up_once sig_uuids example_device_bcast example_transport_signals).2.1
      (by decide) [("/a/d/bis1", [.MEDIA_TRANSPORT_PROPERTY_VOLUME 10])]
      ("/a/d/bis1", [.MEDIA_TRANSPORT_PROPERTY_STATE "active"])
      [("/a/d/bis1", [.MEDIA_TRANSPORT_PROPERTY_STATE "idle"]),
        ("/a/d/bis1", [.MEDIA_TRANSPORT_PROPERTY_STATE "active"])]
      rfl (by decide) (by decide)).2.2.2,
   ((C14_sync_up_once sig_uuids example_device_bcast example_transport_signals).2.1
      (by decide) [("/a/d/bis1", [.MEDIA_TRANSPORT_PROPERTY_VOLUME 10])]
      ("/a/d/bis1", [.MEDIA_TRANSPORT_PROPERTY_STATE "active"])
      [("/a/d/bis1", [.MEDIA_TRANSPORT_PROPERTY_STATE "idle"]),
        ("/a/d/bis1", [.MEDIA_TRANSPORT_PROPERTY_STATE "active"])]
      rfl (by decide) (by decide)).2.1⟩

/-! ## Applying a property batch twice -/

/-- A loop of updates each of which either keeps a field or gives it a value
that does not depend on the state either keeps the field or gives it a value
that does not depend on the state. -/
theorem foldl_field_keep_or_const {S P F : Type} (u : S → P → S) (f : S → F)
    (h : ∀ p, (∀ s, f (u s p) = f s) ∨ (∀ s t, f (u s p) = f (u t p))) (ps : List P) :
    (∀ s, f (ps.foldl u s) = f s) ∨ (∀ s t, f (ps.foldl u s) = f (ps.foldl u t)) := by
  induction ps with
  | nil => exact Or.inl (fun _ => rfl)
  | cons p ps ih =>
    simp only [List.foldl_cons]
    rcases ih with hk | hc
    · rcases h p with hpk | hpc
      · exact Or.inl (fun s => by rw [hk, hpk])
      · exact Or.inr (fun s t => by rw [hk, hk, hpc s t])
    · exact Or.inr (fun s t => hc _ _)

/-- Running such a loop a second time leaves the field as the first run left
it. -/
theorem foldl_field_idem {S P F : Type} (u : S → P → S) (f : S → F)
    (h : ∀ p, (∀ s, f (u s p) = f s) ∨ (∀ s t, f (u s p) = f (u t p))) (ps : List P)
    (s : S) : f (ps.foldl u (ps.foldl u s)) = f (ps.foldl u s) := by
  rcases foldl_field_keep_or_const u f h ps with hk | hc
  · exact hk _
  · exact hc _ _

attribute [ext] lm_transport_qos_t lm_transport lm_player_track_t lm_player lm_device

theorem lm_transport_update_qos_twice (v : List lm_transport_qos_entry)
    (qos : lm_transport_qos_t) :
    v.foldl lm_transport_update_qos (v.foldl lm_transport_update_qos qos)
      = v.foldl lm_transport_update_qos qos := by
  apply lm_transport_qos_t.ext <;>
    (apply foldl_field_idem
     intro e
     cases e <;> first | exact Or.inl (fun _ => rfl) | exact Or.inr (fun _ _ => rfl))

theorem lm_player_update_track_twice (v : List lm_player_track_entry)
    (track : lm_player_track_t) :
    v.foldl lm_player_update_track (v.foldl lm_player_update_track track)
      = v.foldl lm_player_update_track track := by
  apply lm_player_track_t.ext <;>
    (apply foldl_field_idem
     intro e
     cases e <;> first | exact Or.inl (fun _ => rfl) | exact Or.inr (fun _ _ => rfl))

theorem foldl_field_idem_comp {S P G F : Type} (u : S → P → S) (f : S → G) (g : G → F)
    (h : ∀ p, (∀ s, g (f (u s p)) = g (f s)) ∨ (∀ s t, g (f (u s p)) = g (f (u t p))))
    (ps : List P) (s : S) : g (f (ps.foldl u (ps.foldl u s))) = g (f (ps.foldl u s)) :=
  foldl_field_idem u (fun s => g (f s)) h ps s

theorem lm_transport_update_properties_fst (U : lm_uuids) (active_transport : Option String)
    (transport : lm_transport) (ps : List lm_transport_property) :
    (lm_transport_update_properties U active_transport transport ps).1
      = ps.foldl (fun s p => (lm_transport_update_property U active_transport s p).1)
          transport := by
  induction ps generalizing transport with
  | nil => rfl
  | cons p ps ih => exact ih _

theorem lm_transport_update_properties_twice (U : lm_uuids)
    (active_transport : Option String) (transport : lm_transport)
    (ps : List lm_transport_property) :
    (lm_transport_update_properties U active_transport
        (lm_transport_update_properties U active_transport transport ps).1 ps).1
      = (lm_transport_update_properties U active_transport transport ps).1 := by
  rw [lm_transport_update_properties_fst, lm_transport_update_properties_fst]
  apply lm_transport.ext <;>
    first
    | (apply foldl_field_idem
       intro p
       cases p <;> first | exact Or.inl (fun _ => rfl) | exact Or.inr (fun _ _ => rfl))
    | (apply lm_transport_qos_t.ext <;>
        (apply foldl_field_idem_comp
         intro p
         cases p <;>
           first
           | exact Or.inl (fun _ => rfl)
           | exact Or.inr (fun _ _ => rfl)
           | exact (foldl_field_keep_or_const lm_transport_update_qos _
               (by
                 intro e
                 cases e <;>
                   first | exact Or.inl (fun _ => rfl) | exact Or.inr (fun _ _ => rfl))
               _).imp (fun h _ => h _) (fun h _ _ => h _ _)))

theorem lm_player_update_properties_fst (active_player : Option String) (player : lm_player)
    (ps : List lm_player_property) :
    (lm_player_update_properties active_player player ps).1
      = ps.foldl (fun s p => (lm_player_update_property active_player s p).1) player := by
  induction ps generalizing player with
  | nil => rfl
  | cons p ps ih => exact ih _

theorem lm_player_update_properties_twice (active_player : Option String)
    (player : lm_player) (ps : List lm_player_property) :
    (lm_player_update_properties active_player
        (lm_player_update_properties active_player player ps).1 ps).1
      = (lm_player_update_properties active_player player ps).1 := by
  rw [lm_player_update_properties_fst, lm_player_update_properties_fst]
  apply lm_player.ext <;>
    first
    | (apply foldl_field_idem
       intro p
       cases p <;> first | exact Or.inl (fun _ => rfl) | exact Or.inr (fun _ _ => rfl))
    | (apply lm_player_track_t.ext <;>
        (apply foldl_field_idem_comp
         intro p
         cases p <;>
           first
           | exact Or.inl (fun _ => rfl)
           | exact Or.inr (fun _ _ => rfl)
           | exact (foldl_field_keep_or_const lm_player_update_track _
               (by
                 intro e
                 cases e <;>
                   first | exact Or.inl (fun _ => rfl) | exact Or.inr (fun _ _ => rfl))
               _).imp (fun h _ => h _) (fun h _ _ => h _ _)))

theorem lm_device_set_conn_state_fst (device : lm_device)
    (state : lm_device_connection_state_t) :
    (lm_device_set_conn_state device state).1 = { device with connection_state := state } := by
  unfold lm_device_set_conn_state
  simp only []
  split <;> rfl

theorem lm_device_update_properties_fst (device : lm_device)
    (ps : List lm_device_property) :
    (lm_device_update_properties device ps).1
      = ps.foldl (fun s p => (lm_device_update_property s p).1) device := by
  induction ps generalizing device with
  | nil => rfl
  | cons p ps ih => exact ih _

theorem lm_device_update_properties_twice (device : lm_device)
    (ps : List lm_device_property) :
    (lm_device_update_properties (lm_device_update_properties device ps).1 ps).1
      = (lm_device_update_properties device ps).1 := by
  rw [lm_device_update_properties_fst, lm_device_update_properties_fst]
  apply lm_device.ext <;>
    (apply foldl_field_idem
     intro p
     cases p <;>
       first
       | exact Or.inl (fun _ => rfl)
       | exact Or.inr (fun _ _ => rfl)
       | (left
          intro s
          simp only [lm_device_update_property, lm_device_set_conn_state_fst]
          done)
       | (right
          intro s t
          simp only [lm_device_update_property, lm_device_set_conn_state_fst]))

theorem lm_transport_update_property_owner (U : lm_uuids) (active_transport : Option String)
    (transport : lm_transport) (p : lm_transport_property) :
    (lm_transport_update_property U active_transport transport p).1.device = transport.device
    ∧ (lm_transport_update_property U active_transport transport p).1.path = transport.path := by
  cases p <;> exact ⟨rfl, rfl⟩

theorem lm_transport_update_property_events (U : lm_uuids) (active_transport : Option String)
    (t₁ t₂ : lm_transport) (p : lm_transport_property)
    (hd : t₁.device = t₂.device) (hp : t₁.path = t₂.path) :
    (lm_transport_update_property U active_transport t₁ p).2
      = (lm_transport_update_property U active_transport t₂ p).2 := by
  cases p <;> simp [lm_transport_update_property, lm_transport_active_event, hd, hp]

theorem lm_transport_update_properties_events (U : lm_uuids)
    (active_transport : Option String) (t₁ t₂ : lm_transport)
    (ps : List lm_transport_property)
    (hd : t₁.device = t₂.device) (hp : t₁.path = t₂.path) :
    (lm_transport_update_properties U active_transport t₁ ps).2
      = (lm_transport_update_properties U active_transport t₂ ps).2
    ∧ (lm_transport_update_properties U active_transport t₁ ps).1.device = t₁.device
    ∧ (lm_transport_update_properties U active_transport t₁ ps).1.path = t₁.path := by
  induction ps generalizing t₁ t₂ with
  | nil => exact ⟨rfl, rfl, rfl⟩
  | cons p ps ih =>
    have h1 := lm_transport_update_property_owner U active_transport t₁ p
    have h2 := lm_transport_update_property_owner U active_transport t₂ p
    have h := ih (lm_transport_update_property U active_transport t₁ p).1
      (lm_transport_update_property U active_transport t₂ p).1
      (by rw [h1.1, h2.1, hd]) (by rw [h1.2, h2.2, hp])
    simp only [lm_transport_update_properties]
    rw [h.1, lm_transport_update_property_events U active_transport t₁ t₂ p hd hp]
    exact ⟨rfl, h.2.1.trans h1.1, h.2.2.trans h1.2⟩

theorem lm_player_update_property_events (active_player : Option String)
    (p₁ p₂ : lm_player) (p : lm_player_property) (hp : p₁.path = p₂.path) :
    (lm_player_update_property active_player p₁ p).2
      = (lm_player_update_property active_player p₂ p).2 := by
  cases p <;> simp [lm_player_update_property, lm_player_active_event, hp]

theorem lm_player_update_properties_events (active_player : Option String)
    (p₁ p₂ : lm_player) (ps : List lm_player_property) (hp : p₁.path = p₂.path) :
    (lm_player_update_properties active_player p₁ ps).2
      = (lm_player_update_properties active_player p₂ ps).2
    ∧ (lm_player_update_properties active_player p₁ ps).1.path = p₁.path := by
  induction ps generalizing p₁ p₂ with
  | nil => exact ⟨rfl, rfl⟩
  | cons p ps ih =>
    have h1 := lm_player_update_property_frame active_player p₁ p
    have h2 := lm_player_update_property_frame active_player p₂ p
    have h := ih (lm_player_update_property active_player p₁ p).1
      (lm_player_update_property active_player p₂ p).1 (by rw [h1.1, h2.1, hp])
    simp only [lm_player_update_properties]
    rw [h.1, lm_player_update_property_events active_player p₁ p₂ p hp]
    exact ⟨rfl, h.2.trans h1.1⟩

/-- A batch whose `Connected` entries all carry the connection state the device
is in emits nothing and leaves the connection state as it is. -/
theorem lm_device_update_properties_quiet (device : lm_device)
    (ps : List lm_device_property)
    (h : ∀ b, lm_device_property.DEVICE_PROPERTY_CONNECTED b ∈ ps →
      (if b then lm_device_connection_state_t.LM_DEVICE_CONNECTED
        else lm_device_connection_state_t.LM_DEVICE_DISCONNECTED) = device.connection_state) :
    (lm_device_update_properties device ps).2 = []
    ∧ (lm_device_update_properties device ps).1.connection_state
      = device.connection_state := by
  induction ps generalizing device with
  | nil => exact ⟨rfl, rfl⟩
  | cons p ps ih =>
    have hstep : (lm_device_update_property device p).2 = []
        ∧ (lm_device_update_property device p).1.connection_state
          = device.connection_state := by
      cases p with
      | DEVICE_PROPERTY_CONNECTED b =>
        have hb := h b (List.mem_cons_self _ _)
        simp only [lm_device_update_property, lm_device_set_conn_state, hb]
        simp
      | _ => exact ⟨rfl, rfl⟩
    have ht := ih (lm_device_update_property device p).1 (by
      intro b hb
      rw [hstep.2]
      exact h b (List.mem_cons_of_mem _ hb))
    simp only [lm_device_update_properties]
    rw [hstep.1, ht.1, ht.2, hstep.2]
    exact ⟨rfl, rfl⟩

/-- After a batch that holds a `Connected` entry, all of them with the value
`v`, the device is in the connection state of `v`. -/
theorem lm_device_update_properties_connected (device : lm_device)
    (ps : List lm_device_property) (v : Bool)
    (hall : ∀ b, lm_device_property.DEVICE_PROPERTY_CONNECTED b ∈ ps → b = v)
    (hany : lm_device_property.DEVICE_PROPERTY_CONNECTED v ∈ ps) :
    (lm_device_update_properties device ps).1.connection_state
      = (if v then lm_device_connection_state_t.LM_DEVICE_CONNECTED
          else lm_device_connection_state_t.LM_DEVICE_DISCONNECTED) := by
  induction ps generalizing device with
  | nil => exact absurd hany (List.not_mem_nil _)
  | cons p ps ih =>
    simp only [lm_device_update_properties]
    by_cases hin : lm_device_property.DEVICE_PROPERTY_CONNECTED v ∈ ps
    · exact ih _ (fun b hb => hall b (List.mem_cons_of_mem _ hb)) hin
    · have hp : p = .DEVICE_PROPERTY_CONNECTED v := by
        rcases List.mem_cons.mp hany with h | h
        · exact h.symm
        · exact absurd h hin
      subst hp
      have hq := lm_device_update_properties_quiet
        (lm_device_update_property device (.DEVICE_PROPERTY_CONNECTED v)).1 ps (by
          intro b hb
          have hbv := hall b (List.mem_cons_of_mem _ hb)
          subst hbv
          exact absurd hb hin)
      rw [hq.2]
      simp only [lm_device_update_property, lm_device_set_conn_state_fst]

theorem lm_device_update_properties_twice_quiet (device : lm_device)
    (ps : List lm_device_property)
    (hall : ∀ b₁ b₂, lm_device_property.DEVICE_PROPERTY_CONNECTED b₁ ∈ ps →
      lm_device_property.DEVICE_PROPERTY_CONNECTED b₂ ∈ ps → b₁ = b₂) :
    (lm_device_update_properties (lm_device_update_properties device ps).1 ps).2 = [] := by
  apply (lm_device_update_properties_quiet _ ps _).1
  intro b hb
  rw [lm_device_update_properties_connected device ps b (fun b' hb' => hall b' b hb' hb) hb]

/-- C13, the claim as written fails: the player `/a/d/avrcp/player0` is the
active player of its device and takes the batch `Status = "playing"` twice in a
row; the second application leaves the player as it is but emits
`LM_PLAYER_STATUS_CHANGE_IND` again.  Likewise the adapter `/a`, in state
started with the disconnected device `/a/d` cached, handles the batch
`RSSI = -60` for that device twice in a row with `on_device_prop_changed`; the
second time it emits `LM_ADAPTER_DISCOVERY_RESULT_IND` again. -/
theorem C13_second_batch_emits_events :
    (on_device_prop_changed
        (on_device_prop_changed example_adapter_discovering "/a/d"
          [.DEVICE_PROPERTY_RSSI (-60)]).1 "/a/d" [.DEVICE_PROPERTY_RSSI (-60)]).2
      = [.event LM_ADAPTER_DISCOVERY_RESULT_IND LM_STATUS_SUCCESS (.adapter_device "/a" "/a/d")]
    ∧
    (lm_player_update_properties (some "/a/d/avrcp/player0")
        (lm_player_update_properties (some "/a/d/avrcp/player0") example_player
          [.MEDIA_PLAYER_PROPERTY_STATUS "playing"]).1
        [.MEDIA_PLAYER_PROPERTY_STATUS "playing"]).2
      = [.event LM_PLAYER_STATUS_CHANGE_IND LM_STATUS_SUCCESS (.player "/a/d/avrcp/player0")]
    ∧ count_events LM_PLAYER_STATUS_CHANGE_IND
        (lm_player_update_properties (some "/a/d/avrcp/player0")
          (lm_player_update_properties (some "/a/d/avrcp/player0") example_player
            [.MEDIA_PLAYER_PROPERTY_STATUS "playing"]).1
          [.MEDIA_PLAYER_PROPERTY_STATUS "playing"]).2 = 1 := by
  decide

/-! ## The events of a transport property update -/

/-- C21: `lm_transport_update_property` with the `State` (resp. `Volume`)
property emits `LM_TRANSPORT_STATE_CHANGE_IND` (resp.
`LM_TRANSPORT_VOLUME_CHANGE_IND`), once and nothing else, exactly when the
transport has an owning device and is the active transport of that device; a
transport without an owning device (the broadcast source transport of the
adapter) and a transport that is not the active one emit nothing. -/
theorem C21_transport_events_only_when_active (U : lm_uuids)
    (active_transport : Option String) (transport : lm_transport) (state : String)
    (volume : Nat) :
    (lm_transport_update_property U active_transport transport
        (.MEDIA_TRANSPORT_PROPERTY_STATE state)).2
      = (if transport.device.isSome = true ∧ active_transport = some transport.path then
          [.event LM_TRANSPORT_STATE_CHANGE_IND LM_STATUS_SUCCESS (.transport transport.path)]
        else [])
    ∧ (lm_transport_update_property U active_transport transport
        (.MEDIA_TRANSPORT_PROPERTY_VOLUME volume)).2
      = (if transport.device.isSome = true ∧ active_transport = some transport.path then
          [.event LM_TRANSPORT_VOLUME_CHANGE_IND LM_STATUS_SUCCESS (.transport transport.path)]
        else [])
    ∧ (count_events LM_TRANSPORT_STATE_CHANGE_IND
          (lm_transport_update_property U active_transport transport
            (.MEDIA_TRANSPORT_PROPERTY_STATE state)).2 = 1
        ↔ transport.device.isSome = true ∧ active_transport = some transport.path)
    ∧ (count_events LM_TRANSPORT_VOLUME_CHANGE_IND
          (lm_transport_update_property U active_transport transport
            (.MEDIA_TRANSPORT_PROPERTY_VOLUME volume)).2 = 1
        ↔ transport.device.isSome = true ∧ active_transport = some transport.path) := by
  have hs : (lm_transport_update_property U active_transport transport
        (.MEDIA_TRANSPORT_PROPERTY_STATE state)).2
      = (if transport.device.isSome = true ∧ active_transport = some transport.path then
          [.event LM_TRANSPORT_STATE_CHANGE_IND LM_STATUS_SUCCESS (.transport transport.path)]
        else []) := by
    simp only [lm_transport_update_property, lm_transport_active_event]
    cases hd : transport.device with
    | none => simp
    | some d => simp
  have hv : (lm_transport_update_property U active_transport transport
        (.MEDIA_TRANSPORT_PROPERTY_VOLUME volume)).2
      = (if transport.device.isSome = true ∧ active_transport = some transport.path then
          [.event LM_TRANSPORT_VOLUME_CHANGE_IND LM_STATUS_SUCCESS (.transport transport.path)]
        else []) := by
    simp only [lm_transport_update_property, lm_transport_active_event]
    cases hd : transport.device with
    | none => simp
    | some d => simp
  refine ⟨hs, hv, ?_, ?_⟩
  · rw [hs]
    by_cases hc : transport.device.isSome = true ∧ active_transport = some transport.path
    · simp [hc, count_events_event_self]
    · simp [hc, count_events]
  · rw [hv]
    by_cases hc : transport.device.isSome = true ∧ active_transport = some transport.path
    · simp [hc, count_events_event_self]
    · simp [hc, count_events]

/-! ## The callback registry -/

theorem LM_MODULE_MASK_and_ne_zero (mask msg : Nat) (hmsg : msg < 2 ^ 32) :
    mask &&& LM_MODULE_MASK msg ≠ 0 ↔ mask.testBit (msg >>> LM_MODULE_OFFSET) = true := by
  have hk : msg >>> LM_MODULE_OFFSET < 32 := by
    rw [Nat.shiftRight_eq_div_pow]
    unfold LM_MODULE_OFFSET
    omega
  have h2 : LM_MODULE_MASK msg = 2 ^ (msg >>> LM_MODULE_OFFSET) := by
    unfold LM_MODULE_MASK
    rw [Nat.one_shiftLeft]
    exact Nat.mod_eq_of_lt (Nat.pow_lt_pow_right (by norm_num) hk)
  rw [h2, Nat.and_two_pow]
  cases h : mask.testBit (msg >>> LM_MODULE_OFFSET) <;> simp

theorem lm_app_event_callback_loop_eq (module_mask msg status : Nat) (buf : lm_buf)
    (table : List lm_app_callback_block_t) :
    lm_app_event_callback_loop module_mask msg status buf table
      = ((table.filter (fun b => b.is_live && (b.mask &&& module_mask != 0))).filterMap
          (fun b => b.cb)).map
          (fun cb => { cb := cb, msg := msg, status := status, buf := buf }) := by
  induction table with
  | nil => rfl
  | cons b bs ih =>
    unfold lm_app_event_callback_loop
    rw [ih]
    cases hcb : b.cb with
    | none => simp [List.filter_cons, lm_app_callback_block_t.is_live, hcb]
    | some cb =>
      cases hu : b.in_use with
      | false => simp [List.filter_cons, lm_app_callback_block_t.is_live, hcb, hu]
      | true =>
        by_cases hm : b.mask &&& module_mask = 0
        · simp [List.filter_cons, lm_app_callback_block_t.is_live, hcb, hu, hm]
        · simp [List.filter_cons, lm_app_callback_block_t.is_live, hcb, hu, hm]

/-- C22: for every state of the table and every event `(msg, status, buf)` (`msg`
a `guint32`), `lm_app_event_callback` calls the handler of every live
registration whose mask has bit `msg >> 27` set, once for each such
registration, in slot order, with the arguments `(msg, status, buf)`, and makes
no other call: every call is the call of a live registration whose mask
intersects the module mask `1 << (msg >> 27)`. -/
theorem C22_dispatch_by_module_mask (reg : lm_registry) (msg status : Nat) (buf : lm_buf)
    (hmsg : msg < 2 ^ 32) :
    lm_app_event_callback reg msg status buf
      = ((lm_registry_listeners reg msg).filterMap (fun b => b.cb)).map
          (fun cb => { cb := cb, msg := msg, status := status, buf := buf })
    ∧ (lm_app_event_callback reg msg status buf).length
      = (lm_registry_listeners reg msg).length
    ∧ (∀ c ∈ lm_app_event_callback reg msg status buf,
        c.msg = msg ∧ c.status = status ∧ c.buf = buf
        ∧ ∃ b ∈ reg.app_callback_table, b.in_use = true ∧ b.cb = some c.cb
          ∧ b.mask &&& LM_MODULE_MASK msg ≠ 0) := by
  have hfilter : reg.app_callback_table.filter
      (fun b => b.is_live && (b.mask &&& LM_MODULE_MASK msg != 0))
      = lm_registry_listeners reg msg := by
    unfold lm_registry_listeners
    apply List.filter_congr
    intro b _
    cases hb : b.mask.testBit (msg >>> LM_MODULE_OFFSET) with
    | true =>
      have := (LM_MODULE_MASK_and_ne_zero b.mask msg hmsg).mpr hb
      simp [this]
    | false =>
      have : b.mask &&& LM_MODULE_MASK msg = 0 := by
        by_contra hne
        rw [(LM_MODULE_MASK_and_ne_zero b.mask msg hmsg).mp hne] at hb
        exact Bool.noConfusion hb
      simp [this]
  have heq : lm_app_event_callback reg msg status buf
      = ((lm_registry_listeners reg msg).filterMap (fun b => b.cb)).map
          (fun cb => { cb := cb, msg := msg, status := status, buf := buf }) := by
    unfold lm_app_event_callback
    rw [lm_app_event_callback_loop_eq, hfilter]
  have hlive : ∀ b ∈ lm_registry_listeners reg msg, b.cb.isSome = true := by
    intro b hb
    unfold lm_registry_listeners at hb
    have := (List.mem_filter.mp hb).2
    simp only [lm_app_callback_block_t.is_live, Bool.and_eq_true] at this
    exact this.1.2
  refine ⟨heq, ?_, ?_⟩
  · rw [heq, List.length_map]
    generalize lm_registry_listeners reg msg = l at hlive
    induction l with
    | nil => rfl
    | cons b bs ih =>
      have hb := hlive b (List.mem_cons_self _ _)
      cases hcb : b.cb with
      | none => rw [hcb] at hb; exact Bool.noConfusion hb
      | some cb =>
        simp only [List.filterMap_cons, hcb, List.length_cons]
        rw [ih (fun x hx => hlive x (List.mem_cons_of_mem _ hx))]
  · intro c hc
    rw [heq] at hc
    obtain ⟨cb, hcb, rfl⟩ := List.mem_map.mp hc
    obtain ⟨b, hb, hbc⟩ := List.mem_filterMap.mp hcb
    unfold lm_registry_listeners at hb
    have hf := List.mem_filter.mp hb
    have hcond := hf.2
    simp only [lm_app_callback_block_t.is_live, Bool.and_eq_true] at hcond
    exact ⟨rfl, rfl, rfl, b, hf.1, hcond.1.1, hbc,
      (LM_MODULE_MASK_and_ne_zero b.mask msg hmsg).mpr hcond.2⟩

/-- C22 at the registry with three handlers and a discovery result event of the
adapter module: handlers 1 and 3 are called, handler 2 (device module only) is
not. -/
theorem C22_dispatch_by_module_mask_witness :
    (lm_app_event_callback example_registry LM_ADAPTER_DISCOVERY_RESULT_IND LM_STATUS_SUCCESS
        .null).map (fun c => c.cb) = [1, 3]
    ∧ (lm_app_event_callback example_registry LM_ADAPTER_DISCOVERY_RESULT_IND
        LM_STATUS_SUCCESS .null).length
      = (lm_registry_listeners example_registry LM_ADAPTER_DISCOVERY_RESULT_IND).length :=
  ⟨by decide,
   (C22_dispatch_by_module_mask example_registry LM_ADAPTER_DISCOVERY_RESULT_IND
      LM_STATUS_SUCCESS .null (by decide)).2.1⟩

theorem lm_register_app_event_some (module_mask : Nat) (cb : Option Nat)
    (t t' : List lm_app_callback_block_t)
    (h : lm_register_app_event module_mask cb t = some t') :
    t'.length = t.length ∧ cb.isSome = true
    ∧ ∀ b ∈ t', b ∈ t ∨ b = { in_use := true, mask := module_mask, cb := cb } := by
  induction t generalizing t' with
  | nil => simp [lm_register_app_event] at h
  | cons b bs ih =>
    unfold lm_register_app_event at h
    split at h
    · rename_i hc
      simp only [Bool.and_eq_true] at hc
      cases h
      refine ⟨rfl, hc.2, ?_⟩
      intro x hx
      rcases List.mem_cons.mp hx with hx | hx
      · exact Or.inr hx
      · exact Or.inl (List.mem_cons_of_mem _ hx)
    · cases hr : lm_register_app_event module_mask cb bs with
      | none => simp [hr] at h
      | some r =>
        simp only [hr, Option.map_some', Option.some.injEq] at h
        subst h
        have hi := ih r hr
        refine ⟨by simp [hi.1], hi.2.1, ?_⟩
        intro x hx
        rcases List.mem_cons.mp hx with hx | hx
        · exact Or.inl (hx ▸ List.mem_cons_self _ _)
        · rcases hi.2.2 x hx with h1 | h1
          · exact Or.inl (List.mem_cons_of_mem _ h1)
          · exact Or.inr h1

theorem lm_unregister_app_event_some (cb : Option Nat)
    (t t' : List lm_app_callback_block_t) (h : lm_unregister_app_event cb t = some t') :
    t'.length = t.length
    ∧ ∀ b ∈ t', b ∈ t ∨ b = { in_use := false, mask := 0, cb := none } := by
  induction t generalizing t' with
  | nil => simp [lm_unregister_app_event] at h
  | cons b bs ih =>
    unfold lm_unregister_app_event at h
    split at h
    · cases h
      refine ⟨rfl, ?_⟩
      intro x hx
      rcases List.mem_cons.mp hx with hx | hx
      · exact Or.inr hx
      · exact Or.inl (List.mem_cons_of_mem _ hx)
    · cases hr : lm_unregister_app_event cb bs with
      | none => simp [hr] at h
      | some r =>
        simp only [hr, Option.map_some', Option.some.injEq] at h
        subst h
        have hi := ih r hr
        refine ⟨by simp [hi.1], ?_⟩
        intro x hx
        rcases List.mem_cons.mp hx with hx | hx
        · exact Or.inl (hx ▸ List.mem_cons_self _ _)
        · rcases hi.2 x hx with h1 | h1
          · exact Or.inl (List.mem_cons_of_mem _ h1)
          · exact Or.inr h1

theorem lm_register_app_event_isSome (module_mask cb : Nat)
    (t : List lm_app_callback_block_t) :
    (lm_register_app_event module_mask (some cb) t).isSome = true
      ↔ ∃ b ∈ t, b.in_use = false ∧ b.cb = none ∧ b.mask = 0 := by
  induction t with
  | nil => simp [lm_register_app_event]
  | cons b bs ih =>
    unfold lm_register_app_event
    by_cases hc : b.in_use = false ∧ b.cb = none ∧ b.mask = 0
    · simp [hc]
    · have hc' : (!b.in_use && b.cb == none && b.mask == 0 && (some cb).isSome) = false := by
        rw [Bool.eq_false_iff]
        intro h
        simp only [Bool.and_eq_true, Bool.not_eq_true', beq_iff_eq] at h
        exact hc ⟨h.1.1.1, h.1.1.2, h.1.2⟩
      simp only [hc', Bool.false_eq_true, if_false, Option.isSome_map', List.mem_cons,
        exists_eq_or_imp]
      rw [ih]
      constructor
      · exact fun h => Or.inr h
      · rintro (h | h)
        · exact absurd h hc
        · exact h

theorem lm_register_app_event_null (module_mask : Nat) (t : List lm_app_callback_block_t) :
    lm_register_app_event module_mask none t = none := by
  induction t with
  | nil => rfl
  | cons b bs ih =>
    unfold lm_register_app_event
    simp [ih]

theorem lm_registry_inv_init : lm_registry_inv lm_registry_init := by
  constructor
  · simp [lm_registry_init]
  · intro b hb
    simp only [lm_registry_init] at hb
    exact Or.inl (List.eq_of_mem_replicate hb)

theorem lm_registry_inv_step (reg : lm_registry) (op : lm_registry_op)
    (h : lm_registry_inv reg) : lm_registry_inv (lm_registry_step reg op) := by
  cases op with
  | register type module_mask cb =>
    simp only [lm_registry_step, lm_register_callback]
    split
    · cases hr : lm_register_app_event module_mask cb reg.app_callback_table with
      | none => exact h
      | some t =>
        have hs := lm_register_app_event_some module_mask cb _ t hr
        refine ⟨hs.1.trans h.1, ?_⟩
        intro b hb
        rcases hs.2.2 b hb with hb | hb
        · exact h.2 b hb
        · exact Or.inr (by rw [hb]; exact ⟨rfl, hs.2.1⟩)
    · split
      · exact h
      · exact h
  | unregister type module_mask cb =>
    simp only [lm_registry_step, lm_unregister_callback]
    split
    · cases hr : lm_unregister_app_event cb reg.app_callback_table with
      | none => exact h
      | some t =>
        have hs := lm_unregister_app_event_some cb _ t hr
        refine ⟨hs.1.trans h.1, ?_⟩
        intro b hb
        rcases hs.2 b hb with hb | hb
        · exact h.2 b hb
        · exact Or.inl hb
    · split
      · exact h
      · exact h

theorem lm_registry_inv_run (reg : lm_registry) (ops : List lm_registry_op)
    (h : lm_registry_inv reg) : lm_registry_inv (lm_registry_run reg ops) := by
  induction ops generalizing reg with
  | nil => exact h
  | cons op ops ih => exact ih _ (lm_registry_inv_step reg op h)

/-- In a state the registry reaches, a registration with a handler succeeds
exactly when fewer than `LM_APP_CALLBACK_MAX` slots are in use. -/
theorem lm_register_callback_success_iff (reg : lm_registry) (h : lm_registry_inv reg)
    (module_mask cb : Nat) :
    (lm_register_callback reg LM_CALLBACK_TYPE_APP_EVENT module_mask (some cb)).1
        = LM_STATUS_SUCCESS
      ↔ lm_registry_live_count reg < LM_APP_CALLBACK_MAX := by
  have hfree : (∃ b ∈ reg.app_callback_table, b.in_use = false ∧ b.cb = none ∧ b.mask = 0)
      ↔ lm_registry_live_count reg < LM_APP_CALLBACK_MAX := by
    unfold lm_registry_live_count
    rw [← h.1, List.length_filter_lt_length_iff_exists]
    constructor
    · rintro ⟨b, hb, hu, _⟩
      exact ⟨b, hb, by simp [hu]⟩
    · rintro ⟨b, hb, hu⟩
      rcases h.2 b hb with hz | hl
      · exact ⟨b, hb, by rw [hz], by rw [hz], by rw [hz]⟩
      · exact absurd hl.1 hu
  rw [← hfree, ← lm_register_app_event_isSome module_mask cb]
  simp only [lm_register_callback, if_true]
  cases hr : lm_register_app_event module_mask (some cb) reg.app_callback_table with
  | none => simp [LM_STATUS_FAIL, LM_STATUS_SUCCESS, LM_MODULE_GENERAL]
  | some t => simp

theorem lm_register_app_event_count (module_mask : Nat) (cb : Option Nat)
    (t t' : List lm_app_callback_block_t)
    (h : lm_register_app_event module_mask cb t = some t') :
    (t'.filter (fun b => b.in_use)).length = (t.filter (fun b => b.in_use)).length + 1 := by
  induction t generalizing t' with
  | nil => simp [lm_register_app_event] at h
  | cons b bs ih =>
    unfold lm_register_app_event at h
    split at h
    · rename_i hc
      simp only [Bool.and_eq_true, Bool.not_eq_true'] at hc
      cases h
      simp [List.filter_cons, hc.1.1.1]
    · cases hr : lm_register_app_event module_mask cb bs with
      | none => simp [hr] at h
      | some r =>
        simp only [hr, Option.map_some', Option.some.injEq] at h
        subst h
        have hi := ih r hr
        cases hu : b.in_use <;> simp [List.filter_cons, hu, hi]

theorem lm_unregister_app_event_count (cb : Option Nat)
    (t t' : List lm_app_callback_block_t) (h : lm_unregister_app_event cb t = some t') :
    (t'.filter (fun b => b.in_use)).length + 1 = (t.filter (fun b => b.in_use)).length := by
  induction t generalizing t' with
  | nil => simp [lm_unregister_app_event] at h
  | cons b bs ih =>
    unfold lm_unregister_app_event at h
    split at h
    · rename_i hc
      simp only [Bool.and_eq_true] at hc
      cases h
      simp [List.filter_cons, hc.1]
    · cases hr : lm_unregister_app_event cb bs with
      | none => simp [hr] at h
      | some r =>
        simp only [hr, Option.map_some', Option.some.injEq] at h
        subst h
        have hi := ih r hr
        cases hu : b.in_use <;> simp [List.filter_cons, hu, ← hi]

/-- C24: after any history of register and unregister calls on the zeroed
tables, `lm_register_callback (LM_CALLBACK_TYPE_APP_EVENT, mask, cb)` with a
handler `cb` returns `LM_STATUS_SUCCESS` exactly when fewer than 20 general event
registrations are live; a successful registration makes one more registration
live and a successful unregistration one less, so a freed slot can be taken
again; and when the call does not succeed (the table is full, or `cb` is `NULL`)
it returns `LM_STATUS_FAIL` and leaves the tables as they are. -/
theorem C24_register_succeeds_iff_slot_free (ops : List lm_registry_op)
    (module_mask cb : Nat) :
    ((lm_register_callback (lm_registry_run lm_registry_init ops)
          LM_CALLBACK_TYPE_APP_EVENT module_mask (some cb)).1 = LM_STATUS_SUCCESS
        ↔ lm_registry_live_count (lm_registry_run lm_registry_init ops) < 20)
    ∧ ((lm_register_callback (lm_registry_run lm_registry_init ops)
          LM_CALLBACK_TYPE_APP_EVENT module_mask (some cb)).1 = LM_STATUS_SUCCESS →
        lm_registry_live_count (lm_register_callback (lm_registry_run lm_registry_init ops)
          LM_CALLBACK_TYPE_APP_EVENT module_mask (some cb)).2
          = lm_registry_live_count (lm_registry_run lm_registry_init ops) + 1)
    ∧ ((lm_register_callback (lm_registry_run lm_registry_init ops)
          LM_CALLBACK_TYPE_APP_EVENT module_mask (some cb)).1 ≠ LM_STATUS_SUCCESS →
        lm_register_callback (lm_registry_run lm_registry_init ops)
          LM_CALLBACK_TYPE_APP_EVENT module_mask (some cb)
          = (LM_STATUS_FAIL, lm_registry_run lm_registry_init ops))
    ∧ lm_register_callback (lm_registry_run lm_registry_init ops)
        LM_CALLBACK_TYPE_APP_EVENT module_mask none
      = (LM_STATUS_FAIL, lm_registry_run lm_registry_init ops)
    ∧ (∀ handler, (lm_unregister_callback (lm_registry_run lm_registry_init ops)
          LM_CALLBACK_TYPE_APP_EVENT handler).1 = LM_STATUS_SUCCESS →
        lm_registry_live_count (lm_unregister_callback (lm_registry_run lm_registry_init ops)
          LM_CALLBACK_TYPE_APP_EVENT handler).2 + 1
          = lm_registry_live_count (lm_registry_run lm_registry_init ops)) := by
  have hinv := lm_registry_inv_run lm_registry_init ops lm_registry_inv_init
  generalize lm_registry_run lm_registry_init ops = reg at hinv
  refine ⟨lm_register_callback_success_iff reg hinv module_mask cb, ?_, ?_, ?_, ?_⟩
  · simp only [lm_register_callback, if_true]
    cases hr : lm_register_app_event module_mask (some cb) reg.app_callback_table with
    | none => simp [LM_STATUS_FAIL, LM_STATUS_SUCCESS, LM_MODULE_GENERAL]
    | some t =>
      intro _
      exact lm_register_app_event_count module_mask (some cb) _ t hr
  · simp only [lm_register_callback, if_true]
    cases hr : lm_register_app_event module_mask (some cb) reg.app_callback_table with
    | none => simp
    | some t => simp
  · simp only [lm_register_callback, if_true, lm_register_app_event_null]
  · intro handler
    simp only [lm_unregister_callback, if_true]
    cases hr : lm_unregister_app_event handler reg.app_callback_table with
    | none => simp [LM_STATUS_FAIL, LM_STATUS_SUCCESS, LM_MODULE_GENERAL]
    | some t =>
      intro _
      exact lm_unregister_app_event_count handler _ t hr

/-- C24 at a full table: the twenty-first registration fails and changes nothing;
after one unregistration a registration succeeds again. -/
theorem C24_register_succeeds_iff_slot_free_witness :
    lm_register_callback (lm_registry_run lm_registry_init example_registry_ops_full)
        LM_CALLBACK_TYPE_APP_EVENT 2 (some 8)
      = (LM_STATUS_FAIL, lm_registry_run lm_registry_init example_registry_ops_full)
    ∧ (lm_register_callback
        (lm_registry_run lm_registry_init
          (example_registry_ops_full ++ [.unregister LM_CALLBACK_TYPE_APP_EVENT 0 (some 7)]))
        LM_CALLBACK_TYPE_APP_EVENT 2 (some 8)).1 = LM_STATUS_SUCCESS :=
  ⟨(C24_register_succeeds_iff_slot_free example_registry_ops_full 2 8).2.2.1 (by decide),
   (C24_register_succeeds_iff_slot_free
      (example_registry_ops_full ++ [.unregister LM_CALLBACK_TYPE_APP_EVENT 0 (some 7)])
      2 8).1.mpr (by decide)⟩

/-- C25 at the zeroed tables: registering handler 7 for
`LM_CALLBACK_TYPE_GET_AUDIO_LOCATION_CFG` stores it in the slot of that type,
which was unoccupied, and yet returns `LM_STATUS_FAIL`, not `LM_STATUS_SUCCESS`:
the branch of the single-purpose types never assigns `status`.  A second
registration finds the slot occupied, returns `LM_STATUS_FAIL` and leaves the
stored handler as it is. -/
theorem C25_register_single_purpose_returns_fail :
    (lm_register_callback lm_registry_init LM_CALLBACK_TYPE_GET_AUDIO_LOCATION_CFG 0
        (some 7)).2.usr_callback_table.head?
      = some { in_use := true, cb := some 7 }
    ∧ (lm_register_callback lm_registry_init LM_CALLBACK_TYPE_GET_AUDIO_LOCATION_CFG 0
        (some 7)).1 = LM_STATUS_FAIL
    ∧ (lm_register_callback lm_registry_init LM_CALLBACK_TYPE_GET_AUDIO_LOCATION_CFG 0
        (some 7)).1 ≠ LM_STATUS_SUCCESS
    ∧ lm_register_callback
        (lm_register_callback lm_registry_init LM_CALLBACK_TYPE_GET_AUDIO_LOCATION_CFG 0
          (some 7)).2 LM_CALLBACK_TYPE_GET_AUDIO_LOCATION_CFG 0 (some 8)
      = (LM_STATUS_FAIL,
          (lm_register_callback lm_registry_init LM_CALLBACK_TYPE_GET_AUDIO_LOCATION_CFG 0
            (some 7)).2) := by
  decide

/-- C23, the claim as written fails: handlers 1 and 2 register, handler 1
unregisters and handler 3 registers, which takes the slot handler 1 freed.  The
live registrations were made in the order 2, 3; a dispatch calls 3 before 2. -/
theorem C23_freed_slot_breaks_registration_order :
    (lm_app_event_callback (lm_registry_run lm_registry_init example_registry_ops_reuse)
        LM_ADAPTER_DISCOVERY_RESULT_IND LM_STATUS_SUCCESS .null).map (fun c => c.cb)
      = [3, 2] := by
  decide

theorem lm_register_app_event_fill (module_mask cb : Nat) (made : List (Nat × Nat))
    (k : Nat) :
    lm_register_app_event module_mask (some cb)
        (made.map lm_app_callback_block_t.of_registration
          ++ List.replicate k lm_app_callback_block_t.zero)
      = if k = 0 then none
        else some ((made ++ [(module_mask, cb)]).map lm_app_callback_block_t.of_registration
          ++ List.replicate (k - 1) lm_app_callback_block_t.zero) := by
  induction made with
  | nil =>
    cases k with
    | zero => rfl
    | succ k =>
      simp [lm_register_app_event, List.replicate_succ, lm_app_callback_block_t.zero,
        lm_app_callback_block_t.of_registration]
  | cons r rs ih =>
    simp only [List.map_cons, List.cons_append, lm_register_app_event, List.append_eq]
    rw [ih]
    by_cases hk : k = 0
    · simp [hk, lm_app_callback_block_t.of_registration]
    · simp [hk, lm_app_callback_block_t.of_registration]

theorem lm_registry_step_registered (reg : lm_registry) (made : List (Nat × Nat))
    (op : lm_registry_op)
    (hreg : reg.app_callback_table = made.map lm_app_callback_block_t.of_registration
      ++ List.replicate (LM_APP_CALLBACK_MAX - made.length) lm_app_callback_block_t.zero)
    (hop : op.is_app_unregister = false) :
    (lm_registry_step reg op).app_callback_table
      = (lm_registry_registered made [op]).map lm_app_callback_block_t.of_registration
        ++ List.replicate (LM_APP_CALLBACK_MAX - (lm_registry_registered made [op]).length)
            lm_app_callback_block_t.zero := by
  cases op with
  | unregister type module_mask cb =>
    have ht : ¬ type = LM_CALLBACK_TYPE_APP_EVENT := by
      simpa [lm_registry_op.is_app_unregister] using hop
    simp only [lm_registry_step, lm_unregister_callback, ht, if_false,
      lm_registry_registered, lm_registry_op.registration]
    split <;> exact hreg
  | register type module_mask cb =>
    by_cases ht : type = LM_CALLBACK_TYPE_APP_EVENT
    · subst ht
      cases cb with
      | none =>
        simp only [lm_registry_step, lm_register_callback, if_true,
          lm_register_app_event_null, lm_registry_registered, lm_registry_op.registration]
        exact hreg
      | some c =>
        simp only [lm_registry_step, lm_register_callback, if_true,
          lm_registry_registered, lm_registry_op.registration]
        rw [hreg, lm_register_app_event_fill]
        by_cases hlen : made.length < LM_APP_CALLBACK_MAX
        · have hk : ¬ LM_APP_CALLBACK_MAX - made.length = 0 := by omega
          simp only [hk, if_false, hlen, if_true, List.length_append, List.length_singleton]
          rw [show LM_APP_CALLBACK_MAX - made.length - 1
            = LM_APP_CALLBACK_MAX - (made.length + 1) from by omega]
        · have hk : LM_APP_CALLBACK_MAX - made.length = 0 := by omega
          simp only [hk, if_true, hlen, if_false]
          rw [← hk, ← hreg]
    · have hnone : (lm_registry_op.register type module_mask cb).registration = none := by
        cases cb <;> simp [lm_registry_op.registration, ht]
      simp only [lm_registry_step, lm_register_callback, ht, if_false,
        lm_registry_registered, hnone]
      split <;> exact hreg

theorem lm_registry_registered_cons (made : List (Nat × Nat)) (op : lm_registry_op)
    (ops : List lm_registry_op) :
    lm_registry_registered made (op :: ops)
      = lm_registry_registered (lm_registry_registered made [op]) ops := by
  simp only [lm_registry_registered]
  cases op.registration with
  | none => rfl
  | some r =>
    by_cases h : made.length < LM_APP_CALLBACK_MAX
    · simp only [h, if_true]
    · simp only [h, if_false]

theorem lm_registry_run_registered (reg : lm_registry) (made : List (Nat × Nat))
    (ops : List lm_registry_op)
    (hreg : reg.app_callback_table = made.map lm_app_callback_block_t.of_registration
      ++ List.replicate (LM_APP_CALLBACK_MAX - made.length) lm_app_callback_block_t.zero)
    (hops : ∀ op ∈ ops, op.is_app_unregister = false) :
    (lm_registry_run reg ops).app_callback_table
      = (lm_registry_registered made ops).map lm_app_callback_block_t.of_registration
        ++ List.replicate (LM_APP_CALLBACK_MAX - (lm_registry_registered made ops).length)
            lm_app_callback_block_t.zero := by
  induction ops generalizing reg made with
  | nil => exact hreg
  | cons op ops ih =>
    rw [lm_registry_registered_cons]
    exact ih (lm_registry_step reg op) _
      (lm_registry_step_registered reg made op hreg (hops op (List.mem_cons_self _ _)))
      (fun o ho => hops o (List.mem_cons_of_mem _ ho))

/-- C23, amended: the handlers that one `lm_app_event_callback` dispatch invokes
are invoked in the order of their slots in `app_callback_table`, whatever the
history; a registration takes the free slot of lowest index, so for a history of
calls on the zeroed tables without an unregistration of a general event handler
this is the order in which the registrations were made. -/
theorem C23_dispatch_in_slot_order (reg : lm_registry) (ops : List lm_registry_op)
    (msg status : Nat) (buf : lm_buf) :
    (lm_app_event_callback reg msg status buf).map (fun c => c.cb)
      = (reg.app_callback_table.filter
          (fun b => b.is_live && (b.mask &&& LM_MODULE_MASK msg != 0))).filterMap
          (fun b => b.cb)
    ∧ ((∀ op ∈ ops, op.is_app_unregister = false) →
        (lm_app_event_callback (lm_registry_run lm_registry_init ops) msg status buf).map
            (fun c => c.cb)
          = ((lm_registry_registered [] ops).filter
              (fun r => r.1 &&& LM_MODULE_MASK msg != 0)).map (fun r => r.2)) := by
  have hslot : ∀ r : lm_registry,
      (lm_app_event_callback r msg status buf).map (fun c => c.cb)
        = (r.app_callback_table.filter
            (fun b => b.is_live && (b.mask &&& LM_MODULE_MASK msg != 0))).filterMap
            (fun b => b.cb) := by
    intro r
    unfold lm_app_event_callback
    rw [lm_app_event_callback_loop_eq, List.map_map]
    have hid : ((fun c : lm_callback_call => c.cb) ∘ fun cb =>
        ({ cb := cb, msg := msg, status := status, buf := buf } : lm_callback_call)) = id := rfl
    rw [hid, List.map_id]
  refine ⟨hslot reg, ?_⟩
  intro hops
  have htable := lm_registry_run_registered lm_registry_init [] ops rfl hops
  rw [hslot, htable]
  generalize lm_registry_registered [] ops = made
  rw [List.filter_append, List.filterMap_append]
  have hz : ((List.replicate (LM_APP_CALLBACK_MAX - made.length)
      lm_app_callback_block_t.zero).filter
        (fun b => b.is_live && (b.mask &&& LM_MODULE_MASK msg != 0))) = [] := by
    rw [List.filter_eq_nil_iff]
    intro b hb
    rw [List.eq_of_mem_replicate hb]
    simp [lm_app_callback_block_t.is_live, lm_app_callback_block_t.zero]
  rw [hz, List.filterMap_nil, List.append_nil]
  clear hz
  induction made with
  | nil => rfl
  | cons r rs ih =>
    by_cases hm : r.1 &&& LM_MODULE_MASK msg = 0
    · simp [List.filter_cons, lm_app_callback_block_t.is_live,
        lm_app_callback_block_t.of_registration, hm] at ih ⊢
      exact ih
    · simp [List.filter_cons, lm_app_callback_block_t.is_live,
        lm_app_callback_block_t.of_registration, hm] at ih ⊢
      exact ih

/-- C23 amended, at the history of three registrations: the adapter event
reaches handlers 1 and 3, in the order in which they registered. -/
theorem C23_dispatch_in_slot_order_witness :
    (lm_registry_registered []
        [ .register LM_CALLBACK_TYPE_APP_EVENT (LM_MODULE_MASK LM_MODULE_ADAPTER) (some 1),
          .register LM_CALLBACK_TYPE_APP_EVENT (LM_MODULE_MASK LM_MODULE_DEVICE) (some 2),
          .register LM_CALLBACK_TYPE_APP_EVENT
            (LM_MODULE_MASK LM_MODULE_ADAPTER ||| LM_MODULE_MASK LM_MODULE_DEVICE)
            (some 3) ]).map (fun r => r.2) = [1, 2, 3]
    ∧ (lm_app_event_callback example_registry LM_ADAPTER_DISCOVERY_RESULT_IND
        LM_STATUS_SUCCESS .null).map (fun c => c.cb) = [1, 3] :=
  ⟨by decide,
   ((C23_dispatch_in_slot_order lm_registry_init
      [ .register LM_CALLBACK_TYPE_APP_EVENT (LM_MODULE_MASK LM_MODULE_ADAPTER) (some 1),
        .register LM_CALLBACK_TYPE_APP_EVENT (LM_MODULE_MASK LM_MODULE_DEVICE) (some 2),
        .register LM_CALLBACK_TYPE_APP_EVENT
          (LM_MODULE_MASK LM_MODULE_ADAPTER ||| LM_MODULE_MASK LM_MODULE_DEVICE) (some 3) ]
      LM_ADAPTER_DISCOVERY_RESULT_IND LM_STATUS_SUCCESS .null).2 (by decide)).trans
      (by decide)⟩

/-! ## Power confirmations -/

/-- C26, the claim as written fails: the `PowerState` string `"standby"` is none
of the five names of `g_power_state_name`; `lm_adapter_get_power_state_from_name`
maps it to `LM_ADAPTER_POWER_OFF` and the update emits the power-off
confirmation. -/
theorem C26_unknown_power_state_confirms_off :
    (lm_adapter_update_property example_adapter (.ADAPTER_PROPERTY_POWER_STATE "standby")).2
      = [.event LM_ADAPTER_POWER_OFF_CNF LM_STATUS_SUCCESS (.adapter "/a")] := by
  decide

theorem lm_adapter_get_power_state_from_name_unknown (s : String)
    (h1 : s ≠ "on") (h2 : s ≠ "off") (h3 : s ≠ "off-enabling") (h4 : s ≠ "on-disabling")
    (h5 : s ≠ "off-blocked") :
    lm_adapter_get_power_state_from_name s = .LM_ADAPTER_POWER_OFF := by
  have hnone : g_power_state_name.find? (fun e => e.1 == s) = none := by
    rw [List.find?_eq_none]
    intro e he
    unfold g_power_state_name at he
    simp only [List.mem_cons, List.mem_singleton, List.not_mem_nil, or_false] at he
    intro hb
    have hes : e.1 = s := beq_iff_eq.mp hb
    rcases he with he | he | he | he | he
    · rw [he] at hes
      exact h1 hes.symm
    · rw [he] at hes
      exact h2 hes.symm
    · rw [he] at hes
      exact h3 hes.symm
    · rw [he] at hes
      exact h4 hes.symm
    · rw [he] at hes
      exact h5 hes.symm
  unfold lm_adapter_get_power_state_from_name
  rw [hnone]

theorem lm_adapter_get_power_state_from_name_on (s : String) :
    lm_adapter_get_power_state_from_name s = .LM_ADAPTER_POWER_ON ↔ s = "on" := by
  by_cases h1 : s = "on"
  · subst h1
    decide
  by_cases h2 : s = "off"
  · subst h2
    decide
  by_cases h3 : s = "off-enabling"
  · subst h3
    decide
  by_cases h4 : s = "on-disabling"
  · subst h4
    decide
  by_cases h5 : s = "off-blocked"
  · subst h5
    decide
  rw [lm_adapter_get_power_state_from_name_unknown s h1 h2 h3 h4 h5]
  exact ⟨fun h => (by cases h), fun h => absurd h h1⟩

theorem lm_adapter_get_power_state_from_name_off (s : String) :
    lm_adapter_get_power_state_from_name s = .LM_ADAPTER_POWER_OFF
      ↔ (s = "off" ∨ (s ≠ "on" ∧ s ≠ "off-enabling" ∧ s ≠ "on-disabling"
          ∧ s ≠ "off-blocked")) := by
  by_cases h1 : s = "on"
  · subst h1
    decide
  by_cases h2 : s = "off"
  · subst h2
    decide
  by_cases h3 : s = "off-enabling"
  · subst h3
    decide
  by_cases h4 : s = "on-disabling"
  · subst h4
    decide
  by_cases h5 : s = "off-blocked"
  · subst h5
    decide
  rw [lm_adapter_get_power_state_from_name_unknown s h1 h2 h3 h4 h5]
  exact ⟨fun _ => Or.inr ⟨h1, h3, h4, h5⟩, fun _ => rfl⟩

theorem count_events_event_ne (m msg status : Nat) (buf : lm_buf) (h : msg ≠ m) :
    count_events m [.event msg status buf] = 0 := by
  simp [count_events, lm_effect.is_event, h]

/-- C26, amended: a `PowerState` property update with the string `s` emits the
power-on confirmation, once and nothing else, exactly when `s` is `"on"`; it
emits the power-off confirmation, once and nothing else, exactly when `s` is
`"off"` or none of the five names `"on"`, `"off"`, `"off-enabling"`,
`"on-disabling"`, `"off-blocked"` (an unknown name counts as off); for
`"off-enabling"`, `"on-disabling"` and `"off-blocked"` it emits nothing.
`lm_adapter_power_on` and `lm_adapter_power_off` emit no event. -/
theorem C26_power_confirmations (adapter : lm_adapter) (s : String) :
    (lm_adapter_update_property adapter (.ADAPTER_PROPERTY_POWER_STATE s)).2
      = (if s = "on" then
          [.event LM_ADAPTER_POWER_ON_CNF LM_STATUS_SUCCESS (.adapter adapter.path)]
        else if s = "off" ∨ (s ≠ "on" ∧ s ≠ "off-enabling" ∧ s ≠ "on-disabling"
            ∧ s ≠ "off-blocked") then
          [.event LM_ADAPTER_POWER_OFF_CNF LM_STATUS_SUCCESS (.adapter adapter.path)]
        else [])
    ∧ (count_events LM_ADAPTER_POWER_ON_CNF
          (lm_adapter_update_property adapter (.ADAPTER_PROPERTY_POWER_STATE s)).2 = 1
        ↔ s = "on")
    ∧ (count_events LM_ADAPTER_POWER_OFF_CNF
          (lm_adapter_update_property adapter (.ADAPTER_PROPERTY_POWER_STATE s)).2 = 1
        ↔ (s = "off" ∨ (s ≠ "on" ∧ s ≠ "off-enabling" ∧ s ≠ "on-disabling"
            ∧ s ≠ "off-blocked")))
    ∧ (s = "off-enabling" ∨ s = "on-disabling" ∨ s = "off-blocked" →
        (lm_adapter_update_property adapter (.ADAPTER_PROPERTY_POWER_STATE s)).2 = [])
    ∧ (∀ e ∈ (lm_adapter_power_on adapter).2, e.is_any_event = false)
    ∧ (∀ e ∈ (lm_adapter_power_off adapter).2, e.is_any_event = false) := by
  have hon := lm_adapter_get_power_state_from_name_on s
  have hoff := lm_adapter_get_power_state_from_name_off s
  have heq : (lm_adapter_update_property adapter (.ADAPTER_PROPERTY_POWER_STATE s)).2
      = (if s = "on" then
          [.event LM_ADAPTER_POWER_ON_CNF LM_STATUS_SUCCESS (.adapter adapter.path)]
        else if s = "off" ∨ (s ≠ "on" ∧ s ≠ "off-enabling" ∧ s ≠ "on-disabling"
            ∧ s ≠ "off-blocked") then
          [.event LM_ADAPTER_POWER_OFF_CNF LM_STATUS_SUCCESS (.adapter adapter.path)]
        else []) := by
    simp only [lm_adapter_update_property]
    by_cases h1 : s = "on"
    · rw [if_pos (hon.mpr h1), if_pos h1]
    · rw [if_neg (fun h => h1 (hon.mp h)), if_neg h1]
      by_cases h2 : s = "off" ∨ (s ≠ "on" ∧ s ≠ "off-enabling" ∧ s ≠ "on-disabling"
          ∧ s ≠ "off-blocked")
      · rw [if_pos (hoff.mpr h2), if_pos h2]
      · rw [if_neg (fun h => h2 (hoff.mp h)), if_neg h2]
  refine ⟨heq, ?_, ?_, ?_, ?_, ?_⟩
  · rw [heq]
    by_cases h1 : s = "on"
    · simp only [h1, if_true, count_events_event_self]
    · rw [if_neg h1]
      refine ⟨fun h => ?_, fun h => absurd h h1⟩
      exfalso
      split at h
      · rw [count_events_event_ne _ _ _ _ (by decide)] at h
        exact Nat.zero_ne_one h
      · exact Nat.zero_ne_one h
  · rw [heq]
    by_cases h1 : s = "on"
    · subst h1
      rw [if_pos rfl, count_events_event_ne _ _ _ _ (by decide)]
      refine ⟨fun h => absurd h Nat.zero_ne_one, fun h => ?_⟩
      rcases h with h | h
      · exact absurd h (by decide)
      · exact absurd rfl h.1
    · rw [if_neg h1]
      by_cases h2 : s = "off" ∨ (s ≠ "on" ∧ s ≠ "off-enabling" ∧ s ≠ "on-disabling"
          ∧ s ≠ "off-blocked")
      · rw [if_pos h2, count_events_event_self]
        exact ⟨fun _ => h2, fun _ => rfl⟩
      · rw [if_neg h2]
        exact ⟨fun h => absurd h Nat.zero_ne_one, fun h => absurd h h2⟩
  · intro h
    rw [heq]
    rcases h with h | h | h <;> subst h <;> rw [if_neg (by decide), if_neg (by decide)]
  · intro e he
    unfold lm_adapter_power_on lm_adapter_set_property_async at he
    split at he
    · exact absurd he (List.not_mem_nil _)
    · rw [List.mem_singleton.mp he]
      rfl
  · intro e he
    unfold lm_adapter_power_off lm_adapter_set_property_async at he
    split at he
    · exact absurd he (List.not_mem_nil _)
    · rw [List.mem_singleton.mp he]
      rfl

/-- C26 amended, at the adapter `/a`: `"off-blocked"` emits nothing, `"on"`
emits one power-on confirmation. -/
theorem C26_power_confirmations_witness :
    (lm_adapter_update_property example_adapter
        (.ADAPTER_PROPERTY_POWER_STATE "off-blocked")).2 = []
    ∧ count_events LM_ADAPTER_POWER_ON_CNF
        (lm_adapter_update_property example_adapter (.ADAPTER_PROPERTY_POWER_STATE "on")).2
      = 1 :=
  ⟨(C26_power_confirmations example_adapter "off-blocked").2.2.2.1 (Or.inr (Or.inr rfl)),
   (C26_power_confirmations example_adapter "on").2.1.mpr rfl⟩

/-! ## Discovery state-change events -/

/-- C29, the claim as written fails: the adapter `/a` started discovery and is
in state starting; the `StartDiscovery` call completes with
`org.bluez.Error.NotReady`; `discovery_state` changes to stopped and no
state-change event is emitted. -/
theorem C29_rollback_without_event :
    (lm_system_step { adapter := example_adapter } .start_discovery).1.adapter.discovery_state
      = .LM_ADAPTER_DISCOVERY_STARTING
    ∧ (lm_adapter_run_input
        (lm_system_step { adapter := example_adapter } .start_discovery).1.adapter
        (.start_discovery_done (.error (some "org.bluez.Error.NotReady")) 1)).1.discovery_state
      = .LM_ADAPTER_DISCOVERY_STOPPED
    ∧ count_events LM_ADAPTER_DISCOVERY_STATE_CHANGE_IND
        (lm_adapter_run_input
          (lm_system_step { adapter := example_adapter } .start_discovery).1.adapter
          (.start_discovery_done (.error (some "org.bluez.Error.NotReady")) 1)).2 = 0 := by
  decide

theorem lm_adapter_set_discovery_state_events (id : Nat) (adapter : lm_adapter)
    (discovery_state : lm_adapter_discovery_state_t) :
    count_events LM_ADAPTER_DISCOVERY_STATE_CHANGE_IND
        (lm_adapter_set_discovery_state id adapter discovery_state).2
      = (if (lm_adapter_set_discovery_state id adapter discovery_state).1.discovery_state
            ≠ adapter.discovery_state then 1 else 0) := by
  rw [lm_adapter_set_discovery_state_state]
  unfold lm_adapter_set_discovery_state
  by_cases h : adapter.discovery_state = discovery_state
  · simp [h, count_events]
  · have h' : discovery_state ≠ adapter.discovery_state := fun e => h e.symm
    simp only [h, if_false, h', ne_eq, not_false_eq_true, if_true]
    cases discovery_state <;> simp only []
    · split <;> simp [count_events, lm_effect.is_event]
    · simp [count_events, lm_effect.is_event]
    · split
      · split <;> simp [count_events, lm_effect.is_event]
      · simp [count_events, lm_effect.is_event]
    · simp [count_events, lm_effect.is_event]

theorem lm_adapter_start_discovery_events (adapter : lm_adapter) :
    count_events LM_ADAPTER_DISCOVERY_STATE_CHANGE_IND (lm_adapter_start_discovery adapter).2.2
      = (if (lm_adapter_start_discovery adapter).2.1.discovery_state
            ≠ adapter.discovery_state then 1 else 0) := by
  rw [lm_adapter_start_discovery_eq]
  by_cases h : adapter.discovery_state = .LM_ADAPTER_DISCOVERY_STOPPED
  · simp [h, count_events, lm_effect.is_event]
  · simp [h, count_events]

theorem lm_adapter_stop_discovery_events (adapter : lm_adapter) :
    count_events LM_ADAPTER_DISCOVERY_STATE_CHANGE_IND (lm_adapter_stop_discovery adapter).2.2
      = (if (lm_adapter_stop_discovery adapter).2.1.discovery_state
            ≠ adapter.discovery_state then 1 else 0) := by
  rw [lm_adapter_stop_discovery_eq]
  by_cases h : adapter.discovery_state = .LM_ADAPTER_DISCOVERY_STARTED
  · simp [h, count_events, lm_effect.is_event]
  · simp [h, count_events]

theorem deliver_discovery_result_shape (adapter : lm_adapter) (device : lm_device) :
    (count_events LM_ADAPTER_DISCOVERY_STATE_CHANGE_IND
          (deliver_discovery_result adapter device).2 = 0
      ∧ (deliver_discovery_result adapter device).1.discovery_state = adapter.discovery_state)
    ∨ (count_events LM_ADAPTER_DISCOVERY_STATE_CHANGE_IND
          (deliver_discovery_result adapter device).2
        = count_events LM_ADAPTER_DISCOVERY_STATE_CHANGE_IND
            (lm_adapter_stop_discovery { adapter with
              discovery_devices_found := (adapter.discovery_devices_found + 1) % 2 ^ 32 }).2.2
      ∧ (deliver_discovery_result adapter device).1.discovery_state
        = (lm_adapter_stop_discovery { adapter with
            discovery_devices_found :=
              (adapter.discovery_devices_found + 1) % 2 ^ 32 }).2.1.discovery_state) := by
  have hres : ∀ buf, count_events LM_ADAPTER_DISCOVERY_STATE_CHANGE_IND
      [.event LM_ADAPTER_DISCOVERY_RESULT_IND LM_STATUS_SUCCESS buf] = 0 :=
    fun buf => count_events_event_ne _ _ _ _ (by decide)
  unfold deliver_discovery_result
  by_cases hc : lm_device_get_connection_state device = .LM_DEVICE_DISCONNECTED
  · rw [if_pos hc]
    by_cases hm : (!matches_discovery_filter adapter device) = true
    · rw [if_pos hm]
      exact Or.inl ⟨rfl, rfl⟩
    · rw [if_neg hm]
      dsimp only
      cases adapter.discovery_filter with
      | none => exact Or.inl ⟨hres _, rfl⟩
      | some f =>
        dsimp only
        by_cases hmax : f.max_devices ≠ 0
        · rw [if_pos hmax]
          by_cases hge : (adapter.discovery_devices_found + 1) % 2 ^ 32 ≥ f.max_devices
          · rw [if_pos hge]
            refine Or.inr ⟨?_, rfl⟩
            rw [count_events_append, count_events_append, hres,
              count_events_event_ne _ _ _ _ (by decide)]
            simp
          · rw [if_neg hge]
            exact Or.inl ⟨hres _, rfl⟩
        · rw [if_neg hmax]
          exact Or.inl ⟨hres _, rfl⟩
  · rw [if_neg hc]
    exact Or.inl ⟨rfl, rfl⟩

theorem deliver_discovery_result_events (adapter : lm_adapter) (device : lm_device) :
    count_events LM_ADAPTER_DISCOVERY_STATE_CHANGE_IND (deliver_discovery_result adapter device).2
      = (if (deliver_discovery_result adapter device).1.discovery_state
            ≠ adapter.discovery_state then 1 else 0) := by
  rcases deliver_discovery_result_shape adapter device with h | h
  · rw [h.1, h.2]
    simp
  · rw [h.1, h.2]
    exact lm_adapter_stop_discovery_events _

/-- C29, amended: in every step of the adapter (a discovery command, the
completion of a `StartDiscovery` or `StopDiscovery` call, the discovery timer,
a discovery result) other than the completion of a call with an error that is not
`org.bluez.Error.InProgress`, exactly one `LM_ADAPTER_DISCOVERY_STATE_CHANGE_IND`
is emitted if the value of `discovery_state` changed during the step, and none if
it did not.  The completion of a call with such an error emits no state-change
event, and rolls `discovery_state` back to stopped (start call) or started
(stop call). -/
theorem C29_state_change_events (adapter : lm_adapter) (i : lm_input) :
    count_events LM_ADAPTER_DISCOVERY_STATE_CHANGE_IND (lm_adapter_run_input adapter i).2
      = (if i.is_failed_completion = true then 0
        else if (lm_adapter_run_input adapter i).1.discovery_state ≠ adapter.discovery_state
          then 1 else 0)
    ∧ (∀ code_str id, code_str ≠ some "org.bluez.Error.InProgress" →
        (lm_adapter_run_input adapter
          (.start_discovery_done (.error code_str) id)).1.discovery_state
          = .LM_ADAPTER_DISCOVERY_STOPPED)
    ∧ (∀ code_str, code_str ≠ some "org.bluez.Error.InProgress" →
        (lm_adapter_run_input adapter
          (.stop_discovery_done (.error code_str))).1.discovery_state
          = .LM_ADAPTER_DISCOVERY_STARTED) := by
  refine ⟨?_, ?_, ?_⟩
  · cases i with
    | start_discovery => exact lm_adapter_start_discovery_events adapter
    | stop_discovery => exact lm_adapter_stop_discovery_events adapter
    | set_discovery_filter r s p m t =>
      simp [lm_input.is_failed_completion, lm_adapter_run_input,
        lm_adapter_set_discovery_filter, lm_adapter_call_method, count_events,
        lm_effect.is_event]
    | clear_discovery_filter =>
      simp [lm_input.is_failed_completion, lm_adapter_run_input,
        lm_adapter_clear_discovery_filter, lm_adapter_call_method, count_events,
        lm_effect.is_event]
    | start_discovery_done res id =>
      cases res with
      | success =>
        exact lm_adapter_set_discovery_state_events id adapter _
      | error code_str =>
        by_cases hc : code_str = some "org.bluez.Error.InProgress"
        · simp only [lm_input.is_failed_completion, lm_adapter_run_input,
            lm_adapter_start_discovery_cb, hc, if_true, bne_self_eq_false,
            Bool.false_eq_true, if_false]
          exact lm_adapter_set_discovery_state_events id adapter _
        · simp [lm_input.is_failed_completion, lm_adapter_run_input,
            lm_adapter_start_discovery_cb, hc, count_events]
    | stop_discovery_done res =>
      cases res with
      | success =>
        exact lm_adapter_set_discovery_state_events 0 adapter _
      | error code_str =>
        by_cases hc : code_str = some "org.bluez.Error.InProgress"
        · simp only [lm_input.is_failed_completion, lm_adapter_run_input,
            lm_adapter_stop_discovery_cb, hc, if_true, bne_self_eq_false,
            Bool.false_eq_true, if_false]
          exact lm_adapter_set_discovery_state_events 0 adapter _
        · simp [lm_input.is_failed_completion, lm_adapter_run_input,
            lm_adapter_stop_discovery_cb, hc, count_events]
    | discovery_timeout =>
      have h := lm_adapter_stop_discovery_events adapter
      simp only [lm_input.is_failed_completion, lm_adapter_run_input,
        lm_adapter_discovery_timeout_cb, count_events_append, h]
      rw [count_events_event_ne _ _ _ _ (by decide)]
      simp
    | discovery_result device =>
      exact deliver_discovery_result_events adapter device
  · intro code_str id hc
    simp [lm_adapter_run_input, lm_adapter_start_discovery_cb, hc]
  · intro code_str hc
    simp [lm_adapter_run_input, lm_adapter_stop_discovery_cb, hc]

/-- C29 amended, at the adapter `/a`: `lm_adapter_start_discovery` changes the
state and emits one state-change event; a `StopDiscovery` call that fails with
`org.bluez.Error.Failed` leaves the state started. -/
theorem C29_state_change_events_witness :
    count_events LM_ADAPTER_DISCOVERY_STATE_CHANGE_IND
      (lm_adapter_run_input example_adapter .start_discovery).2 = 1
    ∧ (lm_adapter_run_input example_adapter
        (.stop_discovery_done (.error (some "org.bluez.Error.Failed")))).1.discovery_state
      = .LM_ADAPTER_DISCOVERY_STARTED :=
  ⟨(C29_state_change_events example_adapter .start_discovery).1.trans (by decide),
   (C29_state_change_events example_adapter .start_discovery).2.2
      (some "org.bluez.Error.Failed") (by decide)⟩

/-! ## The transport picked for a mono location -/

/-- C30 at the device `/a/d` with one broadcast sink transport and the location
mono-right: the list of broadcast sink transports has length 1, the index
`lm_device_start_sync_broadcast` uses is 1, which is not smaller, and
`g_ptr_array_index` reads past the end of the list.  With the location mono-left
the index 0 yields the transport. -/
theorem C30_mono_right_index_out_of_bounds :
    (lm_device_get_transports example_device_bcast
        .LM_TRANSPORT_PROFILE_BAP_BCAST_SINK).length = 1
    ∧ (lm_transport_audio_location_value .LM_TRANSPORT_AUDIO_LOCATION_MONO_RIGHT).toNat = 1
    ∧ g_ptr_array_index
        (lm_device_get_transports example_device_bcast .LM_TRANSPORT_PROFILE_BAP_BCAST_SINK)
        (lm_transport_audio_location_value .LM_TRANSPORT_AUDIO_LOCATION_MONO_RIGHT).toNat
      = none
    ∧ lm_device_start_sync_broadcast example_device_bcast
        .LM_TRANSPORT_AUDIO_LOCATION_MONO_RIGHT = none
    ∧ (lm_device_start_sync_broadcast example_device_bcast
        .LM_TRANSPORT_AUDIO_LOCATION_MONO_LEFT).map (fun r => r.2.2)
      = some ["/a/d/bis1"] := by
  decide

/-! ## The active transport as an invariant -/

/-- C28, the claim as written fails: the device `/a/d` holds the transport
`/a/d/fd0` with the null profile and has no active transport, as the winner rule
says.  A `PropertiesChanged` signal sets the `UUID` of the transport to the audio
sink UUID: the profile becomes a2dp sink, `on_transport_prop_changed` does not
recompute the active transport, and the active transport stays none although
the winner is `/a/d/fd0`. -/
theorem C28_uuid_change_leaves_active_transport :
    example_device_plain_transport.active_transport
      = lm_device_transport_winner example_device_plain_transport
    ∧ (lm_device_handle_signal sig_uuids 1 example_device_plain_transport
        (.TransportPropertiesChanged "/a/d/fd0"
          [.MEDIA_TRANSPORT_PROPERTY_UUID "0000110b-0000-1000-8000-00805f9b34fb"])).1.active_transport
      = none
    ∧ lm_device_transport_winner
        (lm_device_handle_signal sig_uuids 1 example_device_plain_transport
          (.TransportPropertiesChanged "/a/d/fd0"
            [.MEDIA_TRANSPORT_PROPERTY_UUID "0000110b-0000-1000-8000-00805f9b34fb"])).1
      = some "/a/d/fd0" := by
  decide

theorem lm_device_transport_winner_congr (d₁ d₂ : lm_device)
    (h : d₁.transports = d₂.transports) :
    lm_device_transport_winner d₁ = lm_device_transport_winner d₂ := by
  unfold lm_device_transport_winner lm_device_find_transport
  rw [h]

theorem lm_device_active_transport_inv_congr (d₁ d₂ : lm_device)
    (ht : d₁.transports = d₂.transports) (ha : d₁.active_transport = d₂.active_transport)
    (h : lm_device_active_transport_inv d₂) : lm_device_active_transport_inv d₁ := by
  unfold lm_device_active_transport_inv at h ⊢
  rw [ha, h]
  exact (lm_device_transport_winner_congr d₁ d₂ ht).symm

theorem lm_device_update_active_transport_inv (device : lm_device) :
    lm_device_active_transport_inv (lm_device_update_active_transport device).1 := by
  rw [lm_device_update_active_transport_eq]
  unfold lm_device_active_transport_inv
  split
  · rename_i h
    exact h
  · rfl

theorem lm_device_update_active_player_active_transport (device : lm_device) :
    (lm_device_update_active_player device).1.active_transport = device.active_transport := by
  rw [lm_device_update_active_player_eq]
  split <;> rfl

theorem lm_device_transports_inv_congr (d₁ d₂ : lm_device)
    (ht : d₁.transports = d₂.transports) (ha : d₁.active_transport = d₂.active_transport)
    (h : lm_device_transports_inv d₂) : lm_device_transports_inv d₁ :=
  ⟨by rw [ht]; exact h.1, lm_device_active_transport_inv_congr d₁ d₂ ht ha h.2⟩

theorem lm_device_update_active_transport_transports_inv (device : lm_device)
    (h : (g_hash_table_get_keys device.transports).Nodup) :
    lm_device_transports_inv (lm_device_update_active_transport device).1 :=
  ⟨by rw [(lm_device_update_active_transport_frame device).2.2.2]; exact h,
    lm_device_update_active_transport_inv device⟩

theorem lm_device_transports_inv_timer (device : lm_device) (id : Nat)
    (h : lm_device_transports_inv device) :
    lm_device_transports_inv { device with bcast_transport_timer_id := id } :=
  lm_device_transports_inv_congr _ device rfl rfl h

theorem lm_device_on_interface_appeared_entry_transports_inv (U : lm_uuids) (id : Nat)
    (object : String) (device : lm_device) (i : lm_interface_added)
    (h : lm_device_transports_inv device) :
    lm_device_transports_inv (lm_device_on_interface_appeared_entry U id object device i).1 := by
  cases i with
  | INTERFACE_DEVICE properties => exact h
  | other name => exact h
  | INTERFACE_MEDIA_PLAYER properties =>
    simp only [lm_device_on_interface_appeared_entry]
    split
    · exact h
    · refine lm_device_transports_inv_congr _ device ?_ ?_ h
      · rw [lm_device_update_active_player_transports]
        cases (g_hash_table_lookup device.players object).isNone <;> rfl
      · rw [lm_device_update_active_player_active_transport]
        cases (g_hash_table_lookup device.players object).isNone <;> rfl
  | INTERFACE_MEDIA_TRANSPORT properties =>
    simp only [lm_device_on_interface_appeared_entry]
    by_cases hp : g_str_has_prefix object device.path = true
    · simp only [hp, Bool.not_true, Bool.false_eq_true, if_false]
      cases hl : g_hash_table_lookup device.transports object with
      | none =>
        simp only [Option.isNone_none, if_true, Option.getD_none]
        have hk : ∀ t, (g_hash_table_get_keys (g_hash_table_store
            (g_hash_table_insert device.transports object
              (lm_transport_create (some device.path) object)) object t)).Nodup := by
          intro t
          rw [g_hash_table_keys_store]
          exact g_hash_table_keys_insert_nodup _ _ _ h.1
        split
        · exact lm_device_transports_inv_timer _ _
            (lm_device_update_active_transport_transports_inv _ (hk _))
        · exact lm_device_update_active_transport_transports_inv _ (hk _)
      | some t₀ =>
        simp only [Option.isNone_some, Bool.false_eq_true, if_false, Option.getD_some]
        have hk : ∀ t, (g_hash_table_get_keys
            (g_hash_table_store device.transports object t)).Nodup := by
          intro t
          rw [g_hash_table_keys_store]
          exact h.1
        split
        · exact lm_device_transports_inv_timer _ _
            (lm_device_update_active_transport_transports_inv _ (hk _))
        · exact lm_device_update_active_transport_transports_inv _ (hk _)
    · have hp' : g_str_has_prefix object device.path = false := by
        cases hb : g_str_has_prefix object device.path with
        | true => exact absurd hb hp
        | false => rfl
      simp only [hp', Bool.not_false, if_true]
      exact h

theorem lm_device_on_interface_appeared_transports_inv (U : lm_uuids) (id : Nat)
    (device : lm_device) (object : String) (interfaces : List lm_interface_added)
    (h : lm_device_transports_inv device) :
    lm_device_transports_inv (lm_device_on_interface_appeared U id device object interfaces).1 := by
  induction interfaces generalizing device with
  | nil => exact h
  | cons i is ih =>
    exact ih _ (lm_device_on_interface_appeared_entry_transports_inv U id object device i h)

theorem lm_device_on_interface_disappeared_entry_transports_inv (object : String)
    (device : lm_device) (i : lm_interface_removed) (h : lm_device_transports_inv device) :
    lm_device_transports_inv (lm_device_on_interface_disappeared_entry object device i).1 := by
  cases i with
  | INTERFACE_DEVICE => exact h
  | other name => exact h
  | INTERFACE_MEDIA_PLAYER =>
    simp only [lm_device_on_interface_disappeared_entry]
    split
    · exact h
    · cases hl : g_hash_table_lookup device.players object with
      | none => exact h
      | some player =>
        refine lm_device_transports_inv_congr _ device ?_ ?_ h
        · rw [lm_device_update_active_player_transports]
        · rw [lm_device_update_active_player_active_transport]
  | INTERFACE_MEDIA_TRANSPORT =>
    simp only [lm_device_on_interface_disappeared_entry]
    split
    · exact h
    · cases hl : g_hash_table_lookup device.transports object with
      | none => exact h
      | some transport =>
        have hk : (g_hash_table_get_keys
            (g_hash_table_remove device.transports object)).Nodup :=
          g_hash_table_keys_remove_nodup _ _ h.1
        simp only []
        split
        · exact lm_device_update_active_transport_transports_inv _ hk
        · exact lm_device_update_active_transport_transports_inv _ hk

theorem lm_device_on_interface_disappeared_transports_inv (device : lm_device)
    (object : String) (interfaces : List lm_interface_removed)
    (h : lm_device_transports_inv device) :
    lm_device_transports_inv (lm_device_on_interface_disappeared device object interfaces).1 := by
  induction interfaces generalizing device with
  | nil => exact h
  | cons i is ih =>
    exact ih _ (lm_device_on_interface_disappeared_entry_transports_inv object device i h)

theorem on_player_prop_changed_transports_inv (device : lm_device) (path : String)
    (properties_changed : List lm_player_property) (h : lm_device_transports_inv device) :
    lm_device_transports_inv (on_player_prop_changed device path properties_changed).1 := by
  unfold on_player_prop_changed
  split
  · exact h
  · cases hl : g_hash_table_lookup device.players path with
    | none => exact h
    | some player => exact lm_device_transports_inv_congr _ device rfl rfl h

theorem g_hash_table_store_map_same {V β : Type} (t : GHashTable V) (key : String)
    (v v' : V) (g : V → β) (hn : (g_hash_table_get_keys t).Nodup)
    (hl : g_hash_table_lookup t key = some v) (hg : g v' = g v) :
    (g_hash_table_get_values (g_hash_table_store t key v')).map g
      = (g_hash_table_get_values t).map g := by
  have hmem := g_hash_table_lookup_mem t key v hl
  unfold g_hash_table_get_values g_hash_table_store
  rw [List.map_map, List.map_map, List.map_map]
  apply List.map_congr_left
  intro e he
  by_cases hk : e.1 = key
  · have hev : e = (key, v) :=
      List.inj_on_of_nodup_map hn he hmem hk
    simp [hk, hg, hev]
  · simp [hk]

theorem lm_device_find_transport_eq_map (device : lm_device)
    (profile : lm_transport_profile_t) :
    lm_device_find_transport device profile
      = ((((g_hash_table_get_values device.transports).map
            (fun t => (t.profile, t.path))).find? (fun x => x.1 == profile)).map
          (fun x => x.2)) := by
  unfold lm_device_find_transport lm_transport_get_profile lm_transport_get_path
  rw [List.find?_map, Option.map_map]
  rfl

theorem lm_device_transport_winner_store (device : lm_device) (path : String)
    (t t' : lm_transport) (hn : (g_hash_table_get_keys device.transports).Nodup)
    (hl : g_hash_table_lookup device.transports path = some t)
    (hprofile : t'.profile = t.profile) (hpath : t'.path = t.path) :
    lm_device_transport_winner
        { device with transports := g_hash_table_store device.transports path t' }
      = lm_device_transport_winner device := by
  have hg : (fun t : lm_transport => (t.profile, t.path)) t'
      = (fun t : lm_transport => (t.profile, t.path)) t := by
    simp [hprofile, hpath]
  have hmap := g_hash_table_store_map_same device.transports path t t'
    (fun t => (t.profile, t.path)) hn hl hg
  unfold lm_device_transport_winner
  rw [lm_device_find_transport_eq_map, lm_device_find_transport_eq_map,
    lm_device_find_transport_eq_map device, lm_device_find_transport_eq_map device]
  simp only [hmap]

theorem lm_transport_update_properties_keeps_profile (U : lm_uuids)
    (active_transport : Option String) (transport : lm_transport)
    (ps : List lm_transport_property) (h : ps.all (fun p => !p.is_uuid) = true) :
    (lm_transport_update_properties U active_transport transport ps).1.profile
      = transport.profile := by
  induction ps generalizing transport with
  | nil => rfl
  | cons p ps ih =>
    simp only [List.all_cons, Bool.and_eq_true, Bool.not_eq_true'] at h
    simp only [lm_transport_update_properties]
    rw [ih _ (by simpa using h.2)]
    cases p <;> first | rfl | simp [lm_transport_property.is_uuid] at h

theorem lm_device_transports_inv_store (device : lm_device) (path : String)
    (t t' : lm_transport) (h : lm_device_transports_inv device)
    (hl : g_hash_table_lookup device.transports path = some t)
    (hprofile : t'.profile = t.profile) (hpath : t'.path = t.path) :
    lm_device_transports_inv
      { device with transports := (g_hash_table_store device.transports path t') } := by
  constructor
  · show (g_hash_table_get_keys (g_hash_table_store device.transports path t')).Nodup
    rw [g_hash_table_keys_store]
    exact h.1
  · unfold lm_device_active_transport_inv
    rw [lm_device_transport_winner_store device path t t' h.1 hl hprofile hpath]
    exact h.2

theorem on_transport_prop_changed_transports_inv (U : lm_uuids) (device : lm_device)
    (path : String) (properties_changed : List lm_transport_property)
    (hp : properties_changed.all (fun p => !p.is_uuid) = true)
    (h : lm_device_transports_inv device) :
    lm_device_transports_inv (on_transport_prop_changed U device path properties_changed).1 := by
  unfold on_transport_prop_changed
  split
  · exact h
  · cases hl : g_hash_table_lookup device.transports path with
    | none => exact h
    | some transport =>
      have hprofile := lm_transport_update_properties_keeps_profile U device.active_transport
        transport properties_changed hp
      have hpath := (lm_transport_update_properties_events U device.active_transport
        transport transport properties_changed rfl rfl).2.2
      have hinv := lm_device_transports_inv_store device path transport _ h hl
        hprofile hpath
      simp only []
      split
      · exact lm_device_transports_inv_congr _ _ rfl rfl hinv
      · exact hinv

/-- C28, amended: the invariant that the transport map of a device has each key
once and `active_transport` is the priority winner over the map (an a2dp sink
transport if the map holds one, otherwise a bap sink transport, otherwise none)
holds for a device as `lm_device_create_with_path` makes it and is kept by every
signal the device handles (object-appeared, object-disappeared, player and
transport property-changed), except a transport property-changed signal whose
dictionary has a `UUID` entry: `on_transport_prop_changed` does not recompute
the active transport.  Under the invariant the active transport is the path of
an a2dp sink or bap sink transport of the map. -/
theorem C28_active_transport_is_winner (U : lm_uuids) (id : Nat) (device : lm_device)
    (signal : lm_device_signal) (adapter path : String) :
    lm_device_transports_inv (lm_device_create_with_path adapter path)
    ∧ (lm_device_transports_inv device → signal.keeps_profile = true →
        lm_device_transports_inv (lm_device_handle_signal U id device signal).1)
    ∧ (lm_device_transports_inv device → ∀ active, device.active_transport = some active →
        ∃ t ∈ g_hash_table_get_values device.transports, t.path = active
          ∧ (t.profile = .LM_TRANSPORT_PROFILE_A2DP_SINK
            ∨ t.profile = .LM_TRANSPORT_PROFILE_BAP_SINK)) := by
  refine ⟨⟨List.nodup_nil, rfl⟩, ?_, ?_⟩
  · intro h hk
    cases signal with
    | InterfacesAdded object interfaces =>
      exact lm_device_on_interface_appeared_transports_inv U id device object interfaces h
    | InterfacesRemoved object interfaces =>
      exact lm_device_on_interface_disappeared_transports_inv device object interfaces h
    | PlayerPropertiesChanged p properties_changed =>
      exact on_player_prop_changed_transports_inv device p properties_changed h
    | TransportPropertiesChanged p properties_changed =>
      exact on_transport_prop_changed_transports_inv U device p properties_changed hk h
  · intro h active ha
    have hinv := h.2
    unfold lm_device_active_transport_inv lm_device_transport_winner at hinv
    rw [ha] at hinv
    have hfind : ∀ profile, lm_device_find_transport device profile = some active →
        ∃ t ∈ g_hash_table_get_values device.transports, t.path = active
          ∧ t.profile = profile := by
      intro profile hf
      unfold lm_device_find_transport at hf
      cases hfd : (g_hash_table_get_values device.transports).find?
          (fun t => lm_transport_get_profile t == profile) with
      | none => simp [hfd] at hf
      | some t =>
        simp only [hfd] at hf
        have hpred := List.find?_some hfd
        refine ⟨t, List.mem_of_find?_eq_some hfd, ?_, ?_⟩
        · simpa [lm_transport_get_path] using hf
        · simpa [lm_transport_get_profile] using hpred
    cases ha2 : lm_device_find_transport device .LM_TRANSPORT_PROFILE_A2DP_SINK with
    | some t =>
      rw [ha2] at hinv
      obtain ⟨x, hx, hxp, hxprof⟩ := hfind _ (ha2.trans hinv.symm)
      exact ⟨x, hx, hxp, Or.inl hxprof⟩
    | none =>
      rw [ha2] at hinv
      obtain ⟨x, hx, hxp, hxprof⟩ := hfind _ hinv.symm
      exact ⟨x, hx, hxp, Or.inr hxprof⟩

/-- C28 amended, at the device `/a/d` as created, when its a2dp sink transport
`/a/d/fd0` appears: afterwards the invariant holds and the transport is the
active one. -/
theorem C28_active_transport_is_winner_witness :
    lm_device_transports_inv
      (lm_device_handle_signal sig_uuids 1 (lm_device_create_with_path "/a" "/a/d")
        (.InterfacesAdded "/a/d/fd0" [.INTERFACE_MEDIA_TRANSPORT
          [.MEDIA_TRANSPORT_PROPERTY_UUID "0000110b-0000-1000-8000-00805f9b34fb"]])).1
    ∧ (lm_device_handle_signal sig_uuids 1 (lm_device_create_with_path "/a" "/a/d")
        (.InterfacesAdded "/a/d/fd0" [.INTERFACE_MEDIA_TRANSPORT
          [.MEDIA_TRANSPORT_PROPERTY_UUID
            "0000110b-0000-1000-8000-00805f9b34fb"]])).1.active_transport
      = some "/a/d/fd0" :=
  ⟨(C28_active_transport_is_winner sig_uuids 1 (lm_device_create_with_path "/a" "/a/d")
      (.InterfacesAdded "/a/d/fd0" [.INTERFACE_MEDIA_TRANSPORT
        [.MEDIA_TRANSPORT_PROPERTY_UUID "0000110b-0000-1000-8000-00805f9b34fb"]])
      "/a" "/a/d").2.1
      (C28_active_transport_is_winner sig_uuids 1 (lm_device_create_with_path "/a" "/a/d")
        (.InterfacesAdded "/a/d/fd0" [.INTERFACE_MEDIA_TRANSPORT
          [.MEDIA_TRANSPORT_PROPERTY_UUID "0000110b-0000-1000-8000-00805f9b34fb"]])
        "/a" "/a/d").1 rfl,
   by decide⟩

/-! ## Object-appeared signals for cached paths -/

/-- C27, the claim as written fails: the player `/a/d/avrcp/player0` is cached in
the player map of the device `/a/d` and is its active player; an object-appeared
signal for its path that carries `Status = "playing"` changes the status of the
cached player from stopped to playing and emits `LM_PLAYER_STATUS_CHANGE_IND`. -/
theorem C27_cached_player_is_updated :
    g_hash_table_lookup example_device_player_active.players "/a/d/avrcp/player0"
      = some example_player
    ∧ example_player.status = some "stopped"
    ∧ (g_hash_table_lookup
        (lm_device_on_interface_appeared sig_uuids 1 example_device_player_active
          "/a/d/avrcp/player0"
          [.INTERFACE_MEDIA_PLAYER [.MEDIA_PLAYER_PROPERTY_STATUS "playing"]]).1.players
        "/a/d/avrcp/player0").map (fun p => p.status) = some (some "playing")
    ∧ (lm_device_on_interface_appeared sig_uuids 1 example_device_player_active
        "/a/d/avrcp/player0"
        [.INTERFACE_MEDIA_PLAYER [.MEDIA_PLAYER_PROPERTY_STATUS "playing"]]).2
      = [.event LM_PLAYER_STATUS_CHANGE_IND LM_STATUS_SUCCESS
          (.player "/a/d/avrcp/player0")] := by
  decide

theorem g_hash_table_store_same {V : Type} (t : GHashTable V) (key : String) (v : V)
    (hn : (g_hash_table_get_keys t).Nodup) (hl : g_hash_table_lookup t key = some v) :
    g_hash_table_store t key v = t := by
  have hmem := g_hash_table_lookup_mem t key v hl
  unfold g_hash_table_store
  have hmap : List.map (fun e : String × V => if (e.1 == key) = true then (e.1, v) else e) t
      = List.map (fun e => e) t := by
    apply List.map_congr_left
    intro e he
    by_cases hk : e.1 = key
    · have hev : e = (key, v) := List.inj_on_of_nodup_map hn he hmem hk
      simp [hev]
    · simp [hk]
  rw [hmap, List.map_id']

theorem lm_adapter_on_interface_appeared_cached (U : lm_uuids) (adapter : lm_adapter)
    (object : String) (interfaces : List lm_interface_added)
    (hc : object ∈ g_hash_table_get_keys adapter.device_cache)
    (ht : ∀ i ∈ interfaces, i.is_media_transport = false) :
    lm_adapter_on_interface_appeared U adapter object interfaces = (adapter, []) := by
  induction interfaces with
  | nil => rfl
  | cons i is ih =>
    have hi : lm_adapter_on_interface_appeared_entry U object adapter i = (adapter, []) := by
      cases i with
      | INTERFACE_DEVICE properties =>
        have hcont := (g_hash_table_contains_iff adapter.device_cache object).mpr hc
        simp only [lm_adapter_on_interface_appeared_entry, hcont, if_true]
        split <;> rfl
      | INTERFACE_MEDIA_TRANSPORT properties =>
        have := ht _ (List.mem_cons_self _ _)
        simp [lm_interface_added.is_media_transport] at this
      | INTERFACE_MEDIA_PLAYER properties => rfl
      | other name => rfl
    simp only [lm_adapter_on_interface_appeared, hi]
    rw [ih (fun j hj => ht j (List.mem_cons_of_mem _ hj))]
    rfl

theorem lm_device_on_interface_appeared_singleton (U : lm_uuids) (id : Nat)
    (device : lm_device) (object : String) (i : lm_interface_added) :
    lm_device_on_interface_appeared U id device object [i]
      = lm_device_on_interface_appeared_entry U id object device i := by
  simp [lm_device_on_interface_appeared]

theorem lm_device_on_interface_appeared_cached_player (U : lm_uuids) (id : Nat)
    (device : lm_device) (object : String) (player : lm_player)
    (properties : List lm_player_property)
    (hp : g_str_has_prefix object device.path = true)
    (hl : g_hash_table_lookup device.players object = some player) :
    lm_device_on_interface_appeared_entry U id object device
        (.INTERFACE_MEDIA_PLAYER properties)
      = ((lm_device_update_active_player
            (on_player_prop_changed device object properties).1).1,
          (on_player_prop_changed device object properties).2
            ++ (lm_device_update_active_player
                (on_player_prop_changed device object properties).1).2)
    ∧ (on_player_prop_changed device object properties).1.players
      = g_hash_table_store device.players object
          (lm_player_update_properties device.active_player player properties).1 := by
  simp only [lm_device_on_interface_appeared_entry, on_player_prop_changed, hp, hl,
    Bool.not_true, Bool.false_eq_true, if_false, Option.isNone_some, Option.getD_some]
  exact ⟨trivial, trivial⟩

theorem lm_device_on_interface_appeared_cached_player_noop (U : lm_uuids) (id : Nat)
    (device : lm_device) (object : String) (player : lm_player)
    (hp : g_str_has_prefix object device.path = true)
    (hl : g_hash_table_lookup device.players object = some player)
    (hn : (g_hash_table_get_keys device.players).Nodup)
    (ha : device.active_player = lm_device_player_winner device) :
    lm_device_on_interface_appeared_entry U id object device (.INTERFACE_MEDIA_PLAYER [])
      = (device, []) := by
  simp only [lm_device_on_interface_appeared_entry, hp, hl, Bool.not_true,
    Bool.false_eq_true, if_false, Option.isNone_some, Option.getD_some,
    lm_player_update_properties, g_hash_table_store_same device.players object player hn hl,
    List.nil_append]
  rw [lm_device_update_active_player_eq, if_pos ha]

theorem lm_device_on_interface_appeared_cached_transport (U : lm_uuids) (id : Nat)
    (device : lm_device) (object : String) (transport : lm_transport)
    (properties : List lm_transport_property)
    (hp : g_str_has_prefix object device.path = true)
    (hl : g_hash_table_lookup device.transports object = some transport) :
    (lm_device_on_interface_appeared_entry U id object device
        (.INTERFACE_MEDIA_TRANSPORT properties)).1.transports
      = g_hash_table_store device.transports object
          (lm_transport_update_properties U device.active_transport transport properties).1
    ∧ g_hash_table_get_keys (lm_device_on_interface_appeared_entry U id object device
        (.INTERFACE_MEDIA_TRANSPORT properties)).1.transports
      = g_hash_table_get_keys device.transports := by
  have h1 : (lm_device_on_interface_appeared_entry U id object device
        (.INTERFACE_MEDIA_TRANSPORT properties)).1.transports
      = g_hash_table_store device.transports object
          (lm_transport_update_properties U device.active_transport transport
            properties).1 := by
    simp only [lm_device_on_interface_appeared_entry, hp, hl, Bool.not_true,
      Bool.false_eq_true, if_false, Option.isNone_some, Option.getD_some]
    split
    · exact (lm_device_update_active_transport_frame _).2.2.2
    · exact (lm_device_update_active_transport_frame _).2.2.2
  exact ⟨h1, by rw [h1, g_hash_table_keys_store]⟩

theorem lm_device_on_interface_appeared_cached_transport_noop (U : lm_uuids) (id : Nat)
    (device : lm_device) (object : String) (transport : lm_transport)
    (hp : g_str_has_prefix object device.path = true)
    (hl : g_hash_table_lookup device.transports object = some transport)
    (hn : (g_hash_table_get_keys device.transports).Nodup)
    (ha : device.active_transport = lm_device_transport_winner device)
    (hb : ¬ (transport.profile = .LM_TRANSPORT_PROFILE_BAP_BCAST_SINK
      ∧ device.bcast_transport_timer_id = 0)) :
    lm_device_on_interface_appeared_entry U id object device (.INTERFACE_MEDIA_TRANSPORT [])
      = (device, []) := by
  simp only [lm_device_on_interface_appeared_entry, hp, hl, Bool.not_true,
    Bool.false_eq_true, if_false, Option.isNone_some, Option.getD_some,
    lm_transport_update_properties,
    g_hash_table_store_same device.transports object transport hn hl, List.nil_append]
  rw [lm_device_update_active_transport_eq, if_pos ha]
  simp only [lm_transport_get_profile]
  rw [if_neg hb]

/-- C27, amended: an object-appeared signal for a device path that is already a
key of the adapter's device map is a no-op as far as the device is concerned: a
signal without the media transport interface leaves the adapter, its map and the
cached device unchanged and emits nothing (the properties it carries are not
applied).  For a player or transport path that is already cached in the map of
its device no second entity is created and the map keeps its keys, but the
properties the signal carries are applied to the cached entity and the active
player or transport is recomputed: for a player the signal acts as the
property-changed signal followed by `lm_device_update_active_player`.  Such a
signal is a no-op when it carries no property, the map has each key once, the
active player or transport is already the priority winner and, for a transport,
the profile is not broadcast sink or the broadcast timer is running. -/
theorem C27_appeared_for_cached_path (U : lm_uuids) (id : Nat) (adapter : lm_adapter)
    (device : lm_device) (object : String) :
    (object ∈ g_hash_table_get_keys adapter.device_cache →
      ∀ interfaces, (∀ i ∈ interfaces, lm_interface_added.is_media_transport i = false) →
        lm_adapter_on_interface_appeared U adapter object interfaces = (adapter, []))
    ∧ ( g_str_has_prefix object device.path = true →
      ∀ player, g_hash_table_lookup device.players object = some player →
        (∀ properties,
          lm_device_on_interface_appeared U id device object
              [.INTERFACE_MEDIA_PLAYER properties]
            = ((lm_device_update_active_player
                  (on_player_prop_changed device object properties).1).1,
                (on_player_prop_changed device object properties).2
                  ++ (lm_device_update_active_player
                      (on_player_prop_changed device object properties).1).2)
          ∧ g_hash_table_get_keys (lm_device_on_interface_appeared U id device object
              [.INTERFACE_MEDIA_PLAYER properties]).1.players
            = g_hash_table_get_keys device.players)
        ∧ ((g_hash_table_get_keys device.players).Nodup →
          device.active_player = lm_device_player_winner device →
          lm_device_on_interface_appeared U id device object [.INTERFACE_MEDIA_PLAYER []]
            = (device, [])))
    ∧ ( g_str_has_prefix object device.path = true →
      ∀ transport, g_hash_table_lookup device.transports object = some transport →
        (∀ properties,
          (lm_device_on_interface_appeared U id device object
              [.INTERFACE_MEDIA_TRANSPORT properties]).1.transports
            = g_hash_table_store device.transports object
                (lm_transport_update_properties U device.active_transport transport
                  properties).1
          ∧ g_hash_table_get_keys (lm_device_on_interface_appeared U id device object
              [.INTERFACE_MEDIA_TRANSPORT properties]).1.transports
            = g_hash_table_get_keys device.transports)
        ∧ ((g_hash_table_get_keys device.transports).Nodup →
          device.active_transport = lm_device_transport_winner device →
          ¬ (transport.profile = .LM_TRANSPORT_PROFILE_BAP_BCAST_SINK
            ∧ device.bcast_transport_timer_id = 0) →
          lm_device_on_interface_appeared U id device object [.INTERFACE_MEDIA_TRANSPORT []]
            = (device, []))) := by
  refine ⟨fun hc interfaces ht =>
    lm_adapter_on_interface_appeared_cached U adapter object interfaces hc ht, ?_, ?_⟩
  · intro hp player hl
    refine ⟨fun properties => ?_, fun hn ha => ?_⟩
    · have h := lm_device_on_interface_appeared_cached_player U id device object player
        properties hp hl
      rw [lm_device_on_interface_appeared_singleton, h.1]
      refine ⟨rfl, ?_⟩
      show g_hash_table_get_keys (lm_device_update_active_player _).1.players = _
      rw [(lm_device_update_active_player_frame _).1, h.2, g_hash_table_keys_store]
    · rw [lm_device_on_interface_appeared_singleton]
      exact lm_device_on_interface_appeared_cached_player_noop U id device object player
        hp hl hn ha
  · intro hp transport hl
    refine ⟨fun properties => ?_, fun hn ha hb => ?_⟩
    · rw [lm_device_on_interface_appeared_singleton]
      exact lm_device_on_interface_appeared_cached_transport U id device object transport
        properties hp hl
    · rw [lm_device_on_interface_appeared_singleton]
      exact lm_device_on_interface_appeared_cached_transport_noop U id device object
        transport hp hl hn ha hb

/-- C27 amended, at the adapter `/a` with the device `/a/d` cached, and at the
device `/a/d` with its active player cached: an object-appeared signal for
`/a/d` with the device interface changes nothing, and one for the player
without properties changes nothing. -/
theorem C27_appeared_for_cached_path_witness :
    lm_adapter_on_interface_appeared sig_uuids example_adapter_devices "/a/d"
        [.INTERFACE_DEVICE [.DEVICE_PROPERTY_RSSI (-60)]]
      = (example_adapter_devices, [])
    ∧ lm_device_on_interface_appeared sig_uuids 1 example_device_player_active
        "/a/d/avrcp/player0" [.INTERFACE_MEDIA_PLAYER []]
      = (example_device_player_active, []) :=
  ⟨(C27_appeared_for_cached_path sig_uuids 1 example_adapter_devices
      example_device_player_active "/a/d").1 (by decide) _ (by decide),
   ((C27_appeared_for_cached_path sig_uuids 1 example_adapter_devices
      example_device_player_active "/a/d/avrcp/player0").2.1 (by decide) example_player
      (by decide)).2 (by decide) (by decide)⟩

/-! ## A device batch handled twice by the adapter -/

theorem g_hash_table_lookup_store_self {V : Type} (t : GHashTable V) (key : String) (v : V) :
    g_hash_table_lookup (g_hash_table_store t key v) key
      = (g_hash_table_lookup t key).map (fun _ => v) := by
  unfold g_hash_table_lookup g_hash_table_store
  induction t with
  | nil => rfl
  | cons e t ih =>
    by_cases hk : e.1 = key
    · simp [hk]
    · have hb : (e.1 == key) = false := beq_eq_false_iff_ne.mpr hk
      simp only [List.map_cons, hb, Bool.false_eq_true, if_false, List.find?_cons]
      exact ih

/-- The effects of `deliver_discovery_result` do not depend on the device map
of the adapter. -/
theorem deliver_discovery_result_effects_cache (adapter : lm_adapter)
    (cache : GHashTable lm_device) (device : lm_device) :
    (deliver_discovery_result { adapter with device_cache := cache } device).2
      = (deliver_discovery_result adapter device).2 := by
  have hm : matches_discovery_filter { adapter with device_cache := cache } device
      = matches_discovery_filter adapter device := rfl
  unfold deliver_discovery_result
  rw [hm]
  by_cases hc : lm_device_get_connection_state device = .LM_DEVICE_DISCONNECTED
  · rw [if_pos hc, if_pos hc]
    by_cases hmm : (!matches_discovery_filter adapter device) = true
    · rw [if_pos hmm, if_pos hmm]
    · rw [if_neg hmm, if_neg hmm]
      dsimp only
      cases adapter.discovery_filter with
      | none => rfl
      | some f =>
        dsimp only
        by_cases hmax : f.max_devices ≠ 0
        · rw [if_pos hmax, if_pos hmax]
          by_cases hge : (adapter.discovery_devices_found + 1) % 2 ^ 32 ≥ f.max_devices
          · rw [if_pos hge, if_pos hge]
            simp only [lm_adapter_stop_discovery_eq]
            by_cases hs : adapter.discovery_state = .LM_ADAPTER_DISCOVERY_STARTED
            · simp [hs]
            · simp [hs]
          · rw [if_neg hge, if_neg hge]
        · rw [if_neg hmax, if_neg hmax]
  · rw [if_neg hc, if_neg hc]

/-- `on_device_prop_changed` for a device that is cached under the path: the
updated device takes the place of the cached one, and the effects are those of
the property loop followed by those of the discovery result, if one is
delivered. -/
theorem on_device_prop_changed_cached (adapter : lm_adapter) (path : String)
    (properties_changed : List lm_device_property) (device : lm_device)
    (hl : g_hash_table_lookup adapter.device_cache path = some device) :
    (on_device_prop_changed adapter path properties_changed).1.device_cache
      = g_hash_table_store adapter.device_cache path
          (lm_device_update_properties device properties_changed).1
    ∧ (on_device_prop_changed adapter path properties_changed).2
      = (lm_device_update_properties device properties_changed).2
        ++ (if adapter.discovery_state = .LM_ADAPTER_DISCOVERY_STARTED
              ∧ properties_changed.any lm_device_property.is_dis_result = true then
            (deliver_discovery_result adapter
              (lm_device_update_properties device properties_changed).1).2
          else []) := by
  unfold on_device_prop_changed
  simp only [hl]
  by_cases hc : adapter.discovery_state = .LM_ADAPTER_DISCOVERY_STARTED
      ∧ properties_changed.any lm_device_property.is_dis_result = true
  · rw [if_pos hc, if_pos hc]
    exact ⟨(deliver_discovery_result_frame _ _).2,
      by rw [deliver_discovery_result_effects_cache]⟩
  · rw [if_neg hc, if_neg hc]
    exact ⟨rfl, (List.append_nil _).symm⟩

/-- A discovery result for a disconnected device that passes the filter emits
`LM_ADAPTER_DISCOVERY_RESULT_IND` once. -/
theorem deliver_discovery_result_result_ind (adapter : lm_adapter) (device : lm_device)
    (hc : lm_device_get_connection_state device = .LM_DEVICE_DISCONNECTED)
    (hm : matches_discovery_filter adapter device = true) :
    count_events LM_ADAPTER_DISCOVERY_RESULT_IND (deliver_discovery_result adapter device).2
      = 1 := by
  have hres : ∀ buf, count_events LM_ADAPTER_DISCOVERY_RESULT_IND
      [.event LM_ADAPTER_DISCOVERY_RESULT_IND LM_STATUS_SUCCESS buf] = 1 :=
    fun buf => count_events_event_self _ _ _
  unfold deliver_discovery_result
  rw [if_pos hc]
  have hmm : ¬ (!matches_discovery_filter adapter device) = true := by simp [hm]
  rw [if_neg hmm]
  dsimp only
  cases adapter.discovery_filter with
  | none => exact hres _
  | some f =>
    dsimp only
    by_cases hmax : f.max_devices ≠ 0
    · rw [if_pos hmax]
      by_cases hge : (adapter.discovery_devices_found + 1) % 2 ^ 32 ≥ f.max_devices
      · rw [if_pos hge]
        rw [count_events_append, count_events_append, hres,
          count_events_event_ne _ _ _ _ (by decide)]
        simp only [lm_adapter_stop_discovery_eq]
        by_cases hs : adapter.discovery_state = .LM_ADAPTER_DISCOVERY_STARTED
        · simp [hs, count_events, lm_effect.is_event]
          decide
        · simp [hs, count_events]
      · rw [if_neg hge]
        exact hres _
    · rw [if_neg hmax]
      exact hres _

theorem lm_device_set_conn_state_no_event (device : lm_device)
    (state : lm_device_connection_state_t) (m : Nat)
    (hm : LM_DEVICE_CONN_STATE_CHANGE_IND ≠ m) :
    count_events m (lm_device_set_conn_state device state).2 = 0 := by
  unfold lm_device_set_conn_state
  dsimp only
  by_cases h : state ≠ device.connection_state
  · rw [if_pos h]
    exact count_events_event_ne _ _ _ _ hm
  · rw [if_neg h]
    rfl

theorem deliver_discovery_result_no_device_event (adapter : lm_adapter) (device : lm_device) :
    count_events LM_DEVICE_CONN_STATE_CHANGE_IND (deliver_discovery_result adapter device).2
      = 0 := by
  have hres : ∀ buf, count_events LM_DEVICE_CONN_STATE_CHANGE_IND
      [.event LM_ADAPTER_DISCOVERY_RESULT_IND LM_STATUS_SUCCESS buf] = 0 :=
    fun buf => count_events_event_ne _ _ _ _ (by decide)
  unfold deliver_discovery_result
  by_cases hc : lm_device_get_connection_state device = .LM_DEVICE_DISCONNECTED
  · rw [if_pos hc]
    by_cases hmm : (!matches_discovery_filter adapter device) = true
    · rw [if_pos hmm]
      rfl
    · rw [if_neg hmm]
      dsimp only
      cases adapter.discovery_filter with
      | none => exact hres _
      | some f =>
        dsimp only
        by_cases hmax : f.max_devices ≠ 0
        · rw [if_pos hmax]
          by_cases hge : (adapter.discovery_devices_found + 1) % 2 ^ 32 ≥ f.max_devices
          · rw [if_pos hge]
            rw [count_events_append, count_events_append, hres,
              count_events_event_ne _ _ _ _ (by decide)]
            simp only [lm_adapter_stop_discovery_eq]
            by_cases hs : adapter.discovery_state = .LM_ADAPTER_DISCOVERY_STARTED
            · simp [hs, count_events, lm_effect.is_event]
              decide
            · simp [hs, count_events]
          · rw [if_neg hge]
            exact hres _
        · rw [if_neg hmax]
          exact hres _
  · rw [if_neg hc]
    rfl

theorem lm_device_update_properties_no_event (device : lm_device)
    (ps : List lm_device_property) (m : Nat) (hm : LM_DEVICE_CONN_STATE_CHANGE_IND ≠ m) :
    count_events m (lm_device_update_properties device ps).2 = 0 := by
  induction ps generalizing device with
  | nil => rfl
  | cons p ps ih =>
    have hstep : count_events m (lm_device_update_property device p).2 = 0 := by
      cases p with
      | DEVICE_PROPERTY_CONNECTED b =>
        cases b <;>
          exact lm_device_set_conn_state_no_event device _ m hm
      | _ => rfl
    simp only [lm_device_update_properties]
    rw [count_events_append, hstep, ih]

/-- C13, amended: for a device cached in the device map of its adapter, a
transport and a player, in any state, and any property batch, applying the
batch a second time right after the first leaves the state of the entity as the
first application left it: for the device both through the property loop and
through `on_device_prop_changed`, for the transport and the player through
their property loops.  Events are not suppressed in general.  The second
application of a transport or player batch emits the same events as the first
(the state, volume and QoS events of the active transport and the status and
track events of the active player are sent whether the value changed or not).
The second `on_device_prop_changed` emits no event of the device itself when
the `Connected` entries of the batch, if there are several, carry the same
value: it emits exactly what `deliver_discovery_result` emits if the adapter
is in state started and the batch holds `RSSI`, `ManufacturerData` or
`ServiceData`, and nothing otherwise; so in that case it emits
`LM_ADAPTER_DISCOVERY_RESULT_IND` again for a disconnected device that passes
the filter. -/
theorem C13_batch_applied_twice (U : lm_uuids) (active_transport active_player : Option String)
    (adapter : lm_adapter) (path : String)
    (device : lm_device) (transport : lm_transport) (player : lm_player)
    (device_batch : List lm_device_property) (transport_batch : List lm_transport_property)
    (player_batch : List lm_player_property)
    (hl : g_hash_table_lookup adapter.device_cache path = some device) :
    (g_hash_table_lookup (on_device_prop_changed adapter path device_batch).1.device_cache path
        = some (lm_device_update_properties device device_batch).1
      ∧ g_hash_table_lookup
          (on_device_prop_changed (on_device_prop_changed adapter path device_batch).1 path
            device_batch).1.device_cache path
        = some (lm_device_update_properties device device_batch).1)
    ∧ (lm_device_update_properties (lm_device_update_properties device device_batch).1
        device_batch).1 = (lm_device_update_properties device device_batch).1
    ∧ (lm_transport_update_properties U active_transport
        (lm_transport_update_properties U active_transport transport transport_batch).1
        transport_batch).1
      = (lm_transport_update_properties U active_transport transport transport_batch).1
    ∧ (lm_player_update_properties active_player
        (lm_player_update_properties active_player player player_batch).1 player_batch).1
      = (lm_player_update_properties active_player player player_batch).1
    ∧ (lm_transport_update_properties U active_transport
        (lm_transport_update_properties U active_transport transport transport_batch).1
        transport_batch).2
      = (lm_transport_update_properties U active_transport transport transport_batch).2
    ∧ (lm_player_update_properties active_player
        (lm_player_update_properties active_player player player_batch).1 player_batch).2
      = (lm_player_update_properties active_player player player_batch).2
    ∧ ((∀ b₁ b₂, lm_device_property.DEVICE_PROPERTY_CONNECTED b₁ ∈ device_batch →
          lm_device_property.DEVICE_PROPERTY_CONNECTED b₂ ∈ device_batch → b₁ = b₂) →
        (on_device_prop_changed (on_device_prop_changed adapter path device_batch).1 path
            device_batch).2
          = (if (on_device_prop_changed adapter path device_batch).1.discovery_state
                = .LM_ADAPTER_DISCOVERY_STARTED
              ∧ device_batch.any lm_device_property.is_dis_result = true then
            (deliver_discovery_result (on_device_prop_changed adapter path device_batch).1
              (lm_device_update_properties device device_batch).1).2
          else [])
        ∧ count_events LM_DEVICE_CONN_STATE_CHANGE_IND
            (on_device_prop_changed (on_device_prop_changed adapter path device_batch).1 path
              device_batch).2 = 0)
    ∧ ((on_device_prop_changed adapter path device_batch).1.discovery_state
          = .LM_ADAPTER_DISCOVERY_STARTED →
        device_batch.any lm_device_property.is_dis_result = true →
        (lm_device_update_properties device device_batch).1.connection_state
          = .LM_DEVICE_DISCONNECTED →
        matches_discovery_filter (on_device_prop_changed adapter path device_batch).1
          (lm_device_update_properties device device_batch).1 = true →
        count_events LM_ADAPTER_DISCOVERY_RESULT_IND
          (on_device_prop_changed (on_device_prop_changed adapter path device_batch).1 path
            device_batch).2 = 1) := by
  have ht := lm_transport_update_properties_events U active_transport transport transport
    transport_batch rfl rfl
  have hp := lm_player_update_properties_events active_player player player player_batch rfl
  have hidem := lm_device_update_properties_twice device device_batch
  have h1 := on_device_prop_changed_cached adapter path device_batch device hl
  have hl1 : g_hash_table_lookup (on_device_prop_changed adapter path device_batch).1.device_cache
      path = some (lm_device_update_properties device device_batch).1 := by
    rw [h1.1, g_hash_table_lookup_store_self, hl]
    rfl
  have h2 := on_device_prop_changed_cached (on_device_prop_changed adapter path device_batch).1
    path device_batch _ hl1
  rw [hidem] at h2
  refine ⟨⟨hl1, ?_⟩, hidem,
    lm_transport_update_properties_twice U active_transport transport transport_batch,
    lm_player_update_properties_twice active_player player player_batch,
    (lm_transport_update_properties_events U active_transport _ transport transport_batch
      ht.2.1 ht.2.2).1,
    (lm_player_update_properties_events active_player _ player player_batch hp.2).1, ?_, ?_⟩
  · rw [h2.1, g_hash_table_lookup_store_self, hl1]
    rfl
  · intro hall
    have hq := lm_device_update_properties_twice_quiet device device_batch hall
    have he : (on_device_prop_changed (on_device_prop_changed adapter path device_batch).1 path
          device_batch).2
        = (if (on_device_prop_changed adapter path device_batch).1.discovery_state
              = .LM_ADAPTER_DISCOVERY_STARTED
            ∧ device_batch.any lm_device_property.is_dis_result = true then
          (deliver_discovery_result (on_device_prop_changed adapter path device_batch).1
            (lm_device_update_properties device device_batch).1).2
        else []) := by
      rw [h2.2, hq, List.nil_append]
    refine ⟨he, ?_⟩
    rw [he]
    split
    · exact deliver_discovery_result_no_device_event _ _
    · rfl
  · intro hs hd hc hm
    rw [h2.2, count_events_append,
      lm_device_update_properties_no_event _ _ _ (by decide), if_pos ⟨hs, hd⟩,
      deliver_discovery_result_result_ind _ _ hc hm]

/-- C13 amended, at the adapter `/a` in state started with the disconnected
device `/a/d` cached and the batch `RSSI = -60`: after the second
`on_device_prop_changed` the cached device is as the first left it, no
connection state event is emitted, and the discovery result is emitted again. -/
theorem C13_batch_applied_twice_witness :
    g_hash_table_lookup example_adapter_discovering.device_cache "/a/d" = some example_device
    ∧ (on_device_prop_changed example_adapter_discovering "/a/d"
        [.DEVICE_PROPERTY_RSSI (-60)]).1.discovery_state = .LM_ADAPTER_DISCOVERY_STARTED
    ∧ g_hash_table_lookup
        (on_device_prop_changed
          (on_device_prop_changed example_adapter_discovering "/a/d"
            [.DEVICE_PROPERTY_RSSI (-60)]).1 "/a/d"
          [.DEVICE_PROPERTY_RSSI (-60)]).1.device_cache "/a/d"
      = some (lm_device_update_properties example_device [.DEVICE_PROPERTY_RSSI (-60)]).1
    ∧ count_events LM_DEVICE_CONN_STATE_CHANGE_IND
        (on_device_prop_changed
          (on_device_prop_changed example_adapter_discovering "/a/d"
            [.DEVICE_PROPERTY_RSSI (-60)]).1 "/a/d"
          [.DEVICE_PROPERTY_RSSI (-60)]).2 = 0
    ∧ count_events LM_ADAPTER_DISCOVERY_RESULT_IND
        (on_device_prop_changed
          (on_device_prop_changed example_adapter_discovering "/a/d"
            [.DEVICE_PROPERTY_RSSI (-60)]).1 "/a/d"
          [.DEVICE_PROPERTY_RSSI (-60)]).2 = 1 :=
  ⟨by decide, by decide,
    (C13_batch_applied_twice sig_uuids none none example_adapter_discovering "/a/d"
      example_device example_transport_quiet example_player [.DEVICE_PROPERTY_RSSI (-60)] [] []
      (by decide)).1.2,
    ((C13_batch_applied_twice sig_uuids none none example_adapter_discovering "/a/d"
      example_device example_transport_quiet example_player [.DEVICE_PROPERTY_RSSI (-60)] [] []
      (by decide)).2.2.2.2.2.2.1 (by decide)).2,
    (C13_batch_applied_twice sig_uuids none none example_adapter_discovering "/a/d"
      example_device example_transport_quiet example_player [.DEVICE_PROPERTY_RSSI (-60)] [] []
      (by decide)).2.2.2.2.2.2.2 (by decide) (by decide) (by decide) (by decide)⟩
